import Mathlib

/-!
# invader-bitmap: the tag assembler (`perform_the_ritual`)

Shallow embedding of `src/bitmap/bitmap.cpp`.  The function is translated
statement by statement; everything it calls that lives outside the file (the
tag parser, the image loaders, zlib, the color plate scanner, the bitmap
processor, the pixel writer, the file system) is a field of `World`.
-/

set_option autoImplicit false

namespace Invader

/-! ## Machine integers -/

/-- INT16_MAX of the C++ standard library. -/
def INT16_MAX : Nat := 32767

/-- NULL_INDEX, the null value of a 16-bit tag index. -/
def NULL_INDEX : Nat := 65535

/-- Conversion of an integer to std::uint16_t. -/
def to_uint16 (i : Int) : Nat := (i % 65536).toNat

/-- Conversion of a 16-bit pattern to std::int16_t (two's complement). -/
def to_int16 (n : Nat) : Int :=
  if n % 65536 < 32768 then ((n % 65536 : Nat) : Int) else ((n % 65536 : Nat) : Int) - 65536

/-! ## 32-bit floats

The code only copies floats, compares them with constants and divides two
integers converted to float.  A float is one of NaN, an infinity or a finite
value; finite values are kept as exact rationals (rounding is not modelled,
decimal literals stand for their decimal value). -/

/-- Model of a C++ float. -/
inductive F32 where
  | nan : F32
  | neg_inf : F32
  | fin (q : ℚ) : F32
  | pos_inf : F32
  deriving DecidableEq

namespace F32

/-- The literal 0.0F. -/
def zero : F32 := fin 0

/-- The literal 1.0F. -/
def one : F32 := fin 1

/-- The C++ comparison a > b (false when either side is NaN). -/
def gt : F32 → F32 → Bool
  | nan, _ => false
  | _, nan => false
  | neg_inf, _ => false
  | fin _, neg_inf => true
  | fin a, fin b => decide (b < a)
  | fin _, pos_inf => false
  | pos_inf, pos_inf => false
  | pos_inf, _ => true

/-- The C++ comparison a <= b (false when either side is NaN). -/
def le : F32 → F32 → Bool
  | nan, _ => false
  | _, nan => false
  | neg_inf, _ => true
  | fin _, neg_inf => false
  | fin a, fin b => decide (a ≤ b)
  | fin _, pos_inf => true
  | pos_inf, pos_inf => true
  | pos_inf, _ => false

/-- The quotient static_cast<float>(a) / b of an integer converted to float by
an unsigned integer (which C++ converts to float too): IEEE gives NaN for 0/0
and an infinity for a non-zero value over zero. -/
def ratio (a : Int) (b : Nat) : F32 :=
  if b = 0 then (if a = 0 then nan else if 0 < a then pos_inf else neg_inf)
  else fin ((a : ℚ) / (b : ℚ))

end F32

/-! ## Enumerations of the tag definitions (`invader/tag/hek/definition.hpp`) -/

/-- HEK::BitmapType. -/
inductive BitmapType where
  | BITMAP_TYPE_2D_TEXTURES
  | BITMAP_TYPE_3D_TEXTURES
  | BITMAP_TYPE_CUBE_MAPS
  | BITMAP_TYPE_SPRITES
  | BITMAP_TYPE_INTERFACE_BITMAPS
  deriving DecidableEq

/-- HEK::BitmapFormat, the encoding format of the tag header. -/
inductive BitmapFormat where
  | BITMAP_FORMAT_DXT1
  | BITMAP_FORMAT_DXT3
  | BITMAP_FORMAT_DXT5
  | BITMAP_FORMAT_16_BIT
  | BITMAP_FORMAT_32_BIT
  | BITMAP_FORMAT_MONOCHROME
  deriving DecidableEq

/-- HEK::BitmapUsage. -/
inductive BitmapUsage where
  | BITMAP_USAGE_ALPHA_BLEND
  | BITMAP_USAGE_DEFAULT
  | BITMAP_USAGE_HEIGHT_MAP
  | BITMAP_USAGE_DETAIL_MAP
  | BITMAP_USAGE_LIGHT_MAP
  | BITMAP_USAGE_VECTOR_MAP
  deriving DecidableEq

/-- HEK::BitmapSpriteUsage. -/
inductive BitmapSpriteUsage where
  | BITMAP_SPRITE_USAGE_BLEND_ADD_SUBTRACT_MAX
  | BITMAP_SPRITE_USAGE_MULTIPLY_MIN
  | BITMAP_SPRITE_USAGE_DOUBLE_MULTIPLY
  deriving DecidableEq

/-- BitmapMipmapScaleType of the bitmap processor. -/
inductive BitmapMipmapScaleType where
  | BITMAP_MIPMAP_SCALE_TYPE_LINEAR
  | BITMAP_MIPMAP_SCALE_TYPE_NEAREST_ALPHA
  | BITMAP_MIPMAP_SCALE_TYPE_NEAREST
  deriving DecidableEq

/-- HEK::BitmapSpriteBudgetSize. -/
inductive BitmapSpriteBudgetSize where
  | BITMAP_SPRITE_BUDGET_SIZE_32X32
  | BITMAP_SPRITE_BUDGET_SIZE_64X64
  | BITMAP_SPRITE_BUDGET_SIZE_128X128
  | BITMAP_SPRITE_BUDGET_SIZE_256X256
  | BITMAP_SPRITE_BUDGET_SIZE_512X512
  | BITMAP_SPRITE_BUDGET_SIZE_1024X1024
  deriving DecidableEq

/-- Modelled from the spec: the numeric values of the BitmapSpriteBudgetSize
enumerators, which `definition.hpp` declares and the spec lists as
32→0, 64→1, 128→2, 256→3, 512→4, 1024→5. -/
def BitmapSpriteBudgetSize.value : BitmapSpriteBudgetSize → Nat
  | BITMAP_SPRITE_BUDGET_SIZE_32X32 => 0
  | BITMAP_SPRITE_BUDGET_SIZE_64X64 => 1
  | BITMAP_SPRITE_BUDGET_SIZE_128X128 => 2
  | BITMAP_SPRITE_BUDGET_SIZE_256X256 => 3
  | BITMAP_SPRITE_BUDGET_SIZE_512X512 => 4
  | BITMAP_SPRITE_BUDGET_SIZE_1024X1024 => 5

/-- The three masks of HEK::BitmapFlagsFlag the assembler uses.  Their values
are declared in `definition.hpp`; they are parameters here. -/
structure BitmapFlagsFlag where
  BITMAP_FLAGS_FLAG_ENABLE_DIFFUSION_DITHERING : Nat
  BITMAP_FLAGS_FLAG_DISABLE_HEIGHT_MAP_COMPRESSION : Nat
  BITMAP_FLAGS_FLAG_FILTHY_SPRITE_BUG_FIX : Nat

/-! ## Data of the color plate scanner and of the tag -/

/-- Pixel of the color plate: four 8-bit channels in memory order. -/
structure Pixel where
  blue : Nat
  green : Nat
  red : Nat
  alpha : Nat
  deriving DecidableEq

/-- Sprite of a scanned sequence (GeneratedBitmapDataSprite): edges and
registration point in pixels of the sheet `bitmap_index`. -/
structure GeneratedBitmapDataSprite where
  top : Nat
  left : Nat
  bottom : Nat
  right : Nat
  registration_point_x : Int
  registration_point_y : Int
  bitmap_index : Nat
  deriving DecidableEq

/-- Sequence of a scanned color plate (GeneratedBitmapDataSequence). -/
structure GeneratedBitmapDataSequence where
  first_bitmap : Nat
  bitmap_count : Nat
  sprites : List GeneratedBitmapDataSprite
  deriving DecidableEq

/-- Bitmap of a scanned color plate; only the dimensions are read by the
assembler. -/
structure GeneratedBitmapDataBitmap where
  width : Nat
  height : Nat
  depth : Nat
  deriving DecidableEq

/-- Result of the scanner and the processor (GeneratedBitmapData). -/
structure GeneratedBitmapData where
  bitmaps : List GeneratedBitmapDataBitmap
  sequences : List GeneratedBitmapDataSequence
  deriving DecidableEq

/-- Point2D of the tag definitions. -/
structure Point2D where
  x : F32
  y : F32
  deriving DecidableEq

/-- Sprite sub-record of a tag sequence (Parser::BitmapGroupSprite). -/
structure BitmapGroupSprite where
  bitmap_index : Nat
  left : F32
  right : F32
  top : F32
  bottom : F32
  registration_point : Point2D
  deriving DecidableEq

/-- Sequence of the tag (Parser::BitmapGroupSequence). -/
structure BitmapGroupSequence where
  first_bitmap_index : Nat
  bitmap_count : Nat
  sprites : List BitmapGroupSprite
  deriving DecidableEq

/-- Per-bitmap record of the tag (Parser::BitmapData), produced by the pixel
writer and not inspected by the assembler. -/
structure BitmapData where
  width : Nat
  height : Nat
  depth : Nat
  mipmap_count : Nat
  pixel_data_offset : Nat
  deriving DecidableEq

/-- The bitmap tag (Parser::Bitmap), the fields the assembler touches.
Integers are the 16-bit fields of the tag layout, byte vectors are lists of
values below 256. -/
structure Bitmap where
  type : BitmapType
  encoding_format : BitmapFormat
  usage : BitmapUsage
  flags : Nat
  detail_fade_factor : F32
  sharpen_amount : F32
  bump_height : F32
  sprite_budget_size : BitmapSpriteBudgetSize
  sprite_budget_count : Nat
  color_plate_width : Nat
  color_plate_height : Nat
  compressed_color_plate_data : List Nat
  processed_pixel_data : List Nat
  blur_filter_size : F32
  alpha_bias : F32
  mipmap_count : Nat
  sprite_usage : BitmapSpriteUsage
  sprite_spacing : Nat
  bitmap_group_sequence : List BitmapGroupSequence
  bitmap_data : List BitmapData
  deriving DecidableEq

/-- The value-initialised tag of `T bitmap_tag_data = {}`: every field zero,
every vector empty. -/
def Bitmap.empty : Bitmap where
  type := .BITMAP_TYPE_2D_TEXTURES
  encoding_format := .BITMAP_FORMAT_DXT1
  usage := .BITMAP_USAGE_ALPHA_BLEND
  flags := 0
  detail_fade_factor := F32.zero
  sharpen_amount := F32.zero
  bump_height := F32.zero
  sprite_budget_size := .BITMAP_SPRITE_BUDGET_SIZE_32X32
  sprite_budget_count := 0
  color_plate_width := 0
  color_plate_height := 0
  compressed_color_plate_data := []
  processed_pixel_data := []
  blur_filter_size := F32.zero
  alpha_bias := F32.zero
  mipmap_count := 0
  sprite_usage := .BITMAP_SPRITE_USAGE_BLEND_ADD_SUBTRACT_MAX
  sprite_spacing := 0
  bitmap_group_sequence := []
  bitmap_data := []

/-! ## Options -/

/-- The struct BitmapOptions.  The two directories and `filesystem_path` only
select files and are represented by the `World`. -/
structure BitmapOptions where
  allow_non_power_of_two : Bool
  mipmap_scale_type : Option BitmapMipmapScaleType
  format : Option BitmapFormat
  auto_format : Option Bool
  usage : Option BitmapUsage
  bump_height : Option F32
  palettize : Option Bool
  mipmap_fade : Option F32
  bitmap_type : Option BitmapType
  sprite_usage : Option BitmapSpriteUsage
  sprite_budget : Option Nat
  sprite_budget_count : Option Nat
  sprite_spacing : Option Nat
  force_square_sprite_sheets : Bool
  dithering : Option Bool
  sharpen : Option F32
  blur : Option F32
  alpha_bias : Option F32
  max_mipmap_count : Option Nat
  filthy_sprite_bug_fix : Option Bool
  ignore_tag_data : Bool
  regenerate : Bool
  deriving DecidableEq

/-- The default member initialisers of BitmapOptions: nothing given. -/
def BitmapOptions.initial : BitmapOptions where
  allow_non_power_of_two := false
  mipmap_scale_type := none
  format := none
  auto_format := none
  usage := none
  bump_height := none
  palettize := none
  mipmap_fade := none
  bitmap_type := none
  sprite_usage := none
  sprite_budget := none
  sprite_budget_count := none
  sprite_spacing := none
  force_square_sprite_sheets := false
  dithering := none
  sharpen := none
  blur := none
  alpha_bias := none
  max_mipmap_count := none
  filthy_sprite_bug_fix := none
  ignore_tag_data := false
  regenerate := false

/-- The handler of option `F` in `main`: the argument "auto" (here `none`)
asks for automatic selection, a format name (here `some f`) for that format. -/
def format_option (argument : Option BitmapFormat) (o : BitmapOptions) : BitmapOptions :=
  match argument with
  | none => { o with format := none, auto_format := some true }
  | some f => { o with format := some f, auto_format := some false }

/-! ## The outside world and the observable behaviour -/

/-- What `std::filesystem::exists(final_path)`, `File::open_file` and
`parse_hek_tag_file` find at the destination: no file, a file that cannot be
opened or parsed (an exception nobody catches), or a tag. -/
inductive TagFile where
  | absent
  | unreadable
  | present (tag : Bitmap)
  deriving DecidableEq

/-- The call std::filesystem::exists(final_path). -/
def TagFile.file_exists : TagFile → Bool
  | .absent => false
  | _ => true

/-- What `load_tiff` / `load_image` return for the first existing file with a
supported extension. -/
structure LoadedImage where
  image_pixels : List Pixel
  image_width : Nat
  image_height : Nat
  image_size : Nat
  deriving DecidableEq

/-- BitmapProcessorSpriteParameters. -/
structure BitmapProcessorSpriteParameters where
  sprite_budget : Nat
  sprite_budget_count : Nat
  sprite_usage : BitmapSpriteUsage
  sprite_spacing : Nat
  force_square_sprite_sheets : Bool
  deriving DecidableEq

/-- Arguments of `ColorPlateScanner::scan_color_plate`. -/
structure ScanArguments where
  pixels : List Pixel
  width : Nat
  height : Nat
  type : BitmapType
  usage : BitmapUsage
  filthy_sprite_bug_fix : Bool
  allow_non_power_of_two : Bool
  deriving DecidableEq

/-- Arguments of `BitmapProcessor::process_bitmap_data` after the scanned data. -/
structure ProcessArguments where
  type : BitmapType
  usage : BitmapUsage
  bump_height : F32
  sprite_parameters : Option BitmapProcessorSpriteParameters
  max_mipmap_count : Nat
  mipmap_scale_type : BitmapMipmapScaleType
  mipmap_fade : Option F32
  sharpen : Option F32
  blur : Option F32
  alpha_bias : Option F32
  deriving DecidableEq

/-- Arguments of `write_bitmap_data` (the two output vectors are empty when it
is called). -/
structure WriteArguments where
  scanned_color_plate : GeneratedBitmapData
  usage : BitmapUsage
  format : Option BitmapFormat
  bitmap_type : BitmapType
  palettize : Bool
  dithering : Bool
  deriving DecidableEq

/-- What `write_bitmap_data` leaves in its reference arguments: the pixel
blob, the bitmap records and the format option (which it may fill in). -/
structure WrittenBitmapData where
  processed_pixel_data : List Nat
  bitmap_data : List BitmapData
  format : Option BitmapFormat
  deriving DecidableEq

/-- Everything `perform_the_ritual` gets from outside `bitmap.cpp`.
A collaborator that throws returns `none`. -/
structure World where
  /-- the flag masks of the tag definitions -/
  flag : BitmapFlagsFlag
  /-- the destination `final_path` -/
  tag_file : TagFile
  /-- the image under the data directory, `none` when no supported file exists -/
  image : Option LoadedImage
  /-- zlib inflate: input bytes, avail_in, avail_out to the bytes written -/
  inflate : List Nat → Nat → Nat → List Nat
  /-- zlib deflate at Z_BEST_COMPRESSION: input pixels, avail_in, avail_out to
  the `total_out` bytes written -/
  deflate : List Pixel → Nat → Nat → List Nat
  scan_color_plate : ScanArguments → Option GeneratedBitmapData
  process_bitmap_data : GeneratedBitmapData → ProcessArguments → Option GeneratedBitmapData
  write_bitmap_data : WriteArguments → Option WrittenBitmapData
  /-- `File::save_file` on the generated tag -/
  save_file : Bitmap → Bool

/-- The diagnostics of `perform_the_ritual`. -/
inductive Message where
  /-- "Cannot regenerate. No bitmap tag exists at %s" -/
  | cannot_regenerate_no_tag
  /-- "Cannot regenerate a bitmap that doesn't have color plate data." -/
  | no_color_plate_data
  /-- "Cannot regenerate due the compressed color plate data size being wrong" -/
  | color_plate_data_size_wrong
  /-- "Failed to find %s in %s" -/
  | failed_to_find_image
  /-- "Failed to process the image: %s" -/
  | failed_to_process
  /-- "Color plate dimensions exceed ..." (a warning) -/
  | color_plate_too_large
  /-- "Failed to generate bitmap data: %s" -/
  | failed_to_generate
  /-- "Error: Failed to write to %s." -/
  | failed_to_write
  deriving DecidableEq

/-- Observable steps of a run, in order. -/
inductive Event where
  | eprintf_error (m : Message)
  | eprintf_warn (m : Message)
  | inflate (next_in : List Nat) (avail_in avail_out : Nat)
  | scan_color_plate (a : ScanArguments)
  | process_bitmap_data (a : ProcessArguments)
  | deflate (avail_in avail_out : Nat)
  | write_bitmap_data (a : WriteArguments)
  | save_file (tag : Bitmap)
  deriving DecidableEq

/-- How a run ends. -/
inductive Termination where
  | return_success
  | return_failure
  | exit_failure
  | uncaught_exception
  deriving DecidableEq

/-- A run: what happened and how it ended. -/
structure Run where
  trace : List Event
  result : Termination
  deriving DecidableEq

/-- The tag a run saved, if it saved one. -/
def Run.written (r : Run) : Option Bitmap :=
  r.trace.findSome? fun e => match e with
    | .save_file t => some t
    | _ => none

/-- The arguments of the calls of the bitmap processor in a run. -/
def Run.process_calls (r : Run) : List ProcessArguments :=
  r.trace.filterMap fun e => match e with
    | .process_bitmap_data a => some a
    | _ => none

/-- The arguments of the calls of the pixel writer in a run. -/
def Run.write_calls (r : Run) : List WriteArguments :=
  r.trace.filterMap fun e => match e with
    | .write_bitmap_data a => some a
    | _ => none

/-- Whether a run called inflate. -/
def Run.inflated (r : Run) : Bool :=
  r.trace.any fun e => match e with
    | .inflate _ _ _ => true
    | _ => false

/-! ## `perform_the_ritual`, part by part -/

/-- The option's value: `.value()` and `*` on a std::optional.  Every option read
this way has been given a value by `default_values` before it is read. -/
def value {α : Type} [Inhabited α] (x : Option α) : α := x.getD default

instance : Inhabited F32 := ⟨F32.zero⟩
instance : Inhabited BitmapType := ⟨.BITMAP_TYPE_2D_TEXTURES⟩
instance : Inhabited BitmapUsage := ⟨.BITMAP_USAGE_ALPHA_BLEND⟩
instance : Inhabited BitmapSpriteUsage := ⟨.BITMAP_SPRITE_USAGE_BLEND_ADD_SUBTRACT_MAX⟩
instance : Inhabited BitmapMipmapScaleType := ⟨.BITMAP_MIPMAP_SCALE_TYPE_LINEAR⟩

/-- Lines 120-174: "Set some default values" from the parsed tag, one `if` per
option, in source order. -/
def defaults_from_tag (fl : BitmapFlagsFlag) (bitmap_tag_data : Bitmap) (o : BitmapOptions) :
    BitmapOptions :=
  let o := if o.format.isNone && !(o.auto_format.getD false)
    then { o with format := some bitmap_tag_data.encoding_format, auto_format := some false } else o
  let o := if o.mipmap_fade.isNone
    then { o with mipmap_fade := some bitmap_tag_data.detail_fade_factor } else o
  let o := if o.bitmap_type.isNone
    then { o with bitmap_type := some bitmap_tag_data.type } else o
  let o := if o.max_mipmap_count.isNone then
      let mipmap_count : Int := to_int16 bitmap_tag_data.mipmap_count
      if mipmap_count = 0 then { o with max_mipmap_count := some INT16_MAX }
      else { o with max_mipmap_count := some (to_uint16 (mipmap_count - 1)) }
    else o
  let o := if o.sprite_usage.isNone
    then { o with sprite_usage := some bitmap_tag_data.sprite_usage } else o
  let o := if o.sprite_budget.isNone
    then { o with
      sprite_budget := some ((32 <<< bitmap_tag_data.sprite_budget_size.value) % 4294967296) }
    else o
  let o := if o.sprite_budget_count.isNone
    then { o with sprite_budget_count := some bitmap_tag_data.sprite_budget_count } else o
  let o := if o.usage.isNone
    then { o with usage := some bitmap_tag_data.usage } else o
  let o := if o.dithering.isNone
    then { o with
      dithering := some (bitmap_tag_data.flags &&& fl.BITMAP_FLAGS_FLAG_ENABLE_DIFFUSION_DITHERING != 0) }
    else o
  let o := if o.palettize.isNone
    then { o with
      palettize := some (!(bitmap_tag_data.flags &&& fl.BITMAP_FLAGS_FLAG_DISABLE_HEIGHT_MAP_COMPRESSION != 0)) }
    else o
  let o := if o.bump_height.isNone
    then { o with bump_height := some bitmap_tag_data.bump_height } else o
  let o := if o.sharpen.isNone && F32.gt bitmap_tag_data.sharpen_amount F32.zero
        && F32.le bitmap_tag_data.sharpen_amount F32.one
    then { o with sharpen := some bitmap_tag_data.sharpen_amount } else o
  let o := if o.blur.isNone && F32.gt bitmap_tag_data.blur_filter_size F32.zero
    then { o with blur := some bitmap_tag_data.blur_filter_size } else o
  let o := if o.sprite_spacing.isNone
    then { o with sprite_spacing := some bitmap_tag_data.sprite_spacing } else o
  let o := if o.filthy_sprite_bug_fix.isNone
    then { o with
      filthy_sprite_bug_fix := some (bitmap_tag_data.flags &&& fl.BITMAP_FLAGS_FLAG_FILTHY_SPRITE_BUG_FIX != 0) }
    else o
  let o := if o.alpha_bias.isNone
    then { o with alpha_bias := some bitmap_tag_data.alpha_bias } else o
  o

/-- Lines 177-179: "Clear existing data". -/
def clear_existing_data (bitmap_tag_data : Bitmap) : Bitmap :=
  { bitmap_tag_data with bitmap_data := [], bitmap_group_sequence := [], processed_pixel_data := [] }

/-- Lines 189-207: the DEFAULT_VALUE block, in source order.  The literal
0.026F is kept as the rational 26/1000. -/
def default_values (o : BitmapOptions) : BitmapOptions :=
  let o := if o.auto_format.isNone then { o with auto_format := some true } else o
  let o := if o.bitmap_type.isNone
    then { o with bitmap_type := some .BITMAP_TYPE_2D_TEXTURES } else o
  let o := if o.max_mipmap_count.isNone then { o with max_mipmap_count := some INT16_MAX } else o
  let o := if o.sprite_usage.isNone
    then { o with sprite_usage := some .BITMAP_SPRITE_USAGE_BLEND_ADD_SUBTRACT_MAX } else o
  let o := if o.sprite_budget.isNone then { o with sprite_budget := some 32 } else o
  let o := if o.sprite_budget_count.isNone then { o with sprite_budget_count := some 0 } else o
  let o := if o.mipmap_scale_type.isNone
    then { o with mipmap_scale_type := some .BITMAP_MIPMAP_SCALE_TYPE_LINEAR } else o
  let o := if o.mipmap_fade.isNone then { o with mipmap_fade := some F32.zero } else o
  let o := if o.usage.isNone then { o with usage := some .BITMAP_USAGE_DEFAULT } else o
  let o := if o.palettize.isNone then { o with palettize := some false } else o
  let o := if o.bump_height.isNone then { o with bump_height := some (F32.fin (26 / 1000)) } else o
  let o := if o.mipmap_fade.isNone then { o with mipmap_fade := some F32.zero } else o
  let o := if o.alpha_bias.isNone then { o with alpha_bias := some F32.zero } else o
  let o := if o.dithering.isNone then { o with dithering := some false } else o
  let o := if o.filthy_sprite_bug_fix.isNone
    then { o with filthy_sprite_bug_fix := some false } else o
  let o := if o.sprite_spacing.isNone then { o with sprite_spacing := some 0 } else o
  o

/-- Whether the existing tag is used: line 115,
`!ignore_tag_data && std::filesystem::exists(final_path)`. -/
def uses_existing_tag (f : TagFile) (o : BitmapOptions) : Bool :=
  !o.ignore_tag_data && f.file_exists

/-- The tag data the run starts from (lines 112-180): the parsed tag with its
bitmap data cleared when a tag is used, the value-initialised tag otherwise. -/
def starting_tag (f : TagFile) (o : BitmapOptions) : Bitmap :=
  match f with
  | .present tag => if uses_existing_tag f o then clear_existing_data tag else Bitmap.empty
  | _ => Bitmap.empty

/-- The options as they stand after line 209 (defaults from a used tag, then
DEFAULT_VALUE), for a run that gets that far. -/
def resolve_options (fl : BitmapFlagsFlag) (f : TagFile) (o : BitmapOptions) : BitmapOptions :=
  match f with
  | .present tag =>
    if uses_existing_tag f o then default_values (defaults_from_tag fl tag o) else default_values o
  | _ => default_values o

/-- The read of a BigEndian<std::uint32_t> at the start of a byte vector. -/
def read_big_endian_u32 (data : List Nat) : Nat :=
  data.getD 0 0 % 256 * 16777216 + data.getD 1 0 % 256 * 65536
    + data.getD 2 0 % 256 * 256 + data.getD 3 0 % 256

/-- The four bytes of a BigEndian<std::uint32_t> holding static_cast<std::uint32_t>(n). -/
def write_big_endian_u32 (n : Nat) : List Nat :=
  let v := n % 4294967296
  [v / 16777216 % 256, v / 65536 % 256, v / 256 % 256, v % 256]

/-- A vector of `count` value-initialised pixels overwritten from its start
with `bytes` (the output buffer of inflate). -/
def pixels_from_bytes (count : Nat) (bytes : List Nat) : List Pixel :=
  (List.range count).map fun i =>
    { blue := bytes.getD (4 * i) 0, green := bytes.getD (4 * i + 1) 0,
      red := bytes.getD (4 * i + 2) 0, alpha := bytes.getD (4 * i + 3) 0 }

/-- The variables image_pixels, image_width, image_height, image_size of lines 212-214. -/
structure ColorPlate where
  image_pixels : List Pixel
  image_width : Nat
  image_height : Nat
  image_size : Nat
  deriving DecidableEq

/-- Lines 217-287: get the color plate, from the tag when regenerating, from
the image file otherwise.  Returns the run that ends here, or the plate with
the events so far. -/
def get_color_plate (w : World) (o : BitmapOptions) (bitmap_tag_data : Bitmap) :
    Run ⊕ (List Event × ColorPlate) :=
  if o.regenerate then
    let size := bitmap_tag_data.compressed_color_plate_data.length
    let image_width := bitmap_tag_data.color_plate_width
    let image_height := bitmap_tag_data.color_plate_height
    if size < 4 || image_width == 0 || image_height == 0 then
      .inl ⟨[.eprintf_error .no_color_plate_data], .return_failure⟩
    else
      let image_size := read_big_endian_u32 bitmap_tag_data.compressed_color_plate_data
      if image_size % 4 != 0 then
        .inl ⟨[.eprintf_error .color_plate_data_size_wrong], .return_failure⟩
      else
        let data := bitmap_tag_data.compressed_color_plate_data.drop 4
        let avail_in := (size - 4) % 4294967296
        let out := (w.inflate data avail_in image_size).take image_size
        .inr ([.inflate data avail_in image_size],
          ⟨pixels_from_bytes (image_size / 4) out, image_width, image_height, image_size⟩)
  else
    let plate : ColorPlate := match w.image with
      | some i => ⟨i.image_pixels, i.image_width, i.image_height, i.image_size⟩
      | none => ⟨[], 0, 0, 0⟩
    if plate.image_pixels.isEmpty then
      .inl ⟨[.eprintf_error .failed_to_find_image], .return_failure⟩
    else
      .inr ([], plate)

/-- Lines 290-299: the sprite parameters, set for sprites only. -/
def sprite_parameters (o : BitmapOptions) : Option BitmapProcessorSpriteParameters :=
  if value o.bitmap_type = .BITMAP_TYPE_SPRITES then
    some { sprite_budget := value o.sprite_budget,
           sprite_budget_count := value o.sprite_budget_count,
           sprite_usage := value o.sprite_usage,
           sprite_spacing := value o.sprite_spacing,
           force_square_sprite_sheets := o.force_square_sprite_sheets }
  else none

/-- Line 304: the arguments handed to the scanner. -/
def scan_arguments (o : BitmapOptions) (plate : ColorPlate) : ScanArguments :=
  { pixels := plate.image_pixels, width := plate.image_width, height := plate.image_height,
    type := value o.bitmap_type, usage := value o.usage,
    filthy_sprite_bug_fix := value o.filthy_sprite_bug_fix,
    allow_non_power_of_two := o.allow_non_power_of_two }

/-- Line 305: the arguments handed to the processor. -/
def process_arguments (o : BitmapOptions) : ProcessArguments :=
  { type := value o.bitmap_type, usage := value o.usage, bump_height := value o.bump_height,
    sprite_parameters := sprite_parameters o,
    max_mipmap_count := value o.max_mipmap_count,
    mipmap_scale_type := value o.mipmap_scale_type,
    mipmap_fade := if o.usage = some .BITMAP_USAGE_DETAIL_MAP then o.mipmap_fade else none,
    sharpen := o.sharpen, blur := o.blur, alpha_bias := o.alpha_bias }

/-- Lines 317-353: "Compress the original input blob".  Returns the events and
the tag data. -/
def compress_color_plate (w : World) (o : BitmapOptions) (plate : ColorPlate)
    (bitmap_tag_data : Bitmap) : List Event × Bitmap :=
  if !o.regenerate then
    if plate.image_width > INT16_MAX || plate.image_height > INT16_MAX then
      ([.eprintf_warn .color_plate_too_large],
        { bitmap_tag_data with color_plate_width := 0, color_plate_height := 0 })
    else
      let avail_in := plate.image_size % 4294967296
      let avail_out := plate.image_size * 4 % 4294967296
      let total_out := w.deflate plate.image_pixels avail_in avail_out
      ([.deflate avail_in avail_out],
        { bitmap_tag_data with
          color_plate_width := plate.image_width % 65536,
          color_plate_height := plate.image_height % 65536,
          compressed_color_plate_data := write_big_endian_u32 plate.image_size ++ total_out })
  else ([], bitmap_tag_data)

/-- Line 365: the arguments handed to the pixel writer. -/
def write_arguments (o : BitmapOptions) (scanned_color_plate : GeneratedBitmapData) :
    WriteArguments :=
  { scanned_color_plate := scanned_color_plate, usage := value o.usage, format := o.format,
    bitmap_type := value o.bitmap_type, palettize := value o.palettize,
    dithering := value o.dithering }

/-- Lines 388-403: one sprite of a sequence is added to the tag sequence.
`bitmaps[sprite.bitmap_index]` past the end of the vector reads a bitmap of
zero size here. -/
def add_sprite (bitmaps : List GeneratedBitmapDataBitmap) (bgs : BitmapGroupSequence)
    (sprite : GeneratedBitmapDataSprite) : BitmapGroupSequence :=
  let bitmap := bitmaps.getD sprite.bitmap_index ⟨0, 0, 0⟩
  let bgss : BitmapGroupSprite :=
    { bitmap_index := sprite.bitmap_index % 65536,
      bottom := F32.ratio sprite.bottom bitmap.height,
      top := F32.ratio sprite.top bitmap.height,
      registration_point :=
        { y := F32.ratio sprite.registration_point_y bitmap.height,
          x := F32.ratio sprite.registration_point_x bitmap.width },
      left := F32.ratio sprite.left bitmap.width,
      right := F32.ratio sprite.right bitmap.width }
  let bgs := { bgs with sprites := bgs.sprites ++ [bgss] }
  if bgss.bitmap_index < bgs.first_bitmap_index then
    { bgs with first_bitmap_index := bgss.bitmap_index }
  else bgs

/-- Lines 375-409: the tag sequence emitted for one scanned sequence. -/
def add_sequence (o : BitmapOptions) (bitmaps : List GeneratedBitmapDataBitmap)
    (sequence : GeneratedBitmapDataSequence) : BitmapGroupSequence :=
  let bgs : BitmapGroupSequence :=
    if value o.bitmap_type = .BITMAP_TYPE_SPRITES then
      { bitmap_count := if sequence.sprites.length = 1 then 1 else 0,
        first_bitmap_index := NULL_INDEX, sprites := [] }
    else
      { bitmap_count := sequence.bitmap_count % 65536,
        first_bitmap_index := sequence.first_bitmap % 65536, sprites := [] }
  let bgs := sequence.sprites.foldl (add_sprite bitmaps) bgs
  if bgs.first_bitmap_index = NULL_INDEX then { bgs with first_bitmap_index := 0 } else bgs

/-- Lines 374-410: "Add all sequences". -/
def add_all_sequences (o : BitmapOptions) (scanned_color_plate : GeneratedBitmapData)
    (bitmap_tag_data : Bitmap) : Bitmap :=
  { bitmap_tag_data with
    bitmap_group_sequence := bitmap_tag_data.bitmap_group_sequence
      ++ scanned_color_plate.sequences.map (add_sequence o scanned_color_plate.bitmaps) }

/-- Lines 388-398: the sub-record `bgss` built for one sprite, as in `add_sprite`. -/
def sprite_record (bitmaps : List GeneratedBitmapDataBitmap)
    (sprite : GeneratedBitmapDataSprite) : BitmapGroupSprite :=
  let bitmap := bitmaps.getD sprite.bitmap_index ⟨0, 0, 0⟩
  { bitmap_index := sprite.bitmap_index % 65536,
    bottom := F32.ratio sprite.bottom bitmap.height,
    top := F32.ratio sprite.top bitmap.height,
    registration_point :=
      { y := F32.ratio sprite.registration_point_y bitmap.height,
        x := F32.ratio sprite.registration_point_x bitmap.width },
    left := F32.ratio sprite.left bitmap.width,
    right := F32.ratio sprite.right bitmap.width }

/-- The expression `x & ~mask` on promoted (32-bit) integers. -/
def and_not (x mask : Nat) : Nat := x &&& (4294967295 ^^^ mask)

/-- Lines 421-424: the new flags word, stored in the 16-bit flags field. -/
def set_flags (fl : BitmapFlagsFlag) (o : BitmapOptions) (flags : Nat) : Nat :=
  ((and_not (and_not (and_not flags fl.BITMAP_FLAGS_FLAG_ENABLE_DIFFUSION_DITHERING)
        fl.BITMAP_FLAGS_FLAG_DISABLE_HEIGHT_MAP_COMPRESSION)
        fl.BITMAP_FLAGS_FLAG_FILTHY_SPRITE_BUG_FIX)
    ||| (if value o.dithering then fl.BITMAP_FLAGS_FLAG_ENABLE_DIFFUSION_DITHERING else 0)
    ||| (if value o.palettize then 0 else fl.BITMAP_FLAGS_FLAG_DISABLE_HEIGHT_MAP_COMPRESSION)
    ||| (if value o.filthy_sprite_bug_fix then fl.BITMAP_FLAGS_FLAG_FILTHY_SPRITE_BUG_FIX else 0))
    % 65536

/-- Lines 425-430: the mipmap_count field for a mipmap cap. -/
def set_mipmap_count (max_mipmap_count : Nat) : Nat :=
  if max_mipmap_count ≥ INT16_MAX then 0 else (max_mipmap_count + 1) % 65536

/-- Lines 436-459: the switch on the sprite budget. -/
def set_sprite_budget_size (sprite_budget_value : Nat) : BitmapSpriteBudgetSize :=
  match sprite_budget_value with
  | 32 => .BITMAP_SPRITE_BUDGET_SIZE_32X32
  | 64 => .BITMAP_SPRITE_BUDGET_SIZE_64X64
  | 128 => .BITMAP_SPRITE_BUDGET_SIZE_128X128
  | 256 => .BITMAP_SPRITE_BUDGET_SIZE_256X256
  | 512 => .BITMAP_SPRITE_BUDGET_SIZE_512X512
  | 1024 => .BITMAP_SPRITE_BUDGET_SIZE_1024X1024
  | _ => .BITMAP_SPRITE_BUDGET_SIZE_32X32

/-- Lines 413-459: "Set more parameters" and "Set sprite stuff"; `format` is
`bitmap_options.format.value()`. -/
def set_parameters (fl : BitmapFlagsFlag) (o : BitmapOptions) (format : BitmapFormat)
    (bitmap_tag_data : Bitmap) : Bitmap :=
  { bitmap_tag_data with
    type := value o.bitmap_type
    usage := value o.usage
    bump_height := value o.bump_height
    detail_fade_factor := value o.mipmap_fade
    encoding_format := format
    sharpen_amount := o.sharpen.getD F32.zero
    blur_filter_size := o.blur.getD F32.zero
    alpha_bias := o.alpha_bias.getD F32.zero
    flags := set_flags fl o bitmap_tag_data.flags
    mipmap_count := set_mipmap_count (value o.max_mipmap_count)
    sprite_spacing := value o.sprite_spacing % 65536
    sprite_budget_count := value o.sprite_budget_count % 65536
    sprite_usage := value o.sprite_usage
    sprite_budget_size := set_sprite_budget_size (value o.sprite_budget) }

/-- Lines 361-363: with automatic selection the format option is emptied. -/
def clear_format_if_auto (o : BitmapOptions) : BitmapOptions :=
  if value o.auto_format then { o with format := none } else o

/-- Lines 211-471, for the options `o` as they stand after DEFAULT_VALUE and
the tag data as it stands after line 184. -/
def rest_of_the_ritual (w : World) (o : BitmapOptions) (bitmap_tag_data : Bitmap) : Run :=
  match get_color_plate w o bitmap_tag_data with
  | .inl run => run
  | .inr (log, plate) =>
    let log := log ++ [.scan_color_plate (scan_arguments o plate)]
    match w.scan_color_plate (scan_arguments o plate) with
    | none => ⟨log ++ [.eprintf_error .failed_to_process], .exit_failure⟩
    | some scanned_data =>
      let log := log ++ [.process_bitmap_data (process_arguments o)]
      match w.process_bitmap_data scanned_data (process_arguments o) with
      | none => ⟨log ++ [.eprintf_error .failed_to_process], .exit_failure⟩
      | some scanned_color_plate =>
        let compressed := compress_color_plate w o plate bitmap_tag_data
        let log := log ++ compressed.1
        let bitmap_tag_data := compressed.2
        let o := clear_format_if_auto o
        let log := log ++ [.write_bitmap_data (write_arguments o scanned_color_plate)]
        match w.write_bitmap_data (write_arguments o scanned_color_plate) with
        | none => ⟨log ++ [.eprintf_error .failed_to_generate], .exit_failure⟩
        | some written =>
          let bitmap_tag_data := { bitmap_tag_data with
            processed_pixel_data := written.processed_pixel_data
            bitmap_data := written.bitmap_data }
          let bitmap_tag_data := add_all_sequences o scanned_color_plate bitmap_tag_data
          match written.format with
          | none => ⟨log, .uncaught_exception⟩
          | some format =>
            let bitmap_tag_data := set_parameters w.flag o format bitmap_tag_data
            if w.save_file bitmap_tag_data then
              ⟨log ++ [.save_file bitmap_tag_data], .return_success⟩
            else ⟨log ++ [.eprintf_error .failed_to_write], .return_failure⟩

/-- The function `perform_the_ritual<Parser::Bitmap>`. -/
def perform_the_ritual (w : World) (bitmap_options : BitmapOptions) : Run :=
  if uses_existing_tag w.tag_file bitmap_options then
    match w.tag_file with
    | .present tag =>
      rest_of_the_ritual w (default_values (defaults_from_tag w.flag tag bitmap_options))
        (clear_existing_data tag)
    | _ => ⟨[], .uncaught_exception⟩
  else if bitmap_options.regenerate then
    ⟨[.eprintf_error .cannot_regenerate_no_tag], .exit_failure⟩
  else rest_of_the_ritual w (default_values bitmap_options) Bitmap.empty

/-! ## invader-info: the `--type` option (`src/info/info.cpp`) -/

namespace Info

/-- The enum DisplayType of `main`. -/
inductive DisplayType where
  | DISPLAY_OVERVIEW
  | DISPLAY_BUILD
  | DISPLAY_COMPRESSED
  | DISPLAY_COMPRESSION_RATIO
  | DISPLAY_CRC32
  | DISPLAY_CRC32_MISMATCHED
  | DISPLAY_DIRTY
  | DISPLAY_ENGINE
  | DISPLAY_EXTERNAL_BITMAPS
  | DISPLAY_EXTERNAL_DATA
  | DISPLAY_EXTERNAL_LOC
  | DISPLAY_EXTERNAL_SOUNDS
  | DISPLAY_MAP_TYPE
  | DISPLAY_PROTECTED
  | DISPLAY_SCENARIO
  | DISPLAY_SCENARIO_PATH
  | DISPLAY_TAG_COUNT
  | DISPLAY_STUB_COUNT
  | DISPLAY_TAGS
  deriving DecidableEq

/-- The struct MapInfoOptions. -/
structure MapInfoOptions where
  type : DisplayType
  deriving DecidableEq

/-- The value of `map_info_options` before the options are handled. -/
def MapInfoOptions.initial : MapInfoOptions := ⟨.DISPLAY_OVERVIEW⟩

/-- The type names the help text of `--type` lists (line 46), in its order. -/
def help_type_names : List String :=
  ["overview", "build", "compressed", "compression-ratio", "crc32", "crc32-mismatched", "dirty",
   "engine", "external-bitmaps", "external-data", "external-loc", "external-sounds",
   "protected", "map-type", "scenario", "scenario-path", "stub-count", "tag-count", "tags"]

/-- The help text's name of a display type: the enumerator without DISPLAY_,
in lower case, with hyphens. -/
def DisplayType.type_name : DisplayType → String
  | .DISPLAY_OVERVIEW => "overview"
  | .DISPLAY_BUILD => "build"
  | .DISPLAY_COMPRESSED => "compressed"
  | DisplayType.DISPLAY_COMPRESSION_RATIO => "compression-ratio"
  | .DISPLAY_CRC32 => "crc32"
  | .DISPLAY_CRC32_MISMATCHED => "crc32-mismatched"
  | .DISPLAY_DIRTY => "dirty"
  | .DISPLAY_ENGINE => "engine"
  | .DISPLAY_EXTERNAL_BITMAPS => "external-bitmaps"
  | .DISPLAY_EXTERNAL_DATA => "external-data"
  | .DISPLAY_EXTERNAL_LOC => "external-loc"
  | .DISPLAY_EXTERNAL_SOUNDS => "external-sounds"
  | .DISPLAY_MAP_TYPE => "map-type"
  | .DISPLAY_PROTECTED => "protected"
  | DisplayType.DISPLAY_SCENARIO => "scenario"
  | .DISPLAY_SCENARIO_PATH => "scenario-path"
  | .DISPLAY_TAG_COUNT => "tag-count"
  | .DISPLAY_STUB_COUNT => "stub-count"
  | .DISPLAY_TAGS => "tags"

/-- Lines 55-117: the handler of option `T` for the argument `args[0]`, the
chain of `strcmp` tests in source order.  `none` is the branch that prints
"Unknown type %s" and exits with failure. -/
def type_option (argument : String) (map_info_options : MapInfoOptions) :
    Option MapInfoOptions :=
  if argument = "overview" then some { map_info_options with type := .DISPLAY_OVERVIEW }
  else if argument = "crc32" then some { map_info_options with type := .DISPLAY_CRC32 }
  else if argument = "crc32-mismatched" then
    some { map_info_options with type := .DISPLAY_CRC32_MISMATCHED }
  else if argument = "dirty" then some { map_info_options with type := .DISPLAY_DIRTY }
  else if argument = "scenario" then some { map_info_options with type := DisplayType.DISPLAY_SCENARIO }
  else if argument = "scenario-path" then
    some { map_info_options with type := .DISPLAY_SCENARIO_PATH }
  else if argument = "tag-count" then some { map_info_options with type := .DISPLAY_TAG_COUNT }
  else if argument = "compressed" then some { map_info_options with type := .DISPLAY_COMPRESSED }
  else if argument = "engine" then some { map_info_options with type := .DISPLAY_ENGINE }
  else if argument = "map-type" then some { map_info_options with type := .DISPLAY_MAP_TYPE }
  else if argument = "protected" then some { map_info_options with type := .DISPLAY_PROTECTED }
  else if argument = "tags" then some { map_info_options with type := .DISPLAY_TAGS }
  else if argument = "compression-ratio" then
    some { map_info_options with type := DisplayType.DISPLAY_COMPRESSION_RATIO }
  else if argument = "build" then some { map_info_options with type := .DISPLAY_BUILD }
  else if argument = "stub-count" then some { map_info_options with type := .DISPLAY_STUB_COUNT }
  else if argument = "external-data" then
    some { map_info_options with type := .DISPLAY_EXTERNAL_DATA }
  else if argument = "external-bitmaps" then
    some { map_info_options with type := .DISPLAY_EXTERNAL_BITMAPS }
  else if argument = "external-loc" then
    some { map_info_options with type := .DISPLAY_EXTERNAL_LOC }
  else if argument = "external-bitmaps" then
    some { map_info_options with type := .DISPLAY_EXTERNAL_SOUNDS }
  else none

end Info

/-! ## invader-extract: options and resource maps (`src/extract/extract.cpp`) -/

namespace Extract

/-- The struct ExtractOptions. -/
structure ExtractOptions where
  tags_directory : Option String
  maps_directory : Option String
  tags_to_extract : List String
  search_queries : List String
  search_queries_exclude : List String
  recursive : Bool
  overwrite : Bool
  non_mp_globals : Bool
  ignore_resource_maps : Bool
  deriving DecidableEq

/-- The value of `extract_options` before the options are handled. -/
def ExtractOptions.initial : ExtractOptions where
  tags_directory := none
  maps_directory := none
  tags_to_extract := []
  search_queries := []
  search_queries_exclude := []
  recursive := false
  overwrite := false
  non_mp_globals := false
  ignore_resource_maps := false

/-- An entry of the options table: long name, short letter, number of arguments. -/
structure CommandLineOption where
  full_name : String
  char_name : Char
  argument_count : Nat
  deriving DecidableEq

/-- Lines 36-46: the options table.  The three presets are declared in
`command_line_option.hpp`; they are the options the handler knows as `i`, `m`
and `t`. -/
def options : List CommandLineOption :=
  [ ⟨"info", 'i', 0⟩, ⟨"maps", 'm', 1⟩, ⟨"tags", 't', 1⟩,
    ⟨"recursive", 'r', 0⟩, ⟨"overwrite", 'O', 0⟩, ⟨"ignore-resources", 'G', 0⟩,
    ⟨"search", 's', 1⟩, ⟨"search-exclude", 'e', 1⟩, ⟨"non-mp-globals", 'n', 0⟩ ]

/-- The letter `parse_arguments` hands to the handler for an option given by
its long name: the short letter of its table entry. -/
def option_letter (full_name : String) : Option Char :=
  (options.find? fun entry => entry.full_name = full_name).map (·.char_name)

/-- How the option handler leaves: it returns, or it ends the program. -/
inductive Handled where
  | returns (extract_options : ExtractOptions)
  | exit_failure
  | exit_success
  deriving DecidableEq

/-- Lines 52-86: the option handler, a switch on the letter.
`preferred_path_to_halo_path` is declared in `file.hpp`. -/
def handle_option (preferred_path_to_halo_path : String → String) (opt : Char)
    (args : List String) (extract_options : ExtractOptions) : Handled :=
  if opt = 'I' then .returns { extract_options with ignore_resource_maps := true }
  else if opt = 'm' then .returns { extract_options with maps_directory := some (args.getD 0 "") }
  else if opt = 't' then
    if extract_options.tags_directory.isSome then .exit_failure
    else .returns { extract_options with tags_directory := some (args.getD 0 "") }
  else if opt = 'r' then .returns { extract_options with recursive := true }
  else if opt = 'O' then .returns { extract_options with overwrite := true }
  else if opt = 'n' then .returns { extract_options with non_mp_globals := true }
  else if opt = 's' then
    .returns { extract_options with
      search_queries := extract_options.search_queries
        ++ [preferred_path_to_halo_path (args.getD 0 "")] }
  else if opt = 'e' then
    .returns { extract_options with
      search_queries_exclude := extract_options.search_queries_exclude
        ++ [preferred_path_to_halo_path (args.getD 0 "")] }
  else if opt = 'i' then .exit_success
  else .returns extract_options

/-- The engines of a cache file header that lines 145-163 tell apart. -/
inductive CacheFileEngine where
  | CACHE_FILE_DEMO
  | CACHE_FILE_RETAIL
  | CACHE_FILE_MCC_CEA
  | CACHE_FILE_CUSTOM_EDITION
  | other
  deriving DecidableEq

/-- What lines 131-141 read from the map file. -/
inductive HeaderRead where
  /-- fopen fails -/
  | cannot_open
  /-- fread fails -/
  | cannot_read
  /-- the header: `header.valid()`, its engine, the CEA classic-only flag
  and whether it is valid as a demo header -/
  | header (valid : Bool) (engine : CacheFileEngine) (classic_only : Bool) (demo_valid : Bool)
  deriving DecidableEq

/-- The file system as lines 89-170 see it. -/
structure Files where
  /-- `std::filesystem::is_directory` -/
  is_directory : String → Bool
  /-- the parent folder of the map file (lines 109-110) -/
  maps_folder : String
  /-- the read of the map's header -/
  header : HeaderRead

/-- The result of lines 89-170: an error, or the resource maps that
`open_map_possibly` was called for, in order. -/
inductive Loaded where
  | failure
  | resource_maps (opened : List String)
  deriving DecidableEq

/-- Lines 144-169: the resource maps opened for a header. -/
def maps_for_header (valid : Bool) (engine : CacheFileEngine) (classic_only demo_valid : Bool) :
    List String :=
  if valid then
    match engine with
    | .CACHE_FILE_DEMO | .CACHE_FILE_RETAIL => ["bitmaps.map", "sounds.map"]
    | .CACHE_FILE_MCC_CEA => if !classic_only then ["bitmaps.map"] else []
    | .CACHE_FILE_CUSTOM_EDITION => ["loc.map", "bitmaps.map", "sounds.map"]
    | .other => []
  else if demo_valid then ["bitmaps.map", "sounds.map"]
  else []

/-- Lines 89-170 of `main`, after the options are handled. -/
def load_resource_maps (files : Files) (extract_options : ExtractOptions) : Loaded :=
  let extract_options :=
    if extract_options.tags_directory.isNone
    then { extract_options with tags_directory := some "tags" } else extract_options
  if !files.is_directory (extract_options.tags_directory.getD "") then .failure
  else
    let extract_options :=
      if extract_options.maps_directory.isNone then
        if files.is_directory files.maps_folder
        then { extract_options with maps_directory := some files.maps_folder }
        else extract_options
      else extract_options
    if extract_options.maps_directory.isSome && !extract_options.ignore_resource_maps then
      match files.header with
      | .cannot_open => .failure
      | .cannot_read => .failure
      | .header valid engine classic_only demo_valid =>
        .resource_maps (maps_for_header valid engine classic_only demo_valid)
    else .resource_maps []

/-- A retail map in a maps folder next to a tags directory. -/
def retail_files : Files where
  is_directory := fun _ => true
  maps_folder := "maps"
  header := .header true .CACHE_FILE_RETAIL false false

end Extract

/-! ## invader-refactor: the mode flags (`src/refactor/refactor.cpp`) -/

namespace Refactor

/-- TagFilePath of `file.hpp`: a tag path and its class. -/
structure TagFilePath where
  path : String
  class_int : Nat
  deriving DecidableEq

/-- The struct RefactorOptions of `main`. -/
structure RefactorOptions where
  tags : List String
  no_move : Bool
  set_move_or_no_move : Bool
  dry_run : Bool
  single_tag : Option String
  replacements : List (TagFilePath × TagFilePath)
  recursive : Option (String × String)
  deriving DecidableEq

/-- The value of `refactor_options` before the options are handled. -/
def RefactorOptions.initial : RefactorOptions where
  tags := []
  no_move := false
  set_move_or_no_move := false
  dry_run := false
  single_tag := none
  replacements := []
  recursive := none

/-- The errors of the argument handling of `main`. -/
inductive Message where
  /-- "Error: -D, -M, or -N can only be set once." -/
  | can_only_be_set_once
  /-- "Invalid path pair: ..." -/
  | invalid_path_pair
  /-- "Error: --recursive and --tag cannot be used at the same time" -/
  | recursive_and_tag
  /-- "Error: --no-move and --recursive cannot be used at the same time" -/
  | no_move_and_recursive
  /-- "Error: Either --dry-run, --no-move, or --move need must be set" -/
  | mode_not_set
  deriving DecidableEq

/-- How the argument handling goes on: with options, or the program ends. -/
inductive Handled where
  | returns (refactor_options : RefactorOptions)
  | exit_success
  | failure (m : Message)
  deriving DecidableEq

/-- An option of the command line as `parse_arguments` hands it to the handler:
the short letter and the arguments. -/
structure GivenOption where
  opt : Char
  arguments : List String
  deriving DecidableEq

/-- Lines 84-134: the option handler, a switch on the letter; a letter without
a case runs into the label below the switch.  `split` stands for
`split_tag_class_extension(preferred_path_to_halo_path(..))` of `file.hpp`. -/
def handle_option (split : String → Option TagFilePath) (given : GivenOption)
    (refactor_options : RefactorOptions) : Handled :=
  if given.opt = 't' then
    .returns { refactor_options with
      tags := refactor_options.tags ++ [given.arguments.getD 0 ""] }
  else if given.opt = 'i' then .exit_success
  else if given.opt = 'N' then
    if refactor_options.set_move_or_no_move then .failure .can_only_be_set_once
    else .returns { refactor_options with no_move := true, set_move_or_no_move := true }
  else if given.opt = 'M' then
    if refactor_options.set_move_or_no_move then .failure .can_only_be_set_once
    else .returns { refactor_options with set_move_or_no_move := true }
  else if given.opt = 'r' then
    .returns { refactor_options with
      recursive := some (given.arguments.getD 0 "", given.arguments.getD 1 "") }
  else if given.opt = 'T' then
    match split (given.arguments.getD 0 ""), split (given.arguments.getD 1 "") with
    | some from_path, some to_path =>
      .returns { refactor_options with
        replacements := refactor_options.replacements ++ [(from_path, to_path)] }
    | _, _ => .failure .invalid_path_pair
  else if given.opt = 'D' then
    if refactor_options.set_move_or_no_move then .failure .can_only_be_set_once
    else .returns { refactor_options with dry_run := true, set_move_or_no_move := true }
  else if given.opt = 's' then
    .returns { refactor_options with single_tag := some (given.arguments.getD 0 "") }
  else .failure .can_only_be_set_once

/-- The handler called for the options of the command line, in order, until
one ends the program. -/
def handle_options (split : String → Option TagFilePath) :
    List GivenOption → RefactorOptions → Handled
  | [], refactor_options => .returns refactor_options
  | given :: rest, refactor_options =>
    match handle_option split given refactor_options with
    | .returns refactor_options => handle_options split rest refactor_options
    | ended => ended

/-- Lines 84-150 of `main`: the options are handled, then the three checks. -/
def argument_handling (split : String → Option TagFilePath) (given : List GivenOption) :
    Handled :=
  match handle_options split given RefactorOptions.initial with
  | .returns refactor_options =>
    if !refactor_options.replacements.isEmpty && refactor_options.recursive.isSome then
      .failure .recursive_and_tag
    else if refactor_options.no_move && refactor_options.recursive.isSome then
      .failure .no_move_and_recursive
    else if !refactor_options.set_move_or_no_move then .failure .mode_not_set
    else .returns refactor_options
  | ended => ended

/-- Whether the letter is one of the mode flags `D`, `M`, `N`. -/
def is_mode_flag (given : GivenOption) : Bool :=
  given.opt = 'D' || given.opt = 'M' || given.opt = 'N'

/-- The number of occurrences of `--dry-run`, `--move` and `--no-move`. -/
def mode_flags (given : List GivenOption) : Nat := given.countP is_mode_flag

/-- Whether the option with the letter `c` is given. -/
def has_option (c : Char) (given : List GivenOption) : Bool := given.any fun g => g.opt = c

/-- An option of the table other than `--info`, and with a valid pair of paths
when it is `--tag`: it does not end the program by itself. -/
def goes_on (split : String → Option TagFilePath) (given : GivenOption) : Prop :=
  given.opt ∈ ['t', 'N', 'M', 'r', 'T', 'D', 's'] ∧
  (given.opt = 'T' →
    (split (given.arguments.getD 0 "")).isSome ∧ (split (given.arguments.getD 1 "")).isSome)

/-- A `split_tag_class_extension` that accepts every path. -/
def split_any (path : String) : Option TagFilePath := some ⟨path, 0⟩

end Refactor

/-! ## Object tags: `compile_object` and `ObjectChangeColors::pre_compile`
(`src/tag/parser/compile/object.cpp`) -/

/-- The C++ comparison a < b of two floats (false when either side is NaN). -/
def F32.lt (a b : F32) : Bool := F32.gt b a

namespace Parser

/-- HEK::FunctionScaleBy.  `definition.hpp` is not part of the sources: the
enumerator `compile_object` names, and every other enumerator by its number. -/
inductive FunctionScaleBy where
  | FUNCTION_SCALE_BY_NONE
  | other (n : Nat)
  deriving DecidableEq

/-- Parser::ObjectChangeColorsPermutation, the field `pre_compile` touches.
The arithmetic of `pre_compile` is kept exact: a weight, the double `total`
and the double `progress` are rationals (rounding is not modelled). -/
structure ObjectChangeColorsPermutation where
  weight : ℚ
  deriving DecidableEq

/-- Parser::ObjectChangeColors, the fields the two functions touch. -/
structure ObjectChangeColors where
  scale_by : FunctionScaleBy
  permutations : List ObjectChangeColorsPermutation
  deriving DecidableEq

/-- Lines 100-104: the loop "Now write this stuff", started with `progress`. -/
def write_progress (total : ℚ) :
    ℚ → List ObjectChangeColorsPermutation → List ObjectChangeColorsPermutation
  | _, [] => []
  | progress, p :: rest =>
    let weight := p.weight / total + progress
    { p with weight := weight } :: write_progress total weight rest

/-- Lines 78-108: ObjectChangeColors::pre_compile. -/
def ObjectChangeColors.pre_compile (this : ObjectChangeColors) : ObjectChangeColors :=
  let permutation_count := this.permutations.length
  if permutation_count = 0 then this
  else
    let total : ℚ := this.permutations.foldl (fun total p => total + p.weight) 0
    let evened : ℚ × List ObjectChangeColorsPermutation :=
      if total = 0 then
        let total : ℚ := (this.permutations.length : ℚ)
        (total, this.permutations.map fun p => { p with weight := 1 / total })
      else (total, this.permutations)
    let written := write_progress evened.1 0 evened.2
    { this with
      permutations := written.modify (fun p => { p with weight := 1 }) (permutation_count - 1) }

/-- The object tag T of `compile_object`, the fields the function touches;
`model_path` and `animation_graph_path` are `tag.model.path` and
`tag.animation_graph.path`. -/
structure Object where
  change_colors : List ObjectChangeColors
  scales_change_colors : Nat
  bounding_radius : F32
  render_bounding_radius : F32
  model_path : String
  animation_graph_path : String
  deriving DecidableEq

/-- Lines 13-15: fix_render_bounding_radius. -/
def fix_render_bounding_radius (tag : Object) : Object :=
  { tag with
    render_bounding_radius :=
      if F32.lt tag.render_bounding_radius tag.bounding_radius then tag.bounding_radius
      else tag.render_bounding_radius }

/-- Lines 19-24: the loop over the change colors, which stops at the first
entry that scales. -/
def scan_change_colors : List ObjectChangeColors → Nat → Nat
  | [], scales_change_colors => scales_change_colors
  | c :: rest, scales_change_colors =>
    if c.scale_by ≠ .FUNCTION_SCALE_BY_NONE then 1 else scan_change_colors rest scales_change_colors

/-- A call of BuildWorkload::report_error with ERROR_TYPE_FATAL_ERROR. -/
structure FatalError where
  message : String
  tag_index : Nat
  deriving DecidableEq

/-- What `compile_object` leaves behind: the tag it worked on by reference,
the errors it reported to the workload and whether it threw
InvalidTagDataException. -/
structure Compiled where
  tag : Object
  reported : List FatalError
  thrown : Bool
  deriving DecidableEq

/-- Lines 17-32: compile_object. -/
def compile_object (tag : Object) (tag_index : Nat) : Compiled :=
  let tag := { tag with scales_change_colors := 0 }
  let tag := { tag with
    scales_change_colors := scan_change_colors tag.change_colors tag.scales_change_colors }
  let tag := fix_render_bounding_radius tag
  if tag.model_path.length = 0 ∧ tag.animation_graph_path.length ≠ 0 then
    ⟨tag, [⟨"Object tag has an animation graph but no model tag", tag_index⟩], true⟩
  else ⟨tag, [], false⟩

end Parser

/-! ## The bitmap preview of the tag editor: `draw_bitmap_to_widget`
(`src/edit/qt/editor/subwindow/tag_editor_bitmap_subwindow.cpp`)

The model covers lines 187-405, from the entry of the function to the end of
the decode step: the dimensions, the offset and the byte count of the mipmap,
the check of the data left, and the bytes of the pixel data and the entries of
the output buffer the decoders touch. -/

namespace EditQt

/-- HEK::BitmapDataFormat: the enumerators the two switches name, and `other`
for any enumerator they leave to `default` (the enumeration is declared in
`definition.hpp`, which is not part of the sources). -/
inductive BitmapDataFormat where
  | BITMAP_DATA_FORMAT_A1R5G5B5
  | BITMAP_DATA_FORMAT_R5G6B5
  | BITMAP_DATA_FORMAT_A4R4G4B4
  | BITMAP_DATA_FORMAT_A8Y8
  | BITMAP_DATA_FORMAT_A8R8G8B8
  | BITMAP_DATA_FORMAT_X8R8G8B8
  | BITMAP_DATA_FORMAT_DXT5
  | BITMAP_DATA_FORMAT_DXT3
  | BITMAP_DATA_FORMAT_A8
  | BITMAP_DATA_FORMAT_Y8
  | BITMAP_DATA_FORMAT_P8_BUMP
  | BITMAP_DATA_FORMAT_AY8
  | BITMAP_DATA_FORMAT_DXT1
  | other
  deriving DecidableEq

/-- HEK::BitmapDataType (2D, 3D, cube map, white). -/
inductive BitmapDataType where
  | BITMAP_DATA_TYPE_2D_TEXTURE
  | BITMAP_DATA_TYPE_3D_TEXTURE
  | BITMAP_DATA_TYPE_CUBE_MAP
  | BITMAP_DATA_TYPE_WHITE
  deriving DecidableEq

/-- Parser::BitmapData, the fields the preview reads.  In the tag layout
`width`, `height` and `depth` are 16-bit and `pixel_data_offset` is 32-bit. -/
structure BitmapData where
  type : BitmapDataType
  format : BitmapDataFormat
  width : Nat
  height : Nat
  depth : Nat
  pixel_data_offset : Nat
  deriving DecidableEq

/-- A value stored in a std::size_t (64 bits). -/
def size_t (n : Nat) : Nat := n % 18446744073709551616

/-- Lines 197-228: `bits_per_pixel` for the format, none where the switch
returns nullptr. -/
def bits_per_pixel : BitmapDataFormat → Option Nat
  | .BITMAP_DATA_FORMAT_A1R5G5B5 => some 16
  | .BITMAP_DATA_FORMAT_R5G6B5 => some 16
  | .BITMAP_DATA_FORMAT_A4R4G4B4 => some 16
  | .BITMAP_DATA_FORMAT_A8Y8 => some 16
  | .BITMAP_DATA_FORMAT_A8R8G8B8 => some 32
  | .BITMAP_DATA_FORMAT_X8R8G8B8 => some 32
  | .BITMAP_DATA_FORMAT_DXT5 => some 8
  | .BITMAP_DATA_FORMAT_DXT3 => some 8
  | .BITMAP_DATA_FORMAT_A8 => some 8
  | .BITMAP_DATA_FORMAT_Y8 => some 8
  | .BITMAP_DATA_FORMAT_P8_BUMP => some 8
  | .BITMAP_DATA_FORMAT_AY8 => some 8
  | .BITMAP_DATA_FORMAT_DXT1 => some 4
  | .other => none

/-- Lines 197-228: `compressed` for the format. -/
def compressed : BitmapDataFormat → Bool
  | .BITMAP_DATA_FORMAT_DXT5 => true
  | .BITMAP_DATA_FORMAT_DXT3 => true
  | .BITMAP_DATA_FORMAT_DXT1 => true
  | _ => false

/-- Lines 230-233: `stride`. -/
def stride (bitmap_data : BitmapData) : Nat :=
  if bitmap_data.type = .BITMAP_DATA_TYPE_CUBE_MAP then size_t (bitmap_data.depth * 6)
  else bitmap_data.depth

/-- The local variables of lines 189-193 and 236. -/
structure Level where
  width : Nat
  height : Nat
  real_width : Nat
  real_height : Nat
  offset : Nat
  pixels_required : Nat
  deriving DecidableEq

/-- Lines 250-255: round a dimension up to the next multiple of 4. -/
def pad_to_block (x : Nat) : Nat :=
  if x % 4 ≠ 0 then x + (4 - x % 4) else x

/-- Lines 238-257: one turn of the loop over the mipmaps. -/
def next_level (compressed : Bool) (bits_per_pixel stride : Nat) (l : Level) : Level :=
  let offset := size_t (l.offset + size_t (l.pixels_required * stride))
  let real_width := l.real_width / 2
  let real_height := l.real_height / 2
  let width := real_width
  let height := real_height
  let width := if width < 1 then 1 else width
  let height := if height < 1 then 1 else height
  let width := if compressed then pad_to_block width else width
  let height := if compressed then pad_to_block height else height
  { width := width, height := height, real_width := real_width, real_height := real_height,
    offset := offset, pixels_required := size_t (size_t (width * height) * bits_per_pixel) / 8 }

/-- Lines 189-193 and 236: the variables before the loop over the mipmaps. -/
def first_level (bitmap_data : BitmapData) (bits_per_pixel : Nat) : Level :=
  let width := bitmap_data.width
  let height := bitmap_data.height
  { width := width, height := height, real_width := width, real_height := height,
    offset := bitmap_data.pixel_data_offset,
    pixels_required := size_t (size_t (width * height) * bits_per_pixel) / 8 }

/-- Lines 237-258: the loop `for(std::size_t m = 0; m < mipmap; m++)`. -/
def mipmap_loop (bitmap_data : BitmapData) (bits_per_pixel mipmap : Nat) : Level :=
  (next_level (compressed bitmap_data.format) bits_per_pixel (stride bitmap_data))^[mipmap]
    (first_level bitmap_data bits_per_pixel)

/-- Lines 189-193 and 235-267: "Find the offset" and "Zero width/height". -/
def find_the_offset (bitmap_data : BitmapData) (bits_per_pixel mipmap index : Nat) : Level :=
  let l := mipmap_loop bitmap_data bits_per_pixel mipmap
  { l with
    offset := size_t (l.offset + size_t (index * l.pixels_required)),
    real_width := if l.real_width = 0 then 1 else l.real_width,
    real_height := if l.real_height = 0 then 1 else l.real_height }

/-- What the decode step does to memory: it reads `count` bytes of the pixel
data from position `first` on, or writes entry `index` of the vector `data`. -/
inductive Access where
  | read (first count : Nat)
  | write (index : Nat)
  deriving DecidableEq

/-- The loop `while(pixels_left)` of lines 279-307 for a source pixel of
`sizeof_from_pixel` bytes, run for at most `fuel` turns.  Returns the accesses
and the final value of `pixels_left`, or none when the loop has not ended. -/
def decode_loop (sizeof_from_pixel : Nat) : Nat → Nat → Nat → Nat → Option (List Access × Nat)
  | 0, pixels_left, _, _ => if pixels_left = 0 then some ([], pixels_left) else none
  | fuel + 1, pixels_left, bytes_to_add, bytes_to_write =>
    if pixels_left = 0 then some ([], pixels_left)
    else
      (decode_loop sizeof_from_pixel fuel
          (size_t (pixels_left + 18446744073709551616 - sizeof_from_pixel))
          (bytes_to_add + sizeof_from_pixel) (bytes_to_write + 1)).map
        fun rest => (.read bytes_to_add sizeof_from_pixel :: .write bytes_to_write :: rest.1, rest.2)

/-- Lines 279-292: decode_8_bit, reading from position `bytes`. -/
def decode_8_bit (fuel pixels_required bytes : Nat) : Option (List Access × Nat) :=
  decode_loop 1 fuel pixels_required bytes 0

/-- Lines 294-307: decode_16_bit, reading from position `bytes`. -/
def decode_16_bit (fuel pixels_required bytes : Nat) : Option (List Access × Nat) :=
  decode_loop 2 fuel pixels_required bytes 0

/-- Lines 309-316: copy_block, the entries of `data` it writes. -/
def copy_block (real_width real_height to_x to_y width height : Nat) : List Access :=
  ((List.range 4).takeWhile fun y => decide (y < height) && decide (y + to_y < real_height)).flatMap
    fun y =>
      ((List.range 4).takeWhile fun x => decide (x < width) && decide (x + to_x < real_width)).map
        fun x => .write (to_x + x + real_width * (to_y + y))

/-- Modelled from the spec: the DXT block codec is an external collaborator
(`s3tc/s3tc.hpp`) with 8 bytes per DXT1 block, which is what
S3TCH::DecompressBlockDXT1 reads at its input pointer. -/
def DXT1_block_size : Nat := 8

/-- Modelled from the spec: the DXT block codec is an external collaborator
(`s3tc/s3tc.hpp`) with 16 bytes per DXT5 block, which is what
S3TCH::DecompressBlockDXT5 reads at its input pointer. -/
def DXT5_block_size : Nat := 16

/-- Lines 325-331, 335-354 and 358-364: the two loops over the blocks, with
`block_stride` bytes from a block to the next and `block_reads` the reads of
one block at a position. -/
def decode_blocks (block_stride : Nat) (block_reads : Nat → List Access) (l : Level) :
    List Access :=
  let block_h := (l.real_height + 3) / 4
  let block_w := (l.real_width + 3) / 4
  let block_input := l.offset
  (List.range block_h).flatMap fun y =>
    (List.range block_w).flatMap fun x =>
      block_reads (block_input + x * block_stride + y * block_stride * block_w)
        ++ copy_block l.real_width l.real_height (x * 4) (y * 4) l.width l.height

/-- Lines 318-405: "Let's decode the thing". -/
def decode (fuel : Nat) (format : BitmapDataFormat) (l : Level) : Option (List Access) :=
  let pixel_count := l.real_width * l.real_height
  match format with
  | .BITMAP_DATA_FORMAT_DXT1 =>
    some (decode_blocks 8 (fun input => [.read input DXT1_block_size]) l)
  | .BITMAP_DATA_FORMAT_DXT3 =>
    some (decode_blocks 16 (fun input => [.read (input + 8) DXT1_block_size, .read input 8]) l)
  | .BITMAP_DATA_FORMAT_DXT5 =>
    some (decode_blocks 16 (fun input => [.read input DXT5_block_size]) l)
  | .BITMAP_DATA_FORMAT_A1R5G5B5 => (decode_16_bit fuel l.pixels_required l.offset).map Prod.fst
  | .BITMAP_DATA_FORMAT_R5G6B5 => (decode_16_bit fuel l.pixels_required l.offset).map Prod.fst
  | .BITMAP_DATA_FORMAT_A4R4G4B4 => (decode_16_bit fuel l.pixels_required l.offset).map Prod.fst
  | .BITMAP_DATA_FORMAT_A8R8G8B8 =>
    some (.read l.offset (pixel_count * 4) :: (List.range pixel_count).map .write)
  | .BITMAP_DATA_FORMAT_X8R8G8B8 =>
    some (.read l.offset (pixel_count * 4) :: (List.range pixel_count).map .write)
  | .BITMAP_DATA_FORMAT_A8Y8 => (decode_16_bit fuel l.pixels_required l.offset).map Prod.fst
  | .BITMAP_DATA_FORMAT_A8 => (decode_8_bit fuel l.pixels_required l.offset).map Prod.fst
  | .BITMAP_DATA_FORMAT_Y8 => (decode_8_bit fuel l.pixels_required l.offset).map Prod.fst
  | .BITMAP_DATA_FORMAT_AY8 => (decode_8_bit fuel l.pixels_required l.offset).map Prod.fst
  | .BITMAP_DATA_FORMAT_P8_BUMP => (decode_8_bit fuel l.pixels_required l.offset).map Prod.fst
  | .other => some []

/-- How far `draw_bitmap_to_widget` gets: it returns nullptr for a format it
does not know, warns and returns nullptr when not enough data is left, or
decodes the mipmap (and goes on to scale and filter it). -/
inductive Drawn where
  | unknown_format
  | not_enough_data (data_remaining pixels_required : Nat)
  | decoded (l : Level) (accesses : List Access)
  deriving DecidableEq

/-- Lines 187-405 of draw_bitmap_to_widget for pixel data of `data_remaining`
bytes; none when a decode loop has not ended within `fuel` turns. -/
def draw_bitmap_to_widget (fuel : Nat) (bitmap_data : BitmapData) (mipmap index : Nat)
    (data_remaining : Nat) : Option Drawn :=
  match bits_per_pixel bitmap_data.format with
  | none => some .unknown_format
  | some bits_per_pixel =>
    let l := find_the_offset bitmap_data bits_per_pixel mipmap index
    if l.offset ≥ data_remaining ∨ data_remaining - l.offset < l.pixels_required then
      some (.not_enough_data data_remaining l.pixels_required)
    else
      (decode fuel bitmap_data.format l).map (.decoded l)

end EditQt

/-! ## Notions used in the statements -/

/-- The options `main` hands over after handling the `F` options `args` in
order, starting from `o`. -/
def format_options (args : List (Option BitmapFormat)) (o : BitmapOptions) : BitmapOptions :=
  args.foldl (fun o argument => format_option argument o) o

/-- A float in the interval (0,1]. -/
def F32.in_zero_one (x : F32) : Prop := ∃ q, x = F32.fin q ∧ 0 < q ∧ q ≤ 1

/-- A float greater than zero. -/
def F32.positive (x : F32) : Prop := x = F32.pos_inf ∨ ∃ q, x = F32.fin q ∧ 0 < q

/-- The positions of the pixel data an access reads. -/
def EditQt.Access.bytes : EditQt.Access → List Nat
  | .read first count => List.range' first count
  | .write _ => []

/-- The entry of the output buffer an access writes. -/
def EditQt.Access.indices : EditQt.Access → List Nat
  | .read _ _ => []
  | .write index => [index]

/-- Every position of the pixel data the accesses read, once per read. -/
def EditQt.bytes_read (accesses : List EditQt.Access) : List Nat :=
  accesses.flatMap EditQt.Access.bytes

/-- Every entry of the output buffer the accesses write. -/
def EditQt.indices_written (accesses : List EditQt.Access) : List Nat :=
  accesses.flatMap EditQt.Access.indices

/-- The dimension of level k as the mipmap-chain formula states it:
max(1, base / 2^k), rounded up to a multiple of 4 for a DXT format. -/
def EditQt.level_dimension (dxt : Bool) (base k : Nat) : Nat :=
  if dxt then 4 * ((max 1 (base / 2 ^ k) + 3) / 4) else max 1 (base / 2 ^ k)

/-- The byte count of level k as the mipmap-chain formula states it:
W_k · H_k · bpp / 8. -/
def EditQt.level_size (bitmap_data : EditQt.BitmapData) (bpp k : Nat) : Nat :=
  EditQt.level_dimension (EditQt.compressed bitmap_data.format) bitmap_data.width k
    * EditQt.level_dimension (EditQt.compressed bitmap_data.format) bitmap_data.height k
    * bpp / 8

/-- The faces or slices stored per level: depth, times 6 for a cube map. -/
def EditQt.stored_per_level (bitmap_data : EditQt.BitmapData) : Nat :=
  if bitmap_data.type = .BITMAP_DATA_TYPE_CUBE_MAP then bitmap_data.depth * 6
  else bitmap_data.depth

/-- The offset of face or slice i of mipmap m as the mipmap-chain formula
states it: pixel_data_offset + s · Σ_{k<m} size(k) + i · size(m). -/
def EditQt.stated_offset (bitmap_data : EditQt.BitmapData) (bpp m i : Nat) : Nat :=
  bitmap_data.pixel_data_offset
    + EditQt.stored_per_level bitmap_data
      * ((List.range m).map (EditQt.level_size bitmap_data bpp)).sum
    + i * EditQt.level_size bitmap_data bpp m

/-! ## Concrete worlds used to exercise the theorems -/

/-- A world with no tag at the destination, a one-pixel color plate and
collaborators that succeed. -/
def demo_world : World where
  flag := ⟨1, 2, 8⟩
  tag_file := .absent
  image := some ⟨[⟨255, 0, 0, 255⟩], 1, 1, 4⟩
  inflate := fun _ _ _ => [255, 0, 0, 255]
  deflate := fun _ _ _ => [120, 218, 1, 2]
  scan_color_plate := fun a => some ⟨[⟨a.width, a.height, 1⟩], [⟨0, 1, []⟩]⟩
  process_bitmap_data := fun d _ => some d
  write_bitmap_data := fun a => some ⟨[255, 0, 0, 255], [⟨1, 1, 1, 0, 0⟩],
    some (a.format.getD .BITMAP_FORMAT_32_BIT)⟩
  save_file := fun _ => true

/-- A tag as a previous run stored it: a 2x2 plate with compressed data,
sharpen and blur unset, budget 64, four mipmaps at most. -/
def stored_tag : Bitmap :=
  { Bitmap.empty with
    encoding_format := .BITMAP_FORMAT_DXT3
    usage := .BITMAP_USAGE_DEFAULT
    flags := 7
    sprite_budget_size := .BITMAP_SPRITE_BUDGET_SIZE_64X64
    color_plate_width := 2
    color_plate_height := 2
    compressed_color_plate_data := [0, 0, 0, 16, 120, 218, 3, 4]
    processed_pixel_data := [1, 2, 3, 4]
    mipmap_count := 5 }

/-- The demo world with `stored_tag` at the destination. -/
def demo_world_with_tag : World := { demo_world with tag_file := .present stored_tag }

/-- The options of `invader-bitmap -M 32768`. -/
def options_cap_32768 : BitmapOptions := { BitmapOptions.initial with max_mipmap_count := some 32768 }

/-- The options of `invader-bitmap -M 5`. -/
def options_cap_5 : BitmapOptions := { BitmapOptions.initial with max_mipmap_count := some 5 }

/-- The options of `invader-bitmap -D off`. -/
def options_dithering_off : BitmapOptions := { BitmapOptions.initial with dithering := some false }

/-- The demo world with `stored_tag` at the destination and a new color plate
of 32768x1 pixels. -/
def oversize_world : World :=
  { demo_world with
    tag_file := .present stored_tag
    image := some ⟨List.replicate 32768 ⟨0, 0, 0, 255⟩, 32768, 1, 131072⟩ }

/-- The options of `invader-bitmap -R`. -/
def options_regenerate : BitmapOptions := { BitmapOptions.initial with regenerate := true }

/-- The demo world with a tag at the destination whose stored color plate
width is zero. -/
def demo_world_zero_plate : World :=
  { demo_world with tag_file := .present { stored_tag with color_plate_width := 0 } }

/-- The options of `invader-bitmap -F auto -F dxt5`. -/
def options_format_dxt5 : BitmapOptions :=
  format_options [none, some .BITMAP_FORMAT_DXT5] BitmapOptions.initial

/-- The demo world with a tag at the destination whose sharpen amount 2 and
blur size -1 are outside the accepted ranges. -/
def demo_world_bad_sharpen : World :=
  { demo_world with
    tag_file := .present
      { stored_tag with sharpen_amount := F32.fin 2, blur_filter_size := F32.fin (-1) } }

/-- The options of `invader-bitmap -B 64`. -/
def options_budget_64 : BitmapOptions := { BitmapOptions.initial with sprite_budget := some 64 }

/-- A scanned sprite plate: one 64x64 sheet, a sequence of two sprites, a
sequence of one sprite and an empty sequence.  Registration points are
relative to the sprite, as the scanner gives them. -/
def sprite_plate : GeneratedBitmapData :=
  { bitmaps := [⟨64, 64, 1⟩],
    sequences :=
      [ { first_bitmap := 0, bitmap_count := 0,
          sprites :=
            [ { top := 1, left := 1, bottom := 17, right := 17,
                registration_point_x := 8, registration_point_y := 8, bitmap_index := 0 },
              { top := 1, left := 19, bottom := 17, right := 35,
                registration_point_x := 8, registration_point_y := 8, bitmap_index := 0 } ] },
        { first_bitmap := 0, bitmap_count := 0,
          sprites :=
            [ { top := 19, left := 1, bottom := 35, right := 17,
                registration_point_x := 8, registration_point_y := 8, bitmap_index := 0 } ] },
        { first_bitmap := 0, bitmap_count := 0, sprites := [] } ] }

/-- The demo world with a scanner that finds `sprite_plate`. -/
def sprite_world : World := { demo_world with scan_color_plate := fun _ => some sprite_plate }

/-- The options of `invader-bitmap -T sprites`. -/
def options_sprites : BitmapOptions :=
  { BitmapOptions.initial with bitmap_type := some .BITMAP_TYPE_SPRITES }

/-- A scanned plate of 65535 bitmaps in one sequence, followed by an empty
sequence that starts after the last bitmap. -/
def full_plate : GeneratedBitmapData :=
  { bitmaps := List.replicate 65535 ⟨1, 1, 1⟩,
    sequences := [⟨0, 65535, []⟩, ⟨65535, 0, []⟩] }

/-- The demo world with a scanner that finds `full_plate`. -/
def full_world : World := { demo_world with scan_color_plate := fun _ => some full_plate }

/-- A scanned plate of two bitmaps in two sequences. -/
def two_bitmap_plate : GeneratedBitmapData :=
  { bitmaps := [⟨4, 4, 1⟩, ⟨4, 4, 1⟩], sequences := [⟨0, 1, []⟩, ⟨1, 1, []⟩] }

/-- The demo world with a scanner that finds `two_bitmap_plate`. -/
def two_bitmap_world : World :=
  { demo_world with scan_color_plate := fun _ => some two_bitmap_plate }

/-- The options of `invader-bitmap -u detail_map -f 0.5` (the fade 1/2). -/
def options_detail_map : BitmapOptions :=
  { BitmapOptions.initial with
    usage := some .BITMAP_USAGE_DETAIL_MAP, mipmap_fade := some (F32.fin (1 / 2)) }

/-- The options of `invader-bitmap -f 1` with the default usage. -/
def options_fade_only : BitmapOptions :=
  { BitmapOptions.initial with mipmap_fade := some (F32.fin 1) }

/-- An object tag with an animation graph and no model, one change color that
scales, and a bounding radius 2 above its render bounding radius 1. -/
def animated_without_model : Parser.Object where
  change_colors := [⟨.other 1, []⟩]
  scales_change_colors := 0
  bounding_radius := .fin 2
  render_bounding_radius := .fin 1
  model_path := ""
  animation_graph_path := "cyborg"

/-- A 2×2 DXT1 texture with one mipmap stored at the start of the pixel data. -/
def dxt1_2x2 : EditQt.BitmapData :=
  ⟨.BITMAP_DATA_TYPE_2D_TEXTURE, .BITMAP_DATA_FORMAT_DXT1, 2, 2, 1, 0⟩

/-- A 2×2 DXT1 cube map stored at the start of the pixel data. -/
def dxt1_2x2_cube : EditQt.BitmapData :=
  ⟨.BITMAP_DATA_TYPE_CUBE_MAP, .BITMAP_DATA_FORMAT_DXT1, 2, 2, 1, 0⟩

/-- An 8×4 A8Y8 texture stored at position 16 of the pixel data. -/
def a8y8_8x4 : EditQt.BitmapData :=
  ⟨.BITMAP_DATA_TYPE_2D_TEXTURE, .BITMAP_DATA_FORMAT_A8Y8, 8, 4, 1, 16⟩

/-- An 8×8 DXT3 texture stored at the start of the pixel data. -/
def dxt3_8x8 : EditQt.BitmapData :=
  ⟨.BITMAP_DATA_TYPE_2D_TEXTURE, .BITMAP_DATA_FORMAT_DXT3, 8, 8, 1, 0⟩

/-! ## Structure of a run -/

/-- The projection of the trace used by `Run.written`. -/
def saved_tag : Event → Option Bitmap
  | .save_file t => some t
  | _ => none

/-- What a run of lines 211-471 may contain, for the options `o` it starts with:
no "cannot regenerate, no tag" error, and the processor and the writer are
called with the arguments built from `o`. -/
def expected_event (o : BitmapOptions) : Event → Prop
  | .eprintf_error m => m ≠ .cannot_regenerate_no_tag
  | .process_bitmap_data a => a = process_arguments o
  | .write_bitmap_data a => ∃ s, a = write_arguments (clear_format_if_auto o) s
  | .save_file _ => True
  | .inflate _ _ _ => o.regenerate = true
  | _ => True

/-! ## Lemmas on the structure of a run -/

theorem written_eq (r : Run) : r.written = r.trace.findSome? saved_tag := by
  unfold Run.written saved_tag
  rfl

theorem get_color_plate_inl {w : World} {o : BitmapOptions} {tag : Bitmap} {run : Run}
    (h : get_color_plate w o tag = .inl run) :
    run = ⟨[.eprintf_error .no_color_plate_data], .return_failure⟩ ∨
    run = ⟨[.eprintf_error .color_plate_data_size_wrong], .return_failure⟩ ∨
    run = ⟨[.eprintf_error .failed_to_find_image], .return_failure⟩ := by
  unfold get_color_plate at h
  dsimp only at h
  split_ifs at h
  all_goals simp [← Sum.inl.inj h]

theorem get_color_plate_inr {w : World} {o : BitmapOptions} {tag : Bitmap} {log : List Event}
    {plate : ColorPlate} (h : get_color_plate w o tag = .inr (log, plate)) :
    log = [] ∨ (o.regenerate = true ∧ ∃ a b c, log = [.inflate a b c]) := by
  unfold get_color_plate at h
  dsimp only at h
  split_ifs at h with h1
  all_goals simp only [Sum.inr.injEq, Prod.mk.injEq] at h
  all_goals rw [← h.1]
  all_goals simp [h1]

theorem get_color_plate_log {w : World} {o : BitmapOptions} {tag : Bitmap} {log : List Event}
    {plate : ColorPlate} (h : get_color_plate w o tag = .inr (log, plate)) :
    log.findSome? saved_tag = none ∧ ∀ e ∈ log, expected_event o e := by
  rcases get_color_plate_inr h with h | ⟨hr, a, b, c, h⟩ <;> subst h
  · simp
  · simp [saved_tag, expected_event, hr]

theorem compress_color_plate_log (w : World) (o : BitmapOptions) (plate : ColorPlate)
    (tag : Bitmap) :
    (compress_color_plate w o plate tag).1.findSome? saved_tag = none ∧
    ∀ e ∈ (compress_color_plate w o plate tag).1, expected_event o e := by
  unfold compress_color_plate
  dsimp only
  split_ifs <;> simp [saved_tag, expected_event]

theorem compress_color_plate_flags (w : World) (o : BitmapOptions) (plate : ColorPlate)
    (tag : Bitmap) : (compress_color_plate w o plate tag).2.flags = tag.flags := by
  unfold compress_color_plate
  dsimp only
  split_ifs <;> rfl

/-- The tag a run of lines 211-471 saves is the one `set_parameters` builds. -/
theorem rest_written {w : World} {o : BitmapOptions} {tag t : Bitmap}
    (h : (rest_of_the_ritual w o tag).written = some t) :
    ∃ log plate scanned written format,
      get_color_plate w o tag = .inr (log, plate) ∧
      w.write_bitmap_data (write_arguments (clear_format_if_auto o) scanned) = some written ∧
      written.format = some format ∧
      t = set_parameters w.flag (clear_format_if_auto o) format
        (add_all_sequences (clear_format_if_auto o) scanned
          { (compress_color_plate w o plate tag).2 with
            processed_pixel_data := written.processed_pixel_data
            bitmap_data := written.bitmap_data }) := by
  rw [written_eq] at h
  unfold rest_of_the_ritual at h
  split at h
  · rename_i run hg
    rcases get_color_plate_inl hg with rfl | rfl | rfl <;> simp [saved_tag] at h
  · rename_i log plate hg
    have hl := (get_color_plate_log hg).1
    have hc := (compress_color_plate_log w o plate tag).1
    simp only at h
    split at h
    · simp [List.findSome?_append, hl, saved_tag] at h
    · split at h
      · simp [List.findSome?_append, hl, saved_tag] at h
      · rename_i scanned0 hs scanned hp
        split at h
        · simp [List.findSome?_append, hl, hc, saved_tag] at h
        · rename_i written hw
          split at h
          · simp [List.findSome?_append, hl, hc, saved_tag] at h
          · rename_i format hf
            split at h
            · simp [List.findSome?_append, hl, hc, saved_tag] at h
              exact ⟨log, plate, scanned, written, format, hg, hw, hf, h.symm⟩
            · simp [List.findSome?_append, hl, hc, saved_tag] at h

/-- Every event of a run of lines 211-471 is an expected one. -/
theorem rest_trace_expected (w : World) (o : BitmapOptions) (tag : Bitmap) :
    ∀ e ∈ (rest_of_the_ritual w o tag).trace, expected_event o e := by
  unfold rest_of_the_ritual
  split
  · rename_i run hg
    rcases get_color_plate_inl hg with rfl | rfl | rfl <;> simp [expected_event]
  · rename_i log plate hg
    have hl := (get_color_plate_log hg).2
    have hc := (compress_color_plate_log w o plate tag).2
    dsimp only
    repeat' split
    all_goals
      intro e he
      simp only [List.mem_append, List.mem_singleton, List.mem_cons, List.not_mem_nil,
        or_false] at he
      casesm* _ ∨ _
    all_goals first
      | exact hl _ ‹_›
      | exact hc _ ‹_›
      | (subst_vars; exact ⟨_, rfl⟩)
      | (subst_vars; simp [expected_event])

/-- A run of `perform_the_ritual` is a run of lines 211-471 from the resolved
options and the starting tag, unless it ends before line 186. -/
theorem perform_the_ritual_cases (w : World) (o : BitmapOptions) :
    perform_the_ritual w o
        = rest_of_the_ritual w (resolve_options w.flag w.tag_file o) (starting_tag w.tag_file o) ∨
    perform_the_ritual w o = ⟨[], .uncaught_exception⟩ ∨
    perform_the_ritual w o = ⟨[.eprintf_error .cannot_regenerate_no_tag], .exit_failure⟩ := by
  unfold perform_the_ritual resolve_options starting_tag
  cases hu : uses_existing_tag w.tag_file o <;> cases hf : w.tag_file <;> simp
  all_goals
    by_cases hr : o.regenerate = true <;> simp [hr]

/-- The tag `perform_the_ritual` saves is saved by lines 211-471 run from the
resolved options and the starting tag. -/
theorem perform_the_ritual_written {w : World} {o : BitmapOptions} {t : Bitmap}
    (h : (perform_the_ritual w o).written = some t) :
    (rest_of_the_ritual w (resolve_options w.flag w.tag_file o)
      (starting_tag w.tag_file o)).written = some t := by
  rcases perform_the_ritual_cases w o with hc | hc | hc
  · rw [← hc]; exact h
  · rw [hc] at h; simp [Run.written] at h
  · rw [hc] at h; simp [Run.written] at h

/-- Every event of a run of `perform_the_ritual` that gets past line 184 is an
expected one for the resolved options. -/
theorem perform_the_ritual_trace (w : World) (o : BitmapOptions) :
    (∀ e ∈ (perform_the_ritual w o).trace,
      expected_event (resolve_options w.flag w.tag_file o) e) ∨
    perform_the_ritual w o = ⟨[.eprintf_error .cannot_regenerate_no_tag], .exit_failure⟩ := by
  rcases perform_the_ritual_cases w o with hc | hc | hc
  · rw [hc]; exact Or.inl (rest_trace_expected _ _ _)
  · rw [hc]; simp
  · exact Or.inr hc

/-! ## Lemmas on the resolved options -/

theorem resolve_options_default (fl : BitmapFlagsFlag) (f : TagFile) (o : BitmapOptions) :
    ∃ o', resolve_options fl f o = default_values o' := by
  unfold resolve_options
  split
  · split
    · exact ⟨_, rfl⟩
    · exact ⟨_, rfl⟩
  · exact ⟨_, rfl⟩

theorem default_values_max_mipmap_count (o : BitmapOptions) :
    (default_values o).max_mipmap_count = some (o.max_mipmap_count.getD INT16_MAX) := by
  unfold default_values
  simp only [apply_ite BitmapOptions.max_mipmap_count, ite_self]
  cases o.max_mipmap_count <;> simp

theorem default_values_sprite_budget (o : BitmapOptions) :
    (default_values o).sprite_budget = some (o.sprite_budget.getD 32) := by
  unfold default_values
  simp only [apply_ite BitmapOptions.sprite_budget, ite_self]
  cases o.sprite_budget <;> simp

theorem clear_format_if_auto_fields (o : BitmapOptions) :
    (clear_format_if_auto o).max_mipmap_count = o.max_mipmap_count ∧
    (clear_format_if_auto o).sprite_budget = o.sprite_budget ∧
    (clear_format_if_auto o).sharpen = o.sharpen ∧
    (clear_format_if_auto o).blur = o.blur ∧
    (clear_format_if_auto o).dithering = o.dithering ∧
    (clear_format_if_auto o).palettize = o.palettize ∧
    (clear_format_if_auto o).filthy_sprite_bug_fix = o.filthy_sprite_bug_fix := by
  unfold clear_format_if_auto
  split <;> simp

theorem set_flags_clear_format_if_auto (fl : BitmapFlagsFlag) (o : BitmapOptions) (flags : Nat) :
    set_flags fl (clear_format_if_auto o) flags = set_flags fl o flags := by
  obtain ⟨-, -, -, -, h5, h6, h7⟩ := clear_format_if_auto_fields o
  unfold set_flags
  rw [h5, h6, h7]

/-- The header fields of the tag a run saves, in terms of the resolved options
and the tag data the run started from. -/
theorem written_header {w : World} {o : BitmapOptions} {t : Bitmap}
    (h : (perform_the_ritual w o).written = some t) :
    t.mipmap_count
        = set_mipmap_count (value (resolve_options w.flag w.tag_file o).max_mipmap_count) ∧
    t.sprite_budget_size
        = set_sprite_budget_size (value (resolve_options w.flag w.tag_file o).sprite_budget) ∧
    t.flags = set_flags w.flag (resolve_options w.flag w.tag_file o)
        (starting_tag w.tag_file o).flags ∧
    t.sharpen_amount = (resolve_options w.flag w.tag_file o).sharpen.getD F32.zero ∧
    t.blur_filter_size = (resolve_options w.flag w.tag_file o).blur.getD F32.zero := by
  obtain ⟨log, plate, scanned, written, format, -, -, -, rfl⟩ :=
    rest_written (perform_the_ritual_written h)
  obtain ⟨h1, h2, h3, h4, -, -, -⟩ :=
    clear_format_if_auto_fields (resolve_options w.flag w.tag_file o)
  refine ⟨?_, ?_, ?_, ?_, ?_⟩
  · simp only [set_parameters, h1]
  · simp only [set_parameters, h2]
  · simp only [set_parameters, add_all_sequences, set_flags_clear_format_if_auto,
      compress_color_plate_flags]
  · simp only [set_parameters, h3]
  · simp only [set_parameters, h4]

/-! ## C1: the mipmap count field -/

/-- C1 as stated fails: with the cap 32768 (option `-M 32768`) the field is
written as 0, not as cap + 1 = 32769. -/
theorem mipmap_count_field_cap_32768 :
    (resolve_options demo_world.flag demo_world.tag_file options_cap_32768).max_mipmap_count
        = some 32768 ∧
    (32768 : Nat) ≠ INT16_MAX ∧
    (perform_the_ritual demo_world options_cap_32768).written.map (·.mipmap_count) = some 0 ∧
    (0 : Nat) ≠ 32768 + 1 := by
  decide

/-- C1, amended: the tag a run saves has mipmap_count 0 when the resolved cap
is at least INT16_MAX (32767) and cap + 1 otherwise. -/
theorem mipmap_count_field_written (w : World) (o : BitmapOptions) (t : Bitmap)
    (h : (perform_the_ritual w o).written = some t) :
    ∃ cap, (resolve_options w.flag w.tag_file o).max_mipmap_count = some cap ∧
      t.mipmap_count = if cap ≥ 32767 then 0 else cap + 1 := by
  obtain ⟨o', ho'⟩ := resolve_options_default w.flag w.tag_file o
  refine ⟨o'.max_mipmap_count.getD INT16_MAX, ?_, ?_⟩
  · rw [ho', default_values_max_mipmap_count]
  · rw [(written_header h).1, ho', default_values_max_mipmap_count]
    simp only [value, Option.getD_some, set_mipmap_count, INT16_MAX]
    split
    · rfl
    · omega

/-- The mipmap count field of a run with the cap 5 and no tag at the destination. -/
theorem mipmap_count_field_written_witness :
    (perform_the_ritual demo_world options_cap_5).written.isSome = true ∧
    ∃ cap, (resolve_options demo_world.flag demo_world.tag_file options_cap_5).max_mipmap_count
        = some cap ∧
      ((perform_the_ritual demo_world options_cap_5).written.get (by decide)).mipmap_count
        = if cap ≥ 32767 then 0 else cap + 1 :=
  ⟨by decide, mipmap_count_field_written demo_world options_cap_5 _ (by simp)⟩

/-! ## C9: the sprite budget size -/

/-- C9: the tag a run saves has sprite_budget_size 0 for the budget 32, 1 for
64, 2 for 128, 3 for 256, 4 for 512, 5 for 1024 and 0 for any other budget. -/
theorem sprite_budget_size_written (w : World) (o : BitmapOptions) (t : Bitmap)
    (h : (perform_the_ritual w o).written = some t) :
    ∃ budget, (resolve_options w.flag w.tag_file o).sprite_budget = some budget ∧
      t.sprite_budget_size.value =
        if budget = 32 then 0 else if budget = 64 then 1 else if budget = 128 then 2
        else if budget = 256 then 3 else if budget = 512 then 4 else if budget = 1024 then 5
        else 0 := by
  obtain ⟨o', ho'⟩ := resolve_options_default w.flag w.tag_file o
  refine ⟨o'.sprite_budget.getD 32, ?_, ?_⟩
  · rw [ho', default_values_sprite_budget]
  · rw [(written_header h).2.1, ho', default_values_sprite_budget]
    simp only [value, Option.getD_some]
    unfold set_sprite_budget_size
    split <;> simp_all [BitmapSpriteBudgetSize.value]


/-- The budget size of a run with the budget 64: the enumerator 1. -/
theorem sprite_budget_size_written_witness :
    (perform_the_ritual demo_world options_budget_64).written.map
      (·.sprite_budget_size.value) = some 1 ∧
    ∃ budget, (resolve_options demo_world.flag demo_world.tag_file options_budget_64).sprite_budget
        = some budget ∧
      ((perform_the_ritual demo_world options_budget_64).written.get
        (by decide)).sprite_budget_size.value =
        if budget = 32 then 0 else if budget = 64 then 1 else if budget = 128 then 2
        else if budget = 256 then 3 else if budget = 512 then 4 else if budget = 1024 then 5
        else 0 :=
  ⟨by decide, sprite_budget_size_written demo_world options_budget_64 _ (by simp)⟩

/-! ## C10: the flags word -/

/-- Bits of the flags word computed by lines 421-424, when the three masks
are the distinct bits `a`, `b`, `c` of a 16-bit word. -/
theorem set_flags_testBit (fl : BitmapFlagsFlag) (o : BitmapOptions) (flags a b c : Nat)
    (ha : fl.BITMAP_FLAGS_FLAG_ENABLE_DIFFUSION_DITHERING = 2 ^ a)
    (hb : fl.BITMAP_FLAGS_FLAG_DISABLE_HEIGHT_MAP_COMPRESSION = 2 ^ b)
    (hc : fl.BITMAP_FLAGS_FLAG_FILTHY_SPRITE_BUG_FIX = 2 ^ c)
    (ha16 : a < 16) (hb16 : b < 16) (hc16 : c < 16)
    (hab : a ≠ b) (hac : a ≠ c) (hbc : b ≠ c) (hflags : flags < 65536) (i : Nat) :
    (set_flags fl o flags).testBit i =
      if i = a then value o.dithering
      else if i = b then !(value o.palettize)
      else if i = c then value o.filthy_sprite_bug_fix
      else flags.testBit i := by
  have hM : (4294967295 : Nat) = 2 ^ 32 - 1 := by norm_num
  have h16 : (65536 : Nat) = 2 ^ 16 := by norm_num
  have hhigh : ¬ i < 16 → flags.testBit i = false := by
    intro hi
    apply Nat.testBit_eq_false_of_lt
    calc flags < 2 ^ 16 := by omega
      _ ≤ 2 ^ i := Nat.pow_le_pow_right (by norm_num) (by omega)
  unfold set_flags and_not
  rw [ha, hb, hc, hM, h16]
  simp only [Nat.testBit_mod_two_pow, Nat.testBit_lor, Nat.testBit_land, Nat.testBit_xor,
    Nat.testBit_two_pow_sub_one, Nat.testBit_two_pow]
  by_cases hi : i < 16
  · by_cases hia : i = a
    · subst hia
      cases value o.dithering <;> cases value o.palettize <;>
        cases value o.filthy_sprite_bug_fix <;>
        simp [hi, Nat.testBit_two_pow, hab, hac, hbc, Ne.symm hab, Ne.symm hac]
    · by_cases hib : i = b
      · subst hib
        cases value o.dithering <;> cases value o.palettize <;>
          cases value o.filthy_sprite_bug_fix <;>
          simp [hi, Nat.testBit_two_pow, hab, hac, hbc, Ne.symm hab, Ne.symm hbc]
      · by_cases hic : i = c
        · subst hic
          cases value o.dithering <;> cases value o.palettize <;>
            cases value o.filthy_sprite_bug_fix <;>
            simp [hi, Nat.testBit_two_pow, hab, hac, hbc, Ne.symm hac, Ne.symm hbc]
        · have h32 : i < 32 := by omega
          cases value o.dithering <;> cases value o.palettize <;>
            cases value o.filthy_sprite_bug_fix <;>
            simp [hi, h32, Nat.testBit_two_pow, hia, hib, hic, Ne.symm hia, Ne.symm hib,
              Ne.symm hic]
  · have hia : i ≠ a := by omega
    have hib : i ≠ b := by omega
    have hic : i ≠ c := by omega
    simp [hi, hia, hib, hic, hhigh hi]

/-- C10: the flags word of the saved tag is the flags word the tag data had
before (the existing tag's flags when it is used, zero for a new tag) with
the dithering bit set iff dithering is on, the height-map-compression-disabled
bit set iff palettize is off, the filthy-sprite-bug-fix bit set iff that option
is on, and every other bit unchanged.  The three masks are distinct bits of
the 16-bit word. -/
theorem flags_written (w : World) (o : BitmapOptions) (t : Bitmap) (a b c : Nat)
    (ha : w.flag.BITMAP_FLAGS_FLAG_ENABLE_DIFFUSION_DITHERING = 2 ^ a)
    (hb : w.flag.BITMAP_FLAGS_FLAG_DISABLE_HEIGHT_MAP_COMPRESSION = 2 ^ b)
    (hc : w.flag.BITMAP_FLAGS_FLAG_FILTHY_SPRITE_BUG_FIX = 2 ^ c)
    (ha16 : a < 16) (hb16 : b < 16) (hc16 : c < 16)
    (hab : a ≠ b) (hac : a ≠ c) (hbc : b ≠ c)
    (hflags : (starting_tag w.tag_file o).flags < 65536)
    (h : (perform_the_ritual w o).written = some t) :
    (∀ tag, w.tag_file = .present tag → o.ignore_tag_data = false →
      (starting_tag w.tag_file o).flags = tag.flags) ∧
    (uses_existing_tag w.tag_file o = false → (starting_tag w.tag_file o).flags = 0) ∧
    ∀ i, t.flags.testBit i =
      if i = a then value (resolve_options w.flag w.tag_file o).dithering
      else if i = b then !(value (resolve_options w.flag w.tag_file o).palettize)
      else if i = c then value (resolve_options w.flag w.tag_file o).filthy_sprite_bug_fix
      else (starting_tag w.tag_file o).flags.testBit i := by
  refine ⟨?_, ?_, ?_⟩
  · intro tag hf hi
    simp [starting_tag, uses_existing_tag, TagFile.file_exists, hf, hi, clear_existing_data]
  · intro hu
    unfold starting_tag
    split
    · simp [hu, Bitmap.empty]
    · rfl
  · intro i
    rw [(written_header h).2.2.1]
    exact set_flags_testBit w.flag _ _ a b c ha hb hc ha16 hb16 hc16 hab hac hbc hflags i

/-- The flags of a run over a tag with flags 7 and dithering turned off: 6. -/
theorem flags_written_witness :
    (perform_the_ritual demo_world_with_tag options_dithering_off).written.map (·.flags)
      = some 6 ∧
    ∀ i, ((perform_the_ritual demo_world_with_tag options_dithering_off).written.get
        (by decide)).flags.testBit i =
      if i = 0 then value (resolve_options demo_world_with_tag.flag demo_world_with_tag.tag_file
          options_dithering_off).dithering
      else if i = 1 then !(value (resolve_options demo_world_with_tag.flag
          demo_world_with_tag.tag_file options_dithering_off).palettize)
      else if i = 3 then value (resolve_options demo_world_with_tag.flag
          demo_world_with_tag.tag_file options_dithering_off).filthy_sprite_bug_fix
      else (starting_tag demo_world_with_tag.tag_file options_dithering_off).flags.testBit i :=
  ⟨by decide,
    (flags_written demo_world_with_tag options_dithering_off _ 0 1 3 rfl rfl rfl
      (by decide) (by decide) (by decide) (by decide) (by decide) (by decide) (by decide)
      (by simp)).2.2⟩

/-! ## C2 and C3: the color plate stored in the tag -/

theorem default_values_regenerate (o : BitmapOptions) :
    (default_values o).regenerate = o.regenerate := by
  unfold default_values
  simp only [apply_ite BitmapOptions.regenerate, ite_self]

theorem defaults_from_tag_regenerate (fl : BitmapFlagsFlag) (tag : Bitmap) (o : BitmapOptions) :
    (defaults_from_tag fl tag o).regenerate = o.regenerate := by
  unfold defaults_from_tag
  simp only [apply_ite BitmapOptions.regenerate, ite_self]

theorem resolve_options_regenerate (fl : BitmapFlagsFlag) (f : TagFile) (o : BitmapOptions) :
    (resolve_options fl f o).regenerate = o.regenerate := by
  unfold resolve_options
  split
  · split
    · rw [default_values_regenerate, defaults_from_tag_regenerate]
    · rw [default_values_regenerate]
  · rw [default_values_regenerate]

theorem read_write_big_endian_u32 (n : Nat) (rest : List Nat) :
    read_big_endian_u32 (write_big_endian_u32 n ++ rest) = n % 4294967296 := by
  unfold read_big_endian_u32 write_big_endian_u32
  simp only [List.cons_append, List.nil_append, List.getD_cons_zero, List.getD_cons_succ]
  omega

/-- C2 fails on the code: with a tag at the destination that holds compressed
color plate data and a new plate 32768 pixels wide, the run succeeds and the
saved tag has zero plate dimensions but still carries the old compressed
data. -/
theorem oversize_plate_keeps_old_compressed_data :
    oversize_world.tag_file = .present stored_tag ∧
    BitmapOptions.initial.regenerate = false ∧
    oversize_world.image.map (·.image_width) = some 32768 ∧
    (perform_the_ritual oversize_world BitmapOptions.initial).result = .return_success ∧
    (perform_the_ritual oversize_world BitmapOptions.initial).written.map
      (·.color_plate_width) = some 0 ∧
    (perform_the_ritual oversize_world BitmapOptions.initial).written.map
      (·.color_plate_height) = some 0 ∧
    (perform_the_ritual oversize_world BitmapOptions.initial).written.map
      (·.compressed_color_plate_data) = some [0, 0, 0, 16, 120, 218, 3, 4] := by
  decide


/-- The plate lines 255-287 produce when not regenerating is the loaded image. -/
theorem get_color_plate_image {w : World} {o : BitmapOptions} {tag : Bitmap}
    {log : List Event} {plate : ColorPlate} {img : LoadedImage}
    (hr : o.regenerate = false) (hi : w.image = some img)
    (h : get_color_plate w o tag = .inr (log, plate)) :
    plate = ⟨img.image_pixels, img.image_width, img.image_height, img.image_size⟩ := by
  unfold get_color_plate at h
  simp only [hr, hi, Bool.false_eq_true, if_false] at h
  split_ifs at h
  simp only [Sum.inr.injEq, Prod.mk.injEq] at h
  exact h.2.symm

/-- C3: when not regenerating, for a plate whose width and height are at most
32767, the saved tag's compressed color plate data is the four big-endian
bytes of the plate's byte length followed by the bytes the deflate call
produced, and nothing else; the stored width and height are the plate's.  The
four bytes read back as the byte length (as a uint32, which is the byte length
itself for a plate of 4 bytes per pixel). -/
theorem color_plate_preserved (w : World) (o : BitmapOptions) (t : Bitmap) (img : LoadedImage)
    (hr : o.regenerate = false) (hi : w.image = some img)
    (hw : img.image_width ≤ 32767) (hh : img.image_height ≤ 32767)
    (h : (perform_the_ritual w o).written = some t) :
    t.compressed_color_plate_data
      = write_big_endian_u32 img.image_size
        ++ w.deflate img.image_pixels (img.image_size % 4294967296)
            (img.image_size * 4 % 4294967296) ∧
    (write_big_endian_u32 img.image_size).length = 4 ∧
    read_big_endian_u32 t.compressed_color_plate_data = img.image_size % 4294967296 ∧
    (img.image_size = 4 * (img.image_width * img.image_height) →
      read_big_endian_u32 t.compressed_color_plate_data = img.image_size) ∧
    t.color_plate_width = img.image_width ∧
    t.color_plate_height = img.image_height := by
  obtain ⟨log, plate, scanned, written, format, hg, -, -, rfl⟩ :=
    rest_written (perform_the_ritual_written h)
  have hr' := resolve_options_regenerate w.flag w.tag_file o
  rw [hr] at hr'
  have hp := get_color_plate_image hr' hi hg
  subst hp
  have hc : (compress_color_plate w (resolve_options w.flag w.tag_file o)
      ⟨img.image_pixels, img.image_width, img.image_height, img.image_size⟩
      (starting_tag w.tag_file o))
      = ([.deflate (img.image_size % 4294967296) (img.image_size * 4 % 4294967296)],
        { starting_tag w.tag_file o with
          color_plate_width := img.image_width % 65536,
          color_plate_height := img.image_height % 65536,
          compressed_color_plate_data := write_big_endian_u32 img.image_size
            ++ w.deflate img.image_pixels (img.image_size % 4294967296)
                (img.image_size * 4 % 4294967296) }) := by
    unfold compress_color_plate
    have h1 : ¬ img.image_width > INT16_MAX := by unfold INT16_MAX; omega
    have h2 : ¬ img.image_height > INT16_MAX := by unfold INT16_MAX; omega
    simp [hr', h1, h2]
  refine ⟨?_, rfl, ?_, ?_, ?_, ?_⟩
  · simp only [set_parameters, add_all_sequences, hc]
  · simp only [set_parameters, add_all_sequences, hc]
    exact read_write_big_endian_u32 _ _
  · intro hs
    simp only [set_parameters, add_all_sequences, hc]
    rw [read_write_big_endian_u32]
    apply Nat.mod_eq_of_lt
    have : img.image_width * img.image_height ≤ 32767 * 32767 := Nat.mul_le_mul hw hh
    omega
  · simp only [set_parameters, add_all_sequences, hc]
    exact Nat.mod_eq_of_lt (by omega)
  · simp only [set_parameters, add_all_sequences, hc]
    exact Nat.mod_eq_of_lt (by omega)

/-- The compressed plate of a run on a one-pixel plate: length 4, then the deflate bytes. -/
theorem color_plate_preserved_witness :
    (perform_the_ritual demo_world BitmapOptions.initial).written.map
      (·.compressed_color_plate_data) = some [0, 0, 0, 4, 120, 218, 1, 2] ∧
    ((perform_the_ritual demo_world BitmapOptions.initial).written.get
      (by decide)).compressed_color_plate_data
      = write_big_endian_u32 4 ++ demo_world.deflate [⟨255, 0, 0, 255⟩] (4 % 4294967296)
          (4 * 4 % 4294967296) :=
  ⟨by decide,
    (color_plate_preserved demo_world BitmapOptions.initial _ ⟨[⟨255, 0, 0, 255⟩], 1, 1, 4⟩
      rfl rfl (by decide) (by decide) (by simp)).1⟩

/-! ## C4 and C5: failures of the regeneration mode -/

/-- C4: in regeneration mode, when the tag at the destination stores a zero
color plate width, a zero height, or a big-endian decompressed length that is
not a multiple of 4, the run does not succeed, calls inflate never and saves no
tag; when the tag is used (ignore-tag unset) it returns failure after one of
the two "cannot regenerate" color plate diagnostics. -/
theorem regenerate_without_color_plate_fails (w : World) (o : BitmapOptions) (tag : Bitmap)
    (hr : o.regenerate = true) (hf : w.tag_file = .present tag)
    (hbad : tag.color_plate_width = 0 ∨ tag.color_plate_height = 0 ∨
      read_big_endian_u32 tag.compressed_color_plate_data % 4 ≠ 0) :
    (perform_the_ritual w o).result ≠ .return_success ∧
    (perform_the_ritual w o).inflated = false ∧
    (perform_the_ritual w o).written = none ∧
    (o.ignore_tag_data = false →
      (perform_the_ritual w o = ⟨[.eprintf_error .no_color_plate_data], .return_failure⟩ ∨
       perform_the_ritual w o
        = ⟨[.eprintf_error .color_plate_data_size_wrong], .return_failure⟩)) := by
  cases hi : o.ignore_tag_data
  · have hrr : (default_values (defaults_from_tag w.flag tag o)).regenerate = true := by
      rw [default_values_regenerate, defaults_from_tag_regenerate, hr]
    have hrun : perform_the_ritual w o
          = ⟨[.eprintf_error .no_color_plate_data], .return_failure⟩ ∨
        perform_the_ritual w o
          = ⟨[.eprintf_error .color_plate_data_size_wrong], .return_failure⟩ := by
      unfold perform_the_ritual rest_of_the_ritual get_color_plate
      simp only [uses_existing_tag, TagFile.file_exists, hi, hf, hrr, clear_existing_data]
      by_cases h1 : tag.compressed_color_plate_data.length < 4
      · simp [h1]
      · by_cases h2 : tag.color_plate_width = 0
        · simp [h2]
        · by_cases h3 : tag.color_plate_height = 0
          · simp [h3]
          · have h4 : read_big_endian_u32 tag.compressed_color_plate_data % 4 ≠ 0 := by
              rcases hbad with h | h | h
              · exact absurd h h2
              · exact absurd h h3
              · exact h
            simp [h1, h2, h3, h4]
    rcases hrun with hrun | hrun <;> rw [hrun] <;> simp [Run.inflated, Run.written]
  · have hrun : perform_the_ritual w o
        = ⟨[.eprintf_error .cannot_regenerate_no_tag], .exit_failure⟩ := by
      unfold perform_the_ritual
      simp [uses_existing_tag, hi, hr]
    rw [hrun]
    simp [Run.inflated, Run.written]

/-- Regenerating from a tag whose stored plate width is zero returns failure. -/
theorem regenerate_without_color_plate_fails_witness :
    perform_the_ritual demo_world_zero_plate options_regenerate
      = ⟨[.eprintf_error .no_color_plate_data], .return_failure⟩ ∨
    perform_the_ritual demo_world_zero_plate options_regenerate
      = ⟨[.eprintf_error .color_plate_data_size_wrong], .return_failure⟩ :=
  (regenerate_without_color_plate_fails demo_world_zero_plate options_regenerate
    { stored_tag with color_plate_width := 0 } (by decide) rfl (Or.inl rfl)).2.2.2 (by decide)

/-- C5: with regenerate set, the run fails with the "Cannot regenerate. No
bitmap tag exists" error exactly when no existing tag is used, that is when the
destination file does not exist or ignore-tag is set; it then exits with
failure and saves nothing. -/
theorem cannot_regenerate_iff (w : World) (o : BitmapOptions) (hr : o.regenerate = true) :
    (Event.eprintf_error .cannot_regenerate_no_tag ∈ (perform_the_ritual w o).trace ↔
      (w.tag_file = .absent ∨ o.ignore_tag_data = true)) ∧
    ((w.tag_file = .absent ∨ o.ignore_tag_data = true) →
      perform_the_ritual w o = ⟨[.eprintf_error .cannot_regenerate_no_tag], .exit_failure⟩ ∧
      (perform_the_ritual w o).written = none) := by
  have hno : (w.tag_file = .absent ∨ o.ignore_tag_data = true) →
      perform_the_ritual w o = ⟨[.eprintf_error .cannot_regenerate_no_tag], .exit_failure⟩ := by
    intro h
    have hu : uses_existing_tag w.tag_file o = false := by
      rcases h with h | h <;> simp [uses_existing_tag, TagFile.file_exists, h]
    unfold perform_the_ritual
    simp [hu, hr]
  refine ⟨⟨?_, ?_⟩, ?_⟩
  · intro hmem
    by_contra hcon
    have hu : uses_existing_tag w.tag_file o = true := by
      simp only [not_or] at hcon
      cases hf : w.tag_file <;> simp_all [uses_existing_tag, TagFile.file_exists]
    unfold perform_the_ritual at hmem
    simp only [hu, if_true] at hmem
    split at hmem
    · exact rest_trace_expected _ _ _ _ hmem rfl
    · simp at hmem
  · intro h
    rw [hno h]
    simp
  · intro h
    rw [hno h]
    simp [Run.written]

/-- Regenerating with no tag at the destination exits with the error. -/
theorem cannot_regenerate_iff_witness :
    Event.eprintf_error .cannot_regenerate_no_tag
      ∈ (perform_the_ritual demo_world options_regenerate).trace ∧
    perform_the_ritual demo_world options_regenerate
      = ⟨[.eprintf_error .cannot_regenerate_no_tag], .exit_failure⟩ ∧
    (perform_the_ritual demo_world options_regenerate).written = none :=
  ⟨(cannot_regenerate_iff demo_world options_regenerate (by decide)).1.2 (Or.inl rfl),
   (cannot_regenerate_iff demo_world options_regenerate (by decide)).2 (Or.inl rfl)⟩

/-! ## C6: defaults from the existing tag -/

theorem default_values_fields (o : BitmapOptions) :
    (default_values o).mipmap_fade = some (o.mipmap_fade.getD F32.zero) ∧
    (default_values o).bitmap_type = some (o.bitmap_type.getD .BITMAP_TYPE_2D_TEXTURES) ∧
    (default_values o).sprite_usage
      = some (o.sprite_usage.getD .BITMAP_SPRITE_USAGE_BLEND_ADD_SUBTRACT_MAX) ∧
    (default_values o).sprite_budget_count = some (o.sprite_budget_count.getD 0) ∧
    (default_values o).sprite_spacing = some (o.sprite_spacing.getD 0) ∧
    (default_values o).usage = some (o.usage.getD .BITMAP_USAGE_DEFAULT) ∧
    (default_values o).dithering = some (o.dithering.getD false) ∧
    (default_values o).palettize = some (o.palettize.getD false) ∧
    (default_values o).bump_height = some (o.bump_height.getD (F32.fin (26 / 1000))) ∧
    (default_values o).alpha_bias = some (o.alpha_bias.getD F32.zero) ∧
    (default_values o).filthy_sprite_bug_fix = some (o.filthy_sprite_bug_fix.getD false) := by
  unfold default_values
  refine ⟨?_, ?_, ?_, ?_, ?_, ?_, ?_, ?_, ?_, ?_, ?_⟩
  · simp only [apply_ite BitmapOptions.mipmap_fade, ite_self]
    cases o.mipmap_fade <;> simp
  · simp only [apply_ite BitmapOptions.bitmap_type, ite_self]
    cases o.bitmap_type <;> simp
  · simp only [apply_ite BitmapOptions.sprite_usage, ite_self]
    cases o.sprite_usage <;> simp
  · simp only [apply_ite BitmapOptions.sprite_budget_count, ite_self]
    cases o.sprite_budget_count <;> simp
  · simp only [apply_ite BitmapOptions.sprite_spacing, ite_self]
    cases o.sprite_spacing <;> simp
  · simp only [apply_ite BitmapOptions.usage, ite_self]
    cases o.usage <;> simp
  · simp only [apply_ite BitmapOptions.dithering, ite_self]
    cases o.dithering <;> simp
  · simp only [apply_ite BitmapOptions.palettize, ite_self]
    cases o.palettize <;> simp
  · simp only [apply_ite BitmapOptions.bump_height, ite_self]
    cases o.bump_height <;> simp
  · simp only [apply_ite BitmapOptions.alpha_bias, ite_self]
    cases o.alpha_bias <;> simp
  · simp only [apply_ite BitmapOptions.filthy_sprite_bug_fix, ite_self]
    cases o.filthy_sprite_bug_fix <;> simp

theorem defaults_from_tag_fields (fl : BitmapFlagsFlag) (tag : Bitmap) (o : BitmapOptions) :
    (defaults_from_tag fl tag o).mipmap_fade = some (o.mipmap_fade.getD tag.detail_fade_factor) ∧
    (defaults_from_tag fl tag o).bitmap_type = some (o.bitmap_type.getD tag.type) ∧
    (defaults_from_tag fl tag o).max_mipmap_count
      = some (o.max_mipmap_count.getD (if to_int16 tag.mipmap_count = 0 then INT16_MAX
          else to_uint16 (to_int16 tag.mipmap_count - 1))) ∧
    (defaults_from_tag fl tag o).sprite_usage = some (o.sprite_usage.getD tag.sprite_usage) ∧
    (defaults_from_tag fl tag o).sprite_budget
      = some (o.sprite_budget.getD ((32 <<< tag.sprite_budget_size.value) % 4294967296)) ∧
    (defaults_from_tag fl tag o).sprite_budget_count
      = some (o.sprite_budget_count.getD tag.sprite_budget_count) ∧
    (defaults_from_tag fl tag o).sprite_spacing
      = some (o.sprite_spacing.getD tag.sprite_spacing) ∧
    (defaults_from_tag fl tag o).usage = some (o.usage.getD tag.usage) ∧
    (defaults_from_tag fl tag o).dithering = some (o.dithering.getD
      (tag.flags &&& fl.BITMAP_FLAGS_FLAG_ENABLE_DIFFUSION_DITHERING != 0)) ∧
    (defaults_from_tag fl tag o).palettize = some (o.palettize.getD
      (!(tag.flags &&& fl.BITMAP_FLAGS_FLAG_DISABLE_HEIGHT_MAP_COMPRESSION != 0))) ∧
    (defaults_from_tag fl tag o).bump_height = some (o.bump_height.getD tag.bump_height) ∧
    (defaults_from_tag fl tag o).alpha_bias = some (o.alpha_bias.getD tag.alpha_bias) ∧
    (defaults_from_tag fl tag o).filthy_sprite_bug_fix = some (o.filthy_sprite_bug_fix.getD
      (tag.flags &&& fl.BITMAP_FLAGS_FLAG_FILTHY_SPRITE_BUG_FIX != 0)) := by
  unfold defaults_from_tag
  refine ⟨?_, ?_, ?_, ?_, ?_, ?_, ?_, ?_, ?_, ?_, ?_, ?_, ?_⟩
  · simp only [apply_ite BitmapOptions.mipmap_fade, ite_self]
    cases o.mipmap_fade <;> simp
  · simp only [apply_ite BitmapOptions.bitmap_type, ite_self]
    cases o.bitmap_type <;> simp
  · simp only [apply_ite BitmapOptions.max_mipmap_count, ite_self]
    cases o.max_mipmap_count
    · by_cases h0 : to_int16 tag.mipmap_count = 0 <;> simp [h0]
    · simp
  · simp only [apply_ite BitmapOptions.sprite_usage, ite_self]
    cases o.sprite_usage <;> simp
  · simp only [apply_ite BitmapOptions.sprite_budget, ite_self]
    cases o.sprite_budget <;> simp
  · simp only [apply_ite BitmapOptions.sprite_budget_count, ite_self]
    cases o.sprite_budget_count <;> simp
  · simp only [apply_ite BitmapOptions.sprite_spacing, ite_self]
    cases o.sprite_spacing <;> simp
  · simp only [apply_ite BitmapOptions.usage, ite_self]
    cases o.usage <;> simp
  · simp only [apply_ite BitmapOptions.dithering, ite_self]
    cases o.dithering <;> simp
  · simp only [apply_ite BitmapOptions.palettize, ite_self]
    cases o.palettize <;> simp
  · simp only [apply_ite BitmapOptions.bump_height, ite_self]
    cases o.bump_height <;> simp
  · simp only [apply_ite BitmapOptions.alpha_bias, ite_self]
    cases o.alpha_bias <;> simp
  · simp only [apply_ite BitmapOptions.filthy_sprite_bug_fix, ite_self]
    cases o.filthy_sprite_bug_fix <;> simp

theorem uses_existing_tag_present (tag : Bitmap) (o : BitmapOptions)
    (hi : o.ignore_tag_data = false) : uses_existing_tag (.present tag) o = true := by
  unfold uses_existing_tag TagFile.file_exists
  rw [hi]
  rfl

theorem resolve_options_present {fl : BitmapFlagsFlag} {tag : Bitmap} {o : BitmapOptions}
    (hi : o.ignore_tag_data = false) :
    resolve_options fl (.present tag) o = default_values (defaults_from_tag fl tag o) := by
  unfold resolve_options
  dsimp only
  rw [if_pos (uses_existing_tag_present tag o hi)]

theorem decode_mipmap_count (f : Nat) (hf : f < 65536) :
    (if to_int16 f = 0 then INT16_MAX else to_uint16 (to_int16 f - 1))
      = if f = 0 then 32767 else f - 1 := by
  unfold to_int16 to_uint16 INT16_MAX
  have hm : f % 65536 = f := Nat.mod_eq_of_lt hf
  rw [hm]
  split_ifs <;> omega

theorem decode_sprite_budget (e : BitmapSpriteBudgetSize) :
    (32 <<< e.value) % 4294967296 = 32 * 2 ^ e.value := by
  cases e <;> rfl

/-- C6 as stated fails for the mipmap count and the sprite budget: the tag
stores the mipmap count 5 and the budget enumerator 1, the caller gives
neither option, and the resolved options are the cap 4 and the budget 64. -/
theorem mipmap_count_and_budget_are_decoded :
    demo_world_with_tag.tag_file = .present stored_tag ∧
    BitmapOptions.initial.ignore_tag_data = false ∧
    BitmapOptions.initial.max_mipmap_count = none ∧
    BitmapOptions.initial.sprite_budget = none ∧
    stored_tag.mipmap_count = 5 ∧
    (resolve_options demo_world_with_tag.flag demo_world_with_tag.tag_file
      BitmapOptions.initial).max_mipmap_count = some 4 ∧
    stored_tag.sprite_budget_size.value = 1 ∧
    (resolve_options demo_world_with_tag.flag demo_world_with_tag.tag_file
      BitmapOptions.initial).sprite_budget = some 64 := by
  decide

/-- C6, amended: when a tag exists at the destination and ignore-tag is not
set, each of the options mipmap fade, bitmap type, mipmap count, sprite usage,
sprite budget, sprite budget count, sprite spacing, usage, dithering,
palettize, bump height, alpha bias and filthy-sprite-bug-fix resolves to the
caller's value when the caller gave one, and otherwise to the tag's value:
the stored field for the plain fields, the flag bit for dithering and
filthy-sprite-bug-fix, the negated height-map-compression-disabled bit for
palettize, 32767 for a stored mipmap count 0 and the stored count minus 1
otherwise, and 32 shifted left by the stored budget enumerator for the
sprite budget. -/
theorem defaults_from_existing_tag (w : World) (o : BitmapOptions) (tag : Bitmap)
    (hf : w.tag_file = .present tag) (hi : o.ignore_tag_data = false)
    (hm : tag.mipmap_count < 65536) :
    (resolve_options w.flag w.tag_file o).mipmap_fade
      = some (o.mipmap_fade.getD tag.detail_fade_factor) ∧
    (resolve_options w.flag w.tag_file o).bitmap_type = some (o.bitmap_type.getD tag.type) ∧
    (resolve_options w.flag w.tag_file o).max_mipmap_count
      = some (o.max_mipmap_count.getD
          (if tag.mipmap_count = 0 then 32767 else tag.mipmap_count - 1)) ∧
    (resolve_options w.flag w.tag_file o).sprite_usage
      = some (o.sprite_usage.getD tag.sprite_usage) ∧
    (resolve_options w.flag w.tag_file o).sprite_budget
      = some (o.sprite_budget.getD (32 * 2 ^ tag.sprite_budget_size.value)) ∧
    (resolve_options w.flag w.tag_file o).sprite_budget_count
      = some (o.sprite_budget_count.getD tag.sprite_budget_count) ∧
    (resolve_options w.flag w.tag_file o).sprite_spacing
      = some (o.sprite_spacing.getD tag.sprite_spacing) ∧
    (resolve_options w.flag w.tag_file o).usage = some (o.usage.getD tag.usage) ∧
    (resolve_options w.flag w.tag_file o).dithering = some (o.dithering.getD
      (tag.flags &&& w.flag.BITMAP_FLAGS_FLAG_ENABLE_DIFFUSION_DITHERING != 0)) ∧
    (resolve_options w.flag w.tag_file o).palettize = some (o.palettize.getD
      (!(tag.flags &&& w.flag.BITMAP_FLAGS_FLAG_DISABLE_HEIGHT_MAP_COMPRESSION != 0))) ∧
    (resolve_options w.flag w.tag_file o).bump_height
      = some (o.bump_height.getD tag.bump_height) ∧
    (resolve_options w.flag w.tag_file o).alpha_bias
      = some (o.alpha_bias.getD tag.alpha_bias) ∧
    (resolve_options w.flag w.tag_file o).filthy_sprite_bug_fix
      = some (o.filthy_sprite_bug_fix.getD
          (tag.flags &&& w.flag.BITMAP_FLAGS_FLAG_FILTHY_SPRITE_BUG_FIX != 0)) := by
  rw [hf, resolve_options_present hi]
  obtain ⟨d1, d2, d3, d4, d5, d6, d7, d8, d9, d10, d11⟩ :=
    default_values_fields (defaults_from_tag w.flag tag o)
  obtain ⟨t1, t2, t3, t4, t5, t6, t7, t8, t9, t10, t11, t12, t13⟩ :=
    defaults_from_tag_fields w.flag tag o
  rw [decode_mipmap_count _ hm] at t3
  rw [decode_sprite_budget] at t5
  refine ⟨?_, ?_, ?_, ?_, ?_, ?_, ?_, ?_, ?_, ?_, ?_, ?_, ?_⟩
  · rw [d1, t1]; rfl
  · rw [d2, t2]; rfl
  · rw [default_values_max_mipmap_count, t3]; rfl
  · rw [d3, t4]; rfl
  · rw [default_values_sprite_budget, t5]; rfl
  · rw [d4, t6]; rfl
  · rw [d5, t7]; rfl
  · rw [d6, t8]; rfl
  · rw [d7, t9]; rfl
  · rw [d8, t10]; rfl
  · rw [d9, t11]; rfl
  · rw [d10, t12]; rfl
  · rw [d11, t13]; rfl

/-- Dithering given by the caller is kept, palettize comes from the tag's flag bit. -/
theorem defaults_from_existing_tag_witness :
    (resolve_options demo_world_with_tag.flag demo_world_with_tag.tag_file
      options_dithering_off).dithering
      = some ((some false).getD
          (stored_tag.flags
            &&& demo_world_with_tag.flag.BITMAP_FLAGS_FLAG_ENABLE_DIFFUSION_DITHERING != 0)) ∧
    (resolve_options demo_world_with_tag.flag demo_world_with_tag.tag_file
      options_dithering_off).palettize
      = some ((none : Option Bool).getD
          (!(stored_tag.flags
            &&& demo_world_with_tag.flag.BITMAP_FLAGS_FLAG_DISABLE_HEIGHT_MAP_COMPRESSION
              != 0))) :=
  ⟨(defaults_from_existing_tag demo_world_with_tag options_dithering_off stored_tag rfl
      (by decide) (by decide)).2.2.2.2.2.2.2.2.1,
   (defaults_from_existing_tag demo_world_with_tag options_dithering_off stored_tag rfl
      (by decide) (by decide)).2.2.2.2.2.2.2.2.2.1⟩


/-! ## C7: sharpen and blur from the existing tag -/

theorem F32.gt_zero_iff (x : F32) : F32.gt x F32.zero = true ↔ x.positive := by
  cases x <;> simp [F32.gt, F32.zero, F32.positive]

theorem F32.gt_zero_le_one_iff (x : F32) :
    (F32.gt x F32.zero && F32.le x F32.one) = true ↔ x.in_zero_one := by
  cases x <;> simp [F32.gt, F32.le, F32.zero, F32.one, F32.in_zero_one]

theorem default_values_sharpen_blur (o : BitmapOptions) :
    (default_values o).sharpen = o.sharpen ∧ (default_values o).blur = o.blur := by
  unfold default_values
  constructor
  · simp only [apply_ite BitmapOptions.sharpen, ite_self]
  · simp only [apply_ite BitmapOptions.blur, ite_self]

theorem defaults_from_tag_sharpen_blur (fl : BitmapFlagsFlag) (tag : Bitmap)
    (o : BitmapOptions) :
    (defaults_from_tag fl tag o).sharpen
      = (if o.sharpen.isNone && F32.gt tag.sharpen_amount F32.zero
            && F32.le tag.sharpen_amount F32.one
          then some tag.sharpen_amount else o.sharpen) ∧
    (defaults_from_tag fl tag o).blur
      = (if o.blur.isNone && F32.gt tag.blur_filter_size F32.zero
          then some tag.blur_filter_size else o.blur) := by
  unfold defaults_from_tag
  constructor
  · simp only [apply_ite BitmapOptions.sharpen, ite_self]
  · simp only [apply_ite BitmapOptions.blur, ite_self]

/-- The processor is only called with the arguments built from the resolved
options. -/
theorem process_calls_arguments {w : World} {o : BitmapOptions} {a : ProcessArguments}
    (h : a ∈ (perform_the_ritual w o).process_calls) :
    a = process_arguments (resolve_options w.flag w.tag_file o) := by
  unfold Run.process_calls at h
  rw [List.mem_filterMap] at h
  obtain ⟨e, he, hea⟩ := h
  rcases perform_the_ritual_trace w o with ht | ht
  · have := ht e he
    cases e <;> simp at hea
    subst hea
    exact this
  · rw [ht] at he
    simp at he
    subst he
    simp at hea

/-- C7: when defaults are taken from an existing tag and the caller gave no
sharpen value, the tag's sharpen amount is adopted exactly when it lies in
(0,1]; otherwise the option stays unset, the processor is called without a
sharpen value and the saved header has sharpen_amount 0.  The same holds for
blur with the tag's blur filter size and the condition > 0. -/
theorem sharpen_and_blur_from_tag (w : World) (o : BitmapOptions) (tag : Bitmap)
    (hf : w.tag_file = .present tag) (hi : o.ignore_tag_data = false) :
    (o.sharpen = none →
      (tag.sharpen_amount.in_zero_one →
        (resolve_options w.flag w.tag_file o).sharpen = some tag.sharpen_amount) ∧
      (¬ tag.sharpen_amount.in_zero_one →
        (resolve_options w.flag w.tag_file o).sharpen = none ∧
        (∀ a ∈ (perform_the_ritual w o).process_calls, a.sharpen = none) ∧
        ∀ t, (perform_the_ritual w o).written = some t → t.sharpen_amount = F32.zero)) ∧
    (o.blur = none →
      (tag.blur_filter_size.positive →
        (resolve_options w.flag w.tag_file o).blur = some tag.blur_filter_size) ∧
      (¬ tag.blur_filter_size.positive →
        (resolve_options w.flag w.tag_file o).blur = none ∧
        (∀ a ∈ (perform_the_ritual w o).process_calls, a.blur = none) ∧
        ∀ t, (perform_the_ritual w o).written = some t → t.blur_filter_size = F32.zero)) := by
  have hs : (resolve_options w.flag w.tag_file o).sharpen
      = (if o.sharpen.isNone && F32.gt tag.sharpen_amount F32.zero
            && F32.le tag.sharpen_amount F32.one
          then some tag.sharpen_amount else o.sharpen) := by
    rw [hf, resolve_options_present hi, (default_values_sharpen_blur _).1,
      (defaults_from_tag_sharpen_blur _ _ _).1]
  have hb : (resolve_options w.flag w.tag_file o).blur
      = (if o.blur.isNone && F32.gt tag.blur_filter_size F32.zero
          then some tag.blur_filter_size else o.blur) := by
    rw [hf, resolve_options_present hi, (default_values_sharpen_blur _).2,
      (defaults_from_tag_sharpen_blur _ _ _).2]
  constructor
  · intro hn
    rw [hn] at hs
    constructor
    · intro hr
      have hr' := (F32.gt_zero_le_one_iff _).2 hr
      rw [Bool.and_eq_true] at hr'
      rw [hs]
      simp [hr'.1, hr'.2]
    · intro hr
      have hr' : ¬ ((F32.gt tag.sharpen_amount F32.zero && F32.le tag.sharpen_amount F32.one)
          = true) := fun h => hr ((F32.gt_zero_le_one_iff _).1 h)
      have hnone : (resolve_options w.flag w.tag_file o).sharpen = none := by
        rw [hs]
        rw [Bool.and_eq_true] at hr'
        by_cases h1 : F32.gt tag.sharpen_amount F32.zero = true
        · have h2 : ¬ F32.le tag.sharpen_amount F32.one = true := fun h => hr' ⟨h1, h⟩
          simp [h1, h2]
        · simp [h1]
      refine ⟨hnone, ?_, ?_⟩
      · intro a ha
        rw [process_calls_arguments ha]
        simp only [process_arguments, hnone]
      · intro t ht
        rw [(written_header ht).2.2.2.1, hnone]
        rfl
  · intro hn
    rw [hn] at hb
    constructor
    · intro hr
      have hr' := (F32.gt_zero_iff _).2 hr
      rw [hb]
      simp [hr']
    · intro hr
      have hr' : ¬ (F32.gt tag.blur_filter_size F32.zero = true) :=
        fun h => hr ((F32.gt_zero_iff _).1 h)
      have hnone : (resolve_options w.flag w.tag_file o).blur = none := by
        rw [hb]
        simp [hr']
      refine ⟨hnone, ?_, ?_⟩
      · intro a ha
        rw [process_calls_arguments ha]
        simp only [process_arguments, hnone]
      · intro t ht
        rw [(written_header ht).2.2.2.2, hnone]
        rfl

/-- A tag with sharpen 2 and blur -1: neither is adopted and the header gets 0. -/
theorem sharpen_and_blur_from_tag_witness :
    (perform_the_ritual demo_world_bad_sharpen BitmapOptions.initial).written.map
      (·.sharpen_amount) = some F32.zero ∧
    (resolve_options demo_world_bad_sharpen.flag demo_world_bad_sharpen.tag_file
      BitmapOptions.initial).sharpen = none ∧
    (resolve_options demo_world_bad_sharpen.flag demo_world_bad_sharpen.tag_file
      BitmapOptions.initial).blur = none :=
  ⟨by decide,
   (((sharpen_and_blur_from_tag demo_world_bad_sharpen BitmapOptions.initial _ rfl rfl).1
      rfl).2 (by simp [F32.in_zero_one])).1,
   (((sharpen_and_blur_from_tag demo_world_bad_sharpen BitmapOptions.initial _ rfl rfl).2
      rfl).2 (by simp [F32.positive])).1⟩


/-! ## C8: an explicit format overrides automatic selection -/

theorem format_option_format_option (a b : Option BitmapFormat) (o : BitmapOptions) :
    format_option a (format_option b o) = format_option a o := by
  cases a <;> cases b <;> rfl

/-- Only the last `F` option counts. -/
theorem format_options_eq : ∀ (args : List (Option BitmapFormat)) (o : BitmapOptions),
    format_options args o = match args.getLast? with
      | none => o
      | some argument => format_option argument o
  | [], _ => rfl
  | [_], _ => rfl
  | a :: b :: rest, o => by
    have ih := format_options_eq (b :: rest) (format_option a o)
    have hl : (a :: b :: rest).getLast? = (b :: rest).getLast? := List.getLast?_cons_cons
    rw [hl]
    unfold format_options at ih ⊢
    rw [List.foldl_cons, ih]
    cases hg : (b :: rest).getLast? with
    | none => simp at hg
    | some x => exact format_option_format_option x a o

theorem default_values_format (o : BitmapOptions) :
    (default_values o).format = o.format ∧
    (default_values o).auto_format = some (o.auto_format.getD true) := by
  unfold default_values
  constructor
  · simp only [apply_ite BitmapOptions.format, ite_self]
  · simp only [apply_ite BitmapOptions.auto_format, ite_self]
    cases o.auto_format <;> simp

theorem defaults_from_tag_format (fl : BitmapFlagsFlag) (tag : Bitmap) (o : BitmapOptions) :
    (defaults_from_tag fl tag o).format
      = (if o.format.isNone && !(o.auto_format.getD false) then some tag.encoding_format
          else o.format) ∧
    (defaults_from_tag fl tag o).auto_format
      = (if o.format.isNone && !(o.auto_format.getD false) then some false
          else o.auto_format) := by
  unfold defaults_from_tag
  constructor
  · simp only [apply_ite BitmapOptions.format, ite_self]
  · simp only [apply_ite BitmapOptions.auto_format, ite_self]

/-- The pixel writer is only called with the format option left by lines
361-363 for the resolved options. -/
theorem write_calls_format {w : World} {o : BitmapOptions} {a : WriteArguments}
    (h : a ∈ (perform_the_ritual w o).write_calls) :
    a.format = (clear_format_if_auto (resolve_options w.flag w.tag_file o)).format := by
  unfold Run.write_calls at h
  rw [List.mem_filterMap] at h
  obtain ⟨e, he, hea⟩ := h
  rcases perform_the_ritual_trace w o with ht | ht
  · have := ht e he
    cases e <;> simp at hea
    subst hea
    obtain ⟨s, hs⟩ := this
    rw [hs]
    rfl
  · rw [ht] at he
    simp at he
    subst he
    simp at hea

/-- The format and the automatic selection after line 209, for the three
states `main` leaves the format options in. -/
theorem resolve_options_format (fl : BitmapFlagsFlag) (f : TagFile) (o : BitmapOptions)
    (hu : f ≠ .unreadable) :
    (o.format = none → o.auto_format = none →
      (∀ tag, f = .present tag → o.ignore_tag_data = false →
        (resolve_options fl f o).format = some tag.encoding_format ∧
        (resolve_options fl f o).auto_format = some false) ∧
      (uses_existing_tag f o = false →
        (resolve_options fl f o).format = none ∧
        (resolve_options fl f o).auto_format = some true)) ∧
    (o.format = none → o.auto_format = some true →
      (resolve_options fl f o).format = none ∧
      (resolve_options fl f o).auto_format = some true) ∧
    (∀ fmt, o.format = some fmt → o.auto_format = some false →
      (resolve_options fl f o).format = some fmt ∧
      (resolve_options fl f o).auto_format = some false) := by
  have hnot : uses_existing_tag f o = false → resolve_options fl f o = default_values o := by
    intro h
    unfold resolve_options
    split
    · rw [if_neg (by simp [h])]
    · rfl
  have hcase : (∃ tag, f = .present tag ∧ o.ignore_tag_data = false) ∨
      uses_existing_tag f o = false := by
    cases f with
    | absent => right; simp [uses_existing_tag, TagFile.file_exists]
    | unreadable => exact absurd rfl hu
    | present tag =>
      cases hi : o.ignore_tag_data
      · left; exact ⟨tag, rfl, rfl⟩
      · right; simp [uses_existing_tag, hi]
  refine ⟨?_, ?_, ?_⟩
  · intro h1 h2
    constructor
    · intro tag hf hi
      subst hf
      rw [resolve_options_present hi, (default_values_format _).1, (default_values_format _).2,
        (defaults_from_tag_format _ _ _).1, (defaults_from_tag_format _ _ _).2, h1, h2]
      simp
    · intro h
      rw [hnot h, (default_values_format _).1, (default_values_format _).2, h1, h2]
      simp
  · intro h1 h2
    rcases hcase with ⟨tag, hf, hi⟩ | h
    · subst hf
      rw [resolve_options_present hi, (default_values_format _).1, (default_values_format _).2,
        (defaults_from_tag_format _ _ _).1, (defaults_from_tag_format _ _ _).2, h1, h2]
      simp
    · rw [hnot h, (default_values_format _).1, (default_values_format _).2, h1, h2]
      simp
  · intro fmt h1 h2
    rcases hcase with ⟨tag, hf, hi⟩ | h
    · subst hf
      rw [resolve_options_present hi, (default_values_format _).1, (default_values_format _).2,
        (defaults_from_tag_format _ _ _).1, (defaults_from_tag_format _ _ _).2, h1, h2]
      simp
    · rw [hnot h, (default_values_format _).1, (default_values_format _).2, h1, h2]
      simp

theorem clear_format_if_auto_format (o : BitmapOptions) :
    (o.auto_format = some true → (clear_format_if_auto o).format = none) ∧
    (o.auto_format = some false → (clear_format_if_auto o).format = o.format) := by
  unfold clear_format_if_auto value
  constructor <;> intro h <;> simp [h]

/-- C8: for the options `main` hands over after any sequence `args` of `F`
options (`none` is "auto") and for an absent or a parsed tag at the
destination: a concrete format named last turns automatic selection off and is
the format the pixel writer is called with, whatever the tag stores; a used
tag's stored format is taken (and handed to the writer) when no `F` option was
given, and with "auto" or a concrete format the tag's format is not taken;
automatic selection is on exactly when "auto" was asked for last or when no
`F` option was given and no tag is used. -/
theorem explicit_format_overrides (w : World) (o0 o : BitmapOptions)
    (args : List (Option BitmapFormat))
    (h0 : o0.format = none) (h1 : o0.auto_format = none)
    (ho : o = format_options args o0) (hu : w.tag_file ≠ .unreadable) :
    (∀ fmt, args.getLast? = some (some fmt) →
      (resolve_options w.flag w.tag_file o).format = some fmt ∧
      (resolve_options w.flag w.tag_file o).auto_format = some false ∧
      ∀ a ∈ (perform_the_ritual w o).write_calls, a.format = some fmt) ∧
    (args.getLast? = some none →
      (resolve_options w.flag w.tag_file o).format = none ∧
      ∀ a ∈ (perform_the_ritual w o).write_calls, a.format = none) ∧
    (∀ tag, w.tag_file = .present tag → o.ignore_tag_data = false → args = [] →
      (resolve_options w.flag w.tag_file o).format = some tag.encoding_format ∧
      ∀ a ∈ (perform_the_ritual w o).write_calls, a.format = some tag.encoding_format) ∧
    ((resolve_options w.flag w.tag_file o).auto_format = some true ↔
      (args.getLast? = some none ∨ (args = [] ∧ uses_existing_tag w.tag_file o = false))) := by
  have hr := resolve_options_format w.flag w.tag_file o hu
  have hoeq := format_options_eq args o0
  rw [← ho] at hoeq
  have hcase : (∃ tag, w.tag_file = .present tag ∧ o.ignore_tag_data = false) ∨
      uses_existing_tag w.tag_file o = false := by
    cases hf : w.tag_file with
    | absent => right; simp [uses_existing_tag, TagFile.file_exists]
    | unreadable => exact absurd hf hu
    | present tag =>
      cases hi : o.ignore_tag_data
      · left; exact ⟨tag, rfl, rfl⟩
      · right; simp [uses_existing_tag, hi]
  cases hl : args.getLast? with
  | none =>
    have hnil : args = [] := List.getLast?_eq_none_iff.1 hl
    rw [hl] at hoeq
    have hf0 : o.format = none := by rw [hoeq]; exact h0
    have ha0 : o.auto_format = none := by rw [hoeq]; exact h1
    obtain ⟨hused, hunused⟩ := hr.1 hf0 ha0
    refine ⟨?_, ?_, ?_, ?_⟩
    · intro fmt h; cases h
    · intro h; cases h
    · intro tag hf hi _
      obtain ⟨e1, e2⟩ := hused tag hf hi
      refine ⟨e1, ?_⟩
      intro a ha
      rw [write_calls_format ha, (clear_format_if_auto_format _).2 e2, e1]
    · rcases hcase with ⟨tag, hf, hi⟩ | hn
      · have hut : uses_existing_tag w.tag_file o = true := by
          rw [hf]; exact uses_existing_tag_present tag o hi
        rw [(hused tag hf hi).2]
        simp [hut]
      · rw [(hunused hn).2]
        simp [hnil, hn]
  | some last =>
    have hne : args ≠ [] := by
      intro h
      rw [h] at hl
      simp at hl
    rw [hl] at hoeq
    cases last with
    | none =>
      have hf0 : o.format = none := by rw [hoeq]; rfl
      have ha0 : o.auto_format = some true := by rw [hoeq]; rfl
      obtain ⟨e1, e2⟩ := hr.2.1 hf0 ha0
      refine ⟨?_, ?_, ?_, ?_⟩
      · intro fmt h; cases h
      · intro _
        refine ⟨e1, ?_⟩
        intro a ha
        rw [write_calls_format ha, (clear_format_if_auto_format _).1 e2]
      · intro tag _ _ h
        exact absurd h hne
      · rw [e2]
        simp
    | some fmt =>
      have hf0 : o.format = some fmt := by rw [hoeq]; rfl
      have ha0 : o.auto_format = some false := by rw [hoeq]; rfl
      obtain ⟨e1, e2⟩ := hr.2.2 fmt hf0 ha0
      refine ⟨?_, ?_, ?_, ?_⟩
      · intro fmt' h
        have hfmt : fmt = fmt' := by
          injection h with h
          injection h
        subst hfmt
        refine ⟨e1, e2, ?_⟩
        intro a ha
        rw [write_calls_format ha, (clear_format_if_auto_format _).2 e2, e1]
      · intro h
        injection h with h
        cases h
      · intro tag _ _ h
        exact absurd h hne
      · rw [e2]
        simp [hne]

/-- The options `-F auto -F dxt5` over a tag that stores DXT3: the writer gets DXT5. -/
theorem explicit_format_overrides_witness :
    (perform_the_ritual demo_world_with_tag options_format_dxt5).write_calls.map (·.format)
      = [some .BITMAP_FORMAT_DXT5] ∧
    stored_tag.encoding_format = .BITMAP_FORMAT_DXT3 ∧
    (resolve_options demo_world_with_tag.flag demo_world_with_tag.tag_file
      options_format_dxt5).auto_format = some false :=
  ⟨by decide, rfl,
   ((explicit_format_overrides demo_world_with_tag BitmapOptions.initial options_format_dxt5
      [none, some .BITMAP_FORMAT_DXT5] rfl rfl rfl (by decide)).1
      .BITMAP_FORMAT_DXT5 rfl).2.1⟩

/-! ## Lemmas on the emitted sequences -/

theorem add_sprite_eq (bitmaps : List GeneratedBitmapDataBitmap) (bgs : BitmapGroupSequence)
    (sprite : GeneratedBitmapDataSprite) :
    add_sprite bitmaps bgs sprite =
      { bitmap_count := bgs.bitmap_count,
        sprites := bgs.sprites ++ [sprite_record bitmaps sprite],
        first_bitmap_index := min bgs.first_bitmap_index (sprite.bitmap_index % 65536) } := by
  unfold add_sprite sprite_record
  dsimp only
  split
  · rename_i h
    rw [Nat.min_eq_right (Nat.le_of_lt h)]
  · rename_i h
    rw [Nat.min_eq_left (Nat.le_of_not_lt h)]

theorem foldl_add_sprite (bitmaps : List GeneratedBitmapDataBitmap) :
    ∀ (sprites : List GeneratedBitmapDataSprite) (bgs : BitmapGroupSequence),
    sprites.foldl (add_sprite bitmaps) bgs =
      { bitmap_count := bgs.bitmap_count,
        sprites := bgs.sprites ++ sprites.map (sprite_record bitmaps),
        first_bitmap_index :=
          (sprites.map (fun s => s.bitmap_index % 65536)).foldl min bgs.first_bitmap_index }
  | [], bgs => by simp
  | sprite :: rest, bgs => by
    rw [List.foldl_cons, foldl_add_sprite bitmaps rest, add_sprite_eq]
    simp

/-- The least element of a list below a starting value, by `foldl min`. -/
theorem foldl_min_le : ∀ (l : List Nat) (m : Nat),
    l.foldl min m ≤ m ∧ (∀ x ∈ l, l.foldl min m ≤ x) ∧ (l.foldl min m = m ∨ l.foldl min m ∈ l)
  | [], m => by simp
  | a :: rest, m => by
    obtain ⟨h1, h2, h3⟩ := foldl_min_le rest (min m a)
    rw [List.foldl_cons]
    refine ⟨le_trans h1 (Nat.min_le_left m a), ?_, ?_⟩
    · intro x hx
      rcases List.mem_cons.1 hx with rfl | hx
      · exact le_trans h1 (Nat.min_le_right m x)
      · exact h2 x hx
    · rcases h3 with h3 | h3
      · rw [h3]
        rcases Nat.le_total m a with h | h
        · left; exact Nat.min_eq_left h
        · right; rw [Nat.min_eq_right h]; exact List.mem_cons_self _ _
      · right; exact List.mem_cons_of_mem _ h3

theorem add_sequence_eq (o : BitmapOptions) (bitmaps : List GeneratedBitmapDataBitmap)
    (sequence : GeneratedBitmapDataSequence) :
    (add_sequence o bitmaps sequence).sprites = sequence.sprites.map (sprite_record bitmaps) ∧
    (add_sequence o bitmaps sequence).bitmap_count =
      (if value o.bitmap_type = .BITMAP_TYPE_SPRITES
        then (if sequence.sprites.length = 1 then 1 else 0)
        else sequence.bitmap_count % 65536) ∧
    (add_sequence o bitmaps sequence).first_bitmap_index =
      (let first := (sequence.sprites.map (fun s => s.bitmap_index % 65536)).foldl min
          (if value o.bitmap_type = .BITMAP_TYPE_SPRITES then NULL_INDEX
            else sequence.first_bitmap % 65536)
       if first = NULL_INDEX then 0 else first) := by
  unfold add_sequence
  simp only [foldl_add_sprite]
  by_cases ht : value o.bitmap_type = .BITMAP_TYPE_SPRITES
  · simp only [ht, if_true]
    refine ⟨?_, ?_, ?_⟩ <;> split_ifs <;> simp_all
  · simp only [ht, if_false]
    refine ⟨?_, ?_, ?_⟩ <;> split_ifs <;> simp_all

theorem clear_format_if_auto_bitmap_type (o : BitmapOptions) :
    (clear_format_if_auto o).bitmap_type = o.bitmap_type ∧
    (clear_format_if_auto o).mipmap_fade = o.mipmap_fade ∧
    (clear_format_if_auto o).usage = o.usage := by
  unfold clear_format_if_auto
  split <;> simp

theorem add_sequence_clear_format_if_auto (o : BitmapOptions) :
    add_sequence (clear_format_if_auto o) = add_sequence o := by
  funext bitmaps sequence
  unfold add_sequence
  rw [(clear_format_if_auto_bitmap_type o).1]

theorem starting_tag_sequences (f : TagFile) (o : BitmapOptions) :
    (starting_tag f o).bitmap_group_sequence = [] := by
  unfold starting_tag
  split
  · split <;> rfl
  · rfl

theorem compress_color_plate_sequences (w : World) (o : BitmapOptions) (plate : ColorPlate)
    (tag : Bitmap) :
    (compress_color_plate w o plate tag).2.bitmap_group_sequence = tag.bitmap_group_sequence := by
  unfold compress_color_plate
  dsimp only
  split_ifs <;> rfl

theorem get_color_plate_write_calls {w : World} {o : BitmapOptions} {tag : Bitmap}
    {log : List Event} {plate : ColorPlate} (h : get_color_plate w o tag = .inr (log, plate)) :
    (log.filterMap fun e => match e with
      | .write_bitmap_data a => some a
      | _ => none) = [] := by
  rcases get_color_plate_inr h with h | ⟨-, a, b, c, h⟩ <;> subst h <;> rfl

theorem compress_color_plate_write_calls (w : World) (o : BitmapOptions) (plate : ColorPlate)
    (tag : Bitmap) :
    ((compress_color_plate w o plate tag).1.filterMap fun e => match e with
      | .write_bitmap_data a => some a
      | _ => none) = [] := by
  unfold compress_color_plate
  dsimp only
  split_ifs <;> rfl

/-- A run of lines 211-471 that saves a tag called the pixel writer once, and
the saved sequences are the ones emitted for the scanned plate it handed over. -/
theorem rest_written_sequences {w : World} {o : BitmapOptions} {tag t : Bitmap}
    (h : (rest_of_the_ritual w o tag).written = some t) :
    ∃ scanned,
      (rest_of_the_ritual w o tag).write_calls
        = [write_arguments (clear_format_if_auto o) scanned] ∧
      t.bitmap_group_sequence = tag.bitmap_group_sequence
        ++ scanned.sequences.map (add_sequence (clear_format_if_auto o) scanned.bitmaps) ∧
      t.detail_fade_factor = value (clear_format_if_auto o).mipmap_fade := by
  rw [written_eq] at h
  cases hg : get_color_plate w o tag with
  | inl run =>
    rcases get_color_plate_inl hg with rfl | rfl | rfl <;>
      simp [rest_of_the_ritual, hg, saved_tag] at h
  | inr p =>
    obtain ⟨log, plate⟩ := p
    have hl := (get_color_plate_log hg).1
    have hc := (compress_color_plate_log w o plate tag).1
    have hlw := get_color_plate_write_calls hg
    have hcw := compress_color_plate_write_calls w o plate tag
    cases hs : w.scan_color_plate (scan_arguments o plate) with
    | none => simp [rest_of_the_ritual, hg, hs, List.findSome?_append, hl, saved_tag] at h
    | some scanned0 =>
      cases hp : w.process_bitmap_data scanned0 (process_arguments o) with
      | none => simp [rest_of_the_ritual, hg, hs, hp, List.findSome?_append, hl, saved_tag] at h
      | some scanned =>
        cases hw : w.write_bitmap_data (write_arguments (clear_format_if_auto o) scanned) with
        | none =>
          simp [rest_of_the_ritual, hg, hs, hp, hw, List.findSome?_append, hl, hc, saved_tag] at h
        | some written =>
          cases hf : written.format with
          | none =>
            simp [rest_of_the_ritual, hg, hs, hp, hw, hf, List.findSome?_append, hl, hc,
              saved_tag] at h
          | some format =>
            cases hsave : w.save_file (set_parameters w.flag (clear_format_if_auto o) format
                (add_all_sequences (clear_format_if_auto o) scanned
                  { (compress_color_plate w o plate tag).2 with
                    processed_pixel_data := written.processed_pixel_data
                    bitmap_data := written.bitmap_data })) with
            | false =>
              simp [rest_of_the_ritual, hg, hs, hp, hw, hf, hsave, List.findSome?_append, hl, hc,
                saved_tag] at h
            | true =>
              simp [rest_of_the_ritual, hg, hs, hp, hw, hf, hsave, List.findSome?_append, hl, hc,
                saved_tag] at h
              refine ⟨scanned, ?_, ?_, ?_⟩
              · simp only [Run.write_calls, rest_of_the_ritual, hg, hs, hp, hw, hf, hsave,
                  if_true, List.filterMap_append, hlw, hcw, List.filterMap_cons,
                  List.filterMap_nil, List.nil_append, List.append_nil]
              · rw [← h]
                simp only [set_parameters, add_all_sequences, compress_color_plate_sequences]
              · rw [← h]
                simp only [set_parameters]

/-- The sequences and the detail fade factor of the tag a run saves: the run
called the pixel writer once, with the scanned plate `scanned`, and the saved
sequences are the ones lines 374-410 emit for it. -/
theorem written_sequences {w : World} {o : BitmapOptions} {t : Bitmap}
    (h : (perform_the_ritual w o).written = some t) :
    ∃ scanned,
      (perform_the_ritual w o).write_calls.map (·.scanned_color_plate) = [scanned] ∧
      t.bitmap_group_sequence = scanned.sequences.map
        (add_sequence (resolve_options w.flag w.tag_file o) scanned.bitmaps) ∧
      t.detail_fade_factor = value (resolve_options w.flag w.tag_file o).mipmap_fade := by
  have h' := perform_the_ritual_written h
  obtain ⟨scanned, h1, h2, h3⟩ := rest_written_sequences h'
  have hrun : perform_the_ritual w o = rest_of_the_ritual w
      (resolve_options w.flag w.tag_file o) (starting_tag w.tag_file o) := by
    rcases perform_the_ritual_cases w o with hc | hc | hc
    · exact hc
    · rw [hc] at h; simp [Run.written] at h
    · rw [hc] at h; simp [Run.written] at h
  refine ⟨scanned, ?_, ?_, ?_⟩
  · rw [hrun, h1]
    rfl
  · rw [h2, starting_tag_sequences, add_sequence_clear_format_if_auto]
    rfl
  · rw [h3, (clear_format_if_auto_bitmap_type _).2.1]

/-! ## C11: bitmap_count of the sequences of a sprite tag -/

/-- C11: for a sprite-typed tag, the emitted sequences correspond one to one,
in order, to the scanned sequences handed to the pixel writer, and each has
bitmap_count 1 when the scanned sequence has exactly one sprite and 0
otherwise. -/
theorem sprite_sequence_bitmap_count (w : World) (o : BitmapOptions) (t : Bitmap)
    (h : (perform_the_ritual w o).written = some t)
    (hs : (resolve_options w.flag w.tag_file o).bitmap_type = some .BITMAP_TYPE_SPRITES) :
    ∃ scanned,
      (perform_the_ritual w o).write_calls.map (·.scanned_color_plate) = [scanned] ∧
      t.bitmap_group_sequence.map (·.bitmap_count)
        = scanned.sequences.map (fun sequence => if sequence.sprites.length = 1 then 1 else 0) := by
  obtain ⟨scanned, h1, h2, -⟩ := written_sequences h
  refine ⟨scanned, h1, ?_⟩
  rw [h2, List.map_map]
  apply List.map_congr_left
  intro sequence _
  have hv : value (resolve_options w.flag w.tag_file o).bitmap_type = .BITMAP_TYPE_SPRITES := by
    rw [hs]; rfl
  simp only [Function.comp, (add_sequence_eq _ _ _).2.1, hv, if_true]

/-- The bitmap counts of the sprite plate with sequences of two, one and no sprites: 0, 1, 0. -/
theorem sprite_sequence_bitmap_count_witness :
    (perform_the_ritual sprite_world options_sprites).written.map
      (fun t => t.bitmap_group_sequence.map (·.bitmap_count)) = some [0, 1, 0] ∧
    ∃ scanned,
      (perform_the_ritual sprite_world options_sprites).write_calls.map
        (·.scanned_color_plate) = [scanned] ∧
      ((perform_the_ritual sprite_world options_sprites).written.get
          (by decide)).bitmap_group_sequence.map (·.bitmap_count)
        = scanned.sequences.map (fun sequence => if sequence.sprites.length = 1 then 1 else 0) :=
  ⟨by decide,
   sprite_sequence_bitmap_count sprite_world options_sprites _ (by simp) (by decide)⟩

/-! ## C12: first_bitmap_index of the sequences of a sprite tag -/

/-- C12: for a sprite-typed tag, the emitted sequences correspond in order to
the scanned sequences, and for each of them first_bitmap_index is never the
null index 0xFFFF, is 0 when the sequence has no sprite, and is the minimum of
the sprites' bitmap_index (equal to one of them and at most each of them) when
the sequence has sprites; sheet indices are indices below the null index. -/
theorem sprite_sequence_first_bitmap_index (w : World) (o : BitmapOptions) (t : Bitmap)
    (h : (perform_the_ritual w o).written = some t)
    (hs : (resolve_options w.flag w.tag_file o).bitmap_type = some .BITMAP_TYPE_SPRITES) :
    ∃ scanned,
      (perform_the_ritual w o).write_calls.map (·.scanned_color_plate) = [scanned] ∧
      List.Forall₂
        (fun (sequence : GeneratedBitmapDataSequence) (bgs : BitmapGroupSequence) =>
          bgs.first_bitmap_index ≠ NULL_INDEX ∧
          (sequence.sprites = [] → bgs.first_bitmap_index = 0) ∧
          (sequence.sprites ≠ [] →
            (∀ sprite ∈ sequence.sprites, sprite.bitmap_index < NULL_INDEX) →
            (∃ sprite ∈ sequence.sprites, bgs.first_bitmap_index = sprite.bitmap_index) ∧
            ∀ sprite ∈ sequence.sprites, bgs.first_bitmap_index ≤ sprite.bitmap_index))
        scanned.sequences t.bitmap_group_sequence := by
  obtain ⟨scanned, h1, h2, -⟩ := written_sequences h
  refine ⟨scanned, h1, ?_⟩
  rw [h2, List.forall₂_map_right_iff, List.forall₂_same]
  intro sequence _
  have hv : value (resolve_options w.flag w.tag_file o).bitmap_type = .BITMAP_TYPE_SPRITES := by
    rw [hs]; rfl
  rw [(add_sequence_eq _ _ _).2.2]
  simp only [hv, if_true]
  obtain ⟨m1, m2, m3⟩ := foldl_min_le
    (sequence.sprites.map (fun s => s.bitmap_index % 65536)) NULL_INDEX
  refine ⟨?_, ?_, ?_⟩
  · split_ifs with h0
    · unfold NULL_INDEX; omega
    · exact h0
  · intro he
    rw [he]
    rfl
  · intro hne hlt
    have hmod : ∀ sprite ∈ sequence.sprites, sprite.bitmap_index % 65536 = sprite.bitmap_index := by
      intro sprite hsp
      have := hlt sprite hsp
      unfold NULL_INDEX at this
      exact Nat.mod_eq_of_lt (by omega)
    obtain ⟨first, hfirst⟩ := List.exists_mem_of_ne_nil _ hne
    have hbelow : (sequence.sprites.map (fun s => s.bitmap_index % 65536)).foldl min NULL_INDEX
        < NULL_INDEX := by
      have := m2 (first.bitmap_index % 65536) (List.mem_map.2 ⟨first, hfirst, rfl⟩)
      rw [hmod first hfirst] at this
      exact lt_of_le_of_lt this (hlt first hfirst)
    rw [if_neg (Nat.ne_of_lt hbelow)]
    constructor
    · rcases m3 with m3 | m3
      · exact absurd m3 (Nat.ne_of_lt hbelow)
      · obtain ⟨sprite, hsp, heq⟩ := List.mem_map.1 m3
        exact ⟨sprite, hsp, by rw [← heq, hmod sprite hsp]⟩
    · intro sprite hsp
      have := m2 (sprite.bitmap_index % 65536) (List.mem_map.2 ⟨sprite, hsp, rfl⟩)
      rw [hmod sprite hsp] at this
      exact this

/-- The first bitmap indices of the sprite plate: every sprite is on sheet 0. -/
theorem sprite_sequence_first_bitmap_index_witness :
    (perform_the_ritual sprite_world options_sprites).written.map
      (fun t => t.bitmap_group_sequence.map (·.first_bitmap_index)) = some [0, 0, 0] ∧
    ∃ scanned,
      (perform_the_ritual sprite_world options_sprites).write_calls.map
        (·.scanned_color_plate) = [scanned] ∧
      List.Forall₂
        (fun (sequence : GeneratedBitmapDataSequence) (bgs : BitmapGroupSequence) =>
          bgs.first_bitmap_index ≠ NULL_INDEX ∧
          (sequence.sprites = [] → bgs.first_bitmap_index = 0) ∧
          (sequence.sprites ≠ [] →
            (∀ sprite ∈ sequence.sprites, sprite.bitmap_index < NULL_INDEX) →
            (∃ sprite ∈ sequence.sprites, bgs.first_bitmap_index = sprite.bitmap_index) ∧
            ∀ sprite ∈ sequence.sprites, bgs.first_bitmap_index ≤ sprite.bitmap_index))
        scanned.sequences
        ((perform_the_ritual sprite_world options_sprites).written.get
          (by decide)).bitmap_group_sequence :=
  ⟨by decide,
   sprite_sequence_first_bitmap_index sprite_world options_sprites _ (by simp) (by decide)⟩

/-! ## C13: the sequences of a tag that is not a sprite tag -/

/-- C13 as stated fails: for a 2D tag whose scanned plate ends with an empty
sequence that starts at bitmap 65535 (0xFFFF), the emitted first_bitmap_index
is 0, not 65535. -/
theorem null_first_bitmap_written_as_zero :
    (resolve_options full_world.flag full_world.tag_file BitmapOptions.initial).bitmap_type
      = some .BITMAP_TYPE_2D_TEXTURES ∧
    (perform_the_ritual full_world BitmapOptions.initial).write_calls.map
      (fun a => a.scanned_color_plate.sequences.map (·.first_bitmap)) = [[0, 65535]] ∧
    (perform_the_ritual full_world BitmapOptions.initial).written.map
      (fun t => t.bitmap_group_sequence.map (·.first_bitmap_index)) = some [0, 0] := by
  decide

/-- C13, amended: for a tag that is not a sprite tag, the emitted sequences
correspond in order to the scanned sequences, and for every scanned sequence
without sprites whose bitmap_count and first_bitmap fit 16 bits the emitted
bitmap_count equals the scanned bitmap_count and the emitted
first_bitmap_index equals the scanned first_bitmap, except that the null index
0xFFFF is written as 0. -/
theorem plain_sequence_fields (w : World) (o : BitmapOptions) (t : Bitmap)
    (h : (perform_the_ritual w o).written = some t)
    (hs : value (resolve_options w.flag w.tag_file o).bitmap_type ≠ .BITMAP_TYPE_SPRITES) :
    ∃ scanned,
      (perform_the_ritual w o).write_calls.map (·.scanned_color_plate) = [scanned] ∧
      List.Forall₂
        (fun (sequence : GeneratedBitmapDataSequence) (bgs : BitmapGroupSequence) =>
          sequence.sprites = [] → sequence.bitmap_count < 65536 →
          sequence.first_bitmap < 65536 →
          bgs.bitmap_count = sequence.bitmap_count ∧
          bgs.first_bitmap_index
            = if sequence.first_bitmap = NULL_INDEX then 0 else sequence.first_bitmap)
        scanned.sequences t.bitmap_group_sequence := by
  obtain ⟨scanned, h1, h2, -⟩ := written_sequences h
  refine ⟨scanned, h1, ?_⟩
  rw [h2, List.forall₂_map_right_iff, List.forall₂_same]
  intro sequence _ he hc hf
  rw [(add_sequence_eq _ _ _).2.2, (add_sequence_eq _ _ _).2.1]
  simp only [hs, if_false, he, List.map_nil, List.foldl_nil, Nat.mod_eq_of_lt hc,
    Nat.mod_eq_of_lt hf]
  trivial

/-- The sequences of a plate of two bitmaps in two sequences keep their counts
and first bitmaps. -/
theorem plain_sequence_fields_witness :
    (perform_the_ritual two_bitmap_world BitmapOptions.initial).written.map
      (fun t => t.bitmap_group_sequence.map (fun s => (s.bitmap_count, s.first_bitmap_index)))
      = some [(1, 0), (1, 1)] ∧
    ∃ scanned,
      (perform_the_ritual two_bitmap_world BitmapOptions.initial).write_calls.map
        (·.scanned_color_plate) = [scanned] ∧
      List.Forall₂
        (fun (sequence : GeneratedBitmapDataSequence) (bgs : BitmapGroupSequence) =>
          sequence.sprites = [] → sequence.bitmap_count < 65536 →
          sequence.first_bitmap < 65536 →
          bgs.bitmap_count = sequence.bitmap_count ∧
          bgs.first_bitmap_index
            = if sequence.first_bitmap = NULL_INDEX then 0 else sequence.first_bitmap)
        scanned.sequences
        ((perform_the_ritual two_bitmap_world BitmapOptions.initial).written.get
          (by decide)).bitmap_group_sequence :=
  ⟨by decide,
   plain_sequence_fields two_bitmap_world BitmapOptions.initial _ (by simp) (by decide)⟩

/-! ## C14: sprite containment -/

/-- The normalized values of the sub-record of a sprite whose rectangle lies in
its sheet, in exact arithmetic. -/
theorem sprite_record_normalized (bitmaps : List GeneratedBitmapDataBitmap)
    (sprite : GeneratedBitmapDataSprite) (sheet : GeneratedBitmapDataBitmap)
    (hsheet : bitmaps[sprite.bitmap_index]? = some sheet)
    (hx : sprite.left < sprite.right ∧ sprite.right ≤ sheet.width)
    (hy : sprite.top < sprite.bottom ∧ sprite.bottom ≤ sheet.height) :
    ∃ l r t b x y : ℚ,
      (sprite_record bitmaps sprite).left = .fin l ∧
      (sprite_record bitmaps sprite).right = .fin r ∧
      (sprite_record bitmaps sprite).top = .fin t ∧
      (sprite_record bitmaps sprite).bottom = .fin b ∧
      (sprite_record bitmaps sprite).registration_point = ⟨.fin x, .fin y⟩ ∧
      0 ≤ l ∧ l < r ∧ r ≤ 1 ∧ 0 ≤ t ∧ t < b ∧ b ≤ 1 ∧
      x = (sprite.registration_point_x : ℚ) / sheet.width ∧
      y = (sprite.registration_point_y : ℚ) / sheet.height ∧
      ((l ≤ x ∧ x ≤ r) ↔
        ((sprite.left : Int) ≤ sprite.registration_point_x ∧
          sprite.registration_point_x ≤ (sprite.right : Int))) ∧
      ((t ≤ y ∧ y ≤ b) ↔
        ((sprite.top : Int) ≤ sprite.registration_point_y ∧
          sprite.registration_point_y ≤ (sprite.bottom : Int))) := by
  have hw : sheet.width ≠ 0 := by omega
  have hh : sheet.height ≠ 0 := by omega
  have hwq : (0 : ℚ) < sheet.width := by exact_mod_cast Nat.pos_of_ne_zero hw
  have hhq : (0 : ℚ) < sheet.height := by exact_mod_cast Nat.pos_of_ne_zero hh
  refine ⟨(sprite.left : ℚ) / sheet.width, (sprite.right : ℚ) / sheet.width,
    (sprite.top : ℚ) / sheet.height, (sprite.bottom : ℚ) / sheet.height,
    (sprite.registration_point_x : ℚ) / sheet.width,
    (sprite.registration_point_y : ℚ) / sheet.height, ?_, ?_, ?_, ?_, ?_, ?_, ?_, ?_, ?_, ?_, ?_,
    rfl, rfl, ?_, ?_⟩
  · simp [sprite_record, hsheet, F32.ratio, hw]
  · simp [sprite_record, hsheet, F32.ratio, hw]
  · simp [sprite_record, hsheet, F32.ratio, hh]
  · simp [sprite_record, hsheet, F32.ratio, hh]
  · simp [sprite_record, hsheet, F32.ratio, hw, hh]
  · positivity
  · apply div_lt_div_of_pos_right _ hwq
    exact_mod_cast hx.1
  · rw [div_le_one hwq]
    exact_mod_cast hx.2
  · positivity
  · apply div_lt_div_of_pos_right _ hhq
    exact_mod_cast hy.1
  · rw [div_le_one hhq]
    exact_mod_cast hy.2
  · rw [div_le_div_iff_of_pos_right hwq, div_le_div_iff_of_pos_right hwq]
    constructor
    · rintro ⟨h1, h2⟩
      exact ⟨by exact_mod_cast h1, by exact_mod_cast h2⟩
    · rintro ⟨h1, h2⟩
      exact ⟨by exact_mod_cast h1, by exact_mod_cast h2⟩
  · rw [div_le_div_iff_of_pos_right hhq, div_le_div_iff_of_pos_right hhq]
    constructor
    · rintro ⟨h1, h2⟩
      exact ⟨by exact_mod_cast h1, by exact_mod_cast h2⟩
    · rintro ⟨h1, h2⟩
      exact ⟨by exact_mod_cast h1, by exact_mod_cast h2⟩

/-- C14 as stated fails for the registration point: the second sprite of the
sprite plate has the rectangle 19..35 on a sheet 64 wide and the registration
point 8 (relative to the sprite); its record has l = 19/64 and the normalized
registration x = 8/64, which is below l. -/
theorem registration_point_outside_rectangle :
    (perform_the_ritual sprite_world options_sprites).written.map
      (fun t => t.bitmap_group_sequence.map
        (fun s => s.sprites.map (fun r => (r.left, r.registration_point.x, r.right))))
      = some [[(F32.ratio 1 64, F32.ratio 8 64, F32.ratio 17 64),
               (F32.ratio 19 64, F32.ratio 8 64, F32.ratio 35 64)],
              [(F32.ratio 1 64, F32.ratio 8 64, F32.ratio 17 64)], []] ∧
    F32.ratio 19 64 = .fin (19 / 64) ∧ F32.ratio 8 64 = .fin (8 / 64) ∧
    ((8 : ℚ) / 64 < 19 / 64) := by
  refine ⟨rfl, ?_, ?_, ?_⟩
  · simp [F32.ratio]
  · simp [F32.ratio]
  · norm_num

/-- C14, amended: in exact arithmetic, for every emitted sprite sub-record
whose pixel rectangle lies inside its sheet with positive area (left < right ≤
sheet width, top < bottom ≤ sheet height, sheet = the bitmap at the sprite's
bitmap_index), the normalized values satisfy 0 ≤ l < r ≤ 1 and 0 ≤ t < b ≤ 1;
the normalized registration point is the scanned registration point divided by
the sheet's width and height, and it lies in [l,r] (in [t,b]) exactly when the
scanned registration point lies in [left,right] (in [top,bottom]). -/
theorem sprite_containment (w : World) (o : BitmapOptions) (t : Bitmap)
    (h : (perform_the_ritual w o).written = some t) :
    ∃ scanned,
      (perform_the_ritual w o).write_calls.map (·.scanned_color_plate) = [scanned] ∧
      List.Forall₂
        (fun (sequence : GeneratedBitmapDataSequence) (bgs : BitmapGroupSequence) =>
          List.Forall₂
            (fun (sprite : GeneratedBitmapDataSprite) (bgss : BitmapGroupSprite) =>
              ∀ sheet, scanned.bitmaps[sprite.bitmap_index]? = some sheet →
              sprite.left < sprite.right ∧ sprite.right ≤ sheet.width →
              sprite.top < sprite.bottom ∧ sprite.bottom ≤ sheet.height →
              ∃ l r t b x y : ℚ,
                bgss.left = .fin l ∧ bgss.right = .fin r ∧
                bgss.top = .fin t ∧ bgss.bottom = .fin b ∧
                bgss.registration_point = ⟨.fin x, .fin y⟩ ∧
                0 ≤ l ∧ l < r ∧ r ≤ 1 ∧ 0 ≤ t ∧ t < b ∧ b ≤ 1 ∧
                x = (sprite.registration_point_x : ℚ) / sheet.width ∧
                y = (sprite.registration_point_y : ℚ) / sheet.height ∧
                ((l ≤ x ∧ x ≤ r) ↔
                  ((sprite.left : Int) ≤ sprite.registration_point_x ∧
                    sprite.registration_point_x ≤ (sprite.right : Int))) ∧
                ((t ≤ y ∧ y ≤ b) ↔
                  ((sprite.top : Int) ≤ sprite.registration_point_y ∧
                    sprite.registration_point_y ≤ (sprite.bottom : Int))))
            sequence.sprites bgs.sprites)
        scanned.sequences t.bitmap_group_sequence := by
  obtain ⟨scanned, h1, h2, -⟩ := written_sequences h
  refine ⟨scanned, h1, ?_⟩
  rw [h2, List.forall₂_map_right_iff, List.forall₂_same]
  intro sequence _
  rw [(add_sequence_eq _ _ _).1, List.forall₂_map_right_iff, List.forall₂_same]
  intro sprite _ sheet hsheet hx hy
  exact sprite_record_normalized scanned.bitmaps sprite sheet hsheet hx hy

/-- The first sprite of the sprite plate: rectangle 1..17 on the 64x64 sheet. -/
theorem sprite_containment_witness :
    ∃ l r t b x y : ℚ,
      (sprite_record [⟨64, 64, 1⟩] ⟨1, 1, 17, 17, 8, 8, 0⟩).left = .fin l ∧
      (sprite_record [⟨64, 64, 1⟩] ⟨1, 1, 17, 17, 8, 8, 0⟩).right = .fin r ∧
      (sprite_record [⟨64, 64, 1⟩] ⟨1, 1, 17, 17, 8, 8, 0⟩).top = .fin t ∧
      (sprite_record [⟨64, 64, 1⟩] ⟨1, 1, 17, 17, 8, 8, 0⟩).bottom = .fin b ∧
      (sprite_record [⟨64, 64, 1⟩] ⟨1, 1, 17, 17, 8, 8, 0⟩).registration_point
        = ⟨.fin x, .fin y⟩ ∧
      0 ≤ l ∧ l < r ∧ r ≤ 1 ∧ 0 ≤ t ∧ t < b ∧ b ≤ 1 ∧
      x = ((8 : Int) : ℚ) / (64 : Nat) ∧ y = ((8 : Int) : ℚ) / (64 : Nat) ∧
      ((l ≤ x ∧ x ≤ r) ↔ (((1 : Nat) : Int) ≤ 8 ∧ (8 : Int) ≤ ((17 : Nat) : Int))) ∧
      ((t ≤ y ∧ y ≤ b) ↔ (((1 : Nat) : Int) ≤ 8 ∧ (8 : Int) ≤ ((17 : Nat) : Int))) := by
  obtain ⟨scanned, h1, h2⟩ := sprite_containment sprite_world options_sprites
    ((perform_the_ritual sprite_world options_sprites).written.get (by decide)) (by simp)
  have hscanned : scanned = sprite_plate := by
    have : (perform_the_ritual sprite_world options_sprites).write_calls.map
        (·.scanned_color_plate) = [sprite_plate] := by decide
    rw [this] at h1
    exact (List.cons.inj h1).1.symm
  subst hscanned
  have hseq : ((perform_the_ritual sprite_world options_sprites).written.get
      (by decide)).bitmap_group_sequence
      = sprite_plate.sequences.map (add_sequence
          (resolve_options sprite_world.flag sprite_world.tag_file options_sprites)
          sprite_plate.bitmaps) := rfl
  rw [hseq, List.forall₂_map_right_iff, List.forall₂_same] at h2
  have h3 := h2 _ (List.mem_cons_self _ _)
  rw [(add_sequence_eq _ _ _).1, List.forall₂_map_right_iff, List.forall₂_same] at h3
  exact h3 _ (List.mem_cons_self _ _) ⟨64, 64, 1⟩ rfl (by decide) (by decide)

/-! ## C15: sequence emission keeps order and length -/

/-- C15: the emitted sequence list is the scanned sequence list mapped entry
by entry (one entry per scanned sequence, same order), and the sprite
sub-records of each entry are the records of its scanned sprites in input
order, each with the bitmap_index of its sprite (stored in 16 bits). -/
theorem sequences_in_order (w : World) (o : BitmapOptions) (t : Bitmap)
    (h : (perform_the_ritual w o).written = some t) :
    ∃ scanned,
      (perform_the_ritual w o).write_calls.map (·.scanned_color_plate) = [scanned] ∧
      t.bitmap_group_sequence.length = scanned.sequences.length ∧
      List.Forall₂
        (fun (sequence : GeneratedBitmapDataSequence) (bgs : BitmapGroupSequence) =>
          bgs.sprites.length = sequence.sprites.length ∧
          List.Forall₂
            (fun (sprite : GeneratedBitmapDataSprite) (bgss : BitmapGroupSprite) =>
              bgss = sprite_record scanned.bitmaps sprite ∧
              bgss.bitmap_index = sprite.bitmap_index % 65536 ∧
              (sprite.bitmap_index < 65536 → bgss.bitmap_index = sprite.bitmap_index))
            sequence.sprites bgs.sprites)
        scanned.sequences t.bitmap_group_sequence := by
  obtain ⟨scanned, h1, h2, -⟩ := written_sequences h
  refine ⟨scanned, h1, ?_, ?_⟩
  · rw [h2, List.length_map]
  · rw [h2, List.forall₂_map_right_iff, List.forall₂_same]
    intro sequence _
    rw [(add_sequence_eq _ _ _).1, List.length_map, List.forall₂_map_right_iff,
      List.forall₂_same]
    refine ⟨rfl, ?_⟩
    intro sprite _
    refine ⟨rfl, rfl, ?_⟩
    intro hlt
    exact Nat.mod_eq_of_lt hlt

/-- The sprite plate: three sequences of two, one and no sprites, all on sheet 0. -/
theorem sequences_in_order_witness :
    (perform_the_ritual sprite_world options_sprites).written.map
      (fun t => t.bitmap_group_sequence.map (fun s => s.sprites.map (·.bitmap_index)))
      = some [[0, 0], [0], []] ∧
    ∃ scanned,
      (perform_the_ritual sprite_world options_sprites).write_calls.map
        (·.scanned_color_plate) = [scanned] ∧
      ((perform_the_ritual sprite_world options_sprites).written.get
        (by decide)).bitmap_group_sequence.length = scanned.sequences.length ∧
      List.Forall₂
        (fun (sequence : GeneratedBitmapDataSequence) (bgs : BitmapGroupSequence) =>
          bgs.sprites.length = sequence.sprites.length ∧
          List.Forall₂
            (fun (sprite : GeneratedBitmapDataSprite) (bgss : BitmapGroupSprite) =>
              bgss = sprite_record scanned.bitmaps sprite ∧
              bgss.bitmap_index = sprite.bitmap_index % 65536 ∧
              (sprite.bitmap_index < 65536 → bgss.bitmap_index = sprite.bitmap_index))
            sequence.sprites bgs.sprites)
        scanned.sequences
        ((perform_the_ritual sprite_world options_sprites).written.get
          (by decide)).bitmap_group_sequence :=
  ⟨by decide, sequences_in_order sprite_world options_sprites _ (by simp)⟩

/-! ## C16: the defaults of a new tag -/

theorem resolve_options_unused {fl : BitmapFlagsFlag} {f : TagFile} {o : BitmapOptions}
    (h : uses_existing_tag f o = false) : resolve_options fl f o = default_values o := by
  unfold resolve_options
  split
  · rw [if_neg (by simp [h])]
  · rfl

theorem default_values_mipmap_scale_type (o : BitmapOptions) :
    (default_values o).mipmap_scale_type
      = some (o.mipmap_scale_type.getD .BITMAP_MIPMAP_SCALE_TYPE_LINEAR) := by
  unfold default_values
  simp only [apply_ite BitmapOptions.mipmap_scale_type, ite_self]
  cases o.mipmap_scale_type <;> simp

/-- C16: with no existing tag used (no file, or ignore-tag) and no other option
given, the resolved options are the defaults of the help text: type
2d_textures, format auto, mipmap cap 32767, mipmap scale linear, detail fade 0,
sprite budget 32, budget count 0, sprite spacing 0, palettize off, dithering
off, bump height 0.026, alpha bias 0, usage default, registration-point hack
off; a tag the run saves has mipmap_count 0 and the 32x32 budget size. -/
theorem new_tag_defaults (w : World) (o : BitmapOptions) (ignore_tag : Bool)
    (ho : o = { BitmapOptions.initial with ignore_tag_data := ignore_tag })
    (h : uses_existing_tag w.tag_file o = false) :
    ((resolve_options w.flag w.tag_file o).bitmap_type = some .BITMAP_TYPE_2D_TEXTURES ∧
      (resolve_options w.flag w.tag_file o).format = none ∧
      (resolve_options w.flag w.tag_file o).auto_format = some true ∧
      (resolve_options w.flag w.tag_file o).max_mipmap_count = some 32767 ∧
      (resolve_options w.flag w.tag_file o).mipmap_scale_type
        = some .BITMAP_MIPMAP_SCALE_TYPE_LINEAR ∧
      (resolve_options w.flag w.tag_file o).mipmap_fade = some (F32.fin 0) ∧
      (resolve_options w.flag w.tag_file o).sprite_budget = some 32 ∧
      (resolve_options w.flag w.tag_file o).sprite_budget_count = some 0 ∧
      (resolve_options w.flag w.tag_file o).sprite_spacing = some 0 ∧
      (resolve_options w.flag w.tag_file o).palettize = some false ∧
      (resolve_options w.flag w.tag_file o).dithering = some false ∧
      (resolve_options w.flag w.tag_file o).bump_height = some (F32.fin (26 / 1000)) ∧
      (resolve_options w.flag w.tag_file o).alpha_bias = some (F32.fin 0) ∧
      (resolve_options w.flag w.tag_file o).usage = some .BITMAP_USAGE_DEFAULT ∧
      (resolve_options w.flag w.tag_file o).filthy_sprite_bug_fix = some false) ∧
    ∀ t, (perform_the_ritual w o).written = some t →
      t.mipmap_count = 0 ∧
      t.sprite_budget_size = .BITMAP_SPRITE_BUDGET_SIZE_32X32 ∧
      t.sprite_budget_size.value = 0 := by
  have hr := @resolve_options_unused w.flag _ _ h
  obtain ⟨d1, d2, -, d4, d5, d6, d7, d8, d9, d10, d11⟩ := default_values_fields o
  have dm := default_values_max_mipmap_count o
  have db := default_values_sprite_budget o
  have ds := default_values_mipmap_scale_type o
  obtain ⟨df, da⟩ := default_values_format o
  have hmax : (resolve_options w.flag w.tag_file o).max_mipmap_count = some 32767 := by
    rw [hr, dm, ho]; rfl
  have hbud : (resolve_options w.flag w.tag_file o).sprite_budget = some 32 := by
    rw [hr, db, ho]; rfl
  refine ⟨⟨?_, ?_, ?_, hmax, ?_, ?_, hbud, ?_, ?_, ?_, ?_, ?_, ?_, ?_, ?_⟩, ?_⟩
  · rw [hr, d2, ho]; rfl
  · rw [hr, df, ho]; rfl
  · rw [hr, da, ho]; rfl
  · rw [hr, ds, ho]; rfl
  · rw [hr, d1, ho]; rfl
  · rw [hr, d4, ho]; rfl
  · rw [hr, d5, ho]; rfl
  · rw [hr, d8, ho]; rfl
  · rw [hr, d7, ho]; rfl
  · rw [hr, d9, ho]; rfl
  · rw [hr, d10, ho]; rfl
  · rw [hr, d6, ho]; rfl
  · rw [hr, d11, ho]; rfl
  · intro t ht
    obtain ⟨h1, h2, -⟩ := written_header ht
    rw [hmax] at h1
    rw [hbud] at h2
    refine ⟨h1, h2, ?_⟩
    rw [h2]
    rfl

/-- A run with no tag at the destination and no option. -/
theorem new_tag_defaults_witness :
    (perform_the_ritual demo_world BitmapOptions.initial).written.map
      (fun t => (t.mipmap_count, t.sprite_budget_size.value)) = some (0, 0) ∧
    (resolve_options demo_world.flag demo_world.tag_file
      BitmapOptions.initial).max_mipmap_count = some 32767 ∧
    (resolve_options demo_world.flag demo_world.tag_file
      BitmapOptions.initial).bump_height = some (F32.fin (26 / 1000)) :=
  ⟨by decide,
   (new_tag_defaults demo_world BitmapOptions.initial false rfl (by decide)).1.2.2.2.1,
   (new_tag_defaults demo_world BitmapOptions.initial false rfl
      (by decide)).1.2.2.2.2.2.2.2.2.2.2.2.1⟩

/-! ## C17: the detail fade factor -/

theorem resolve_options_has_usage_and_fade (fl : BitmapFlagsFlag) (f : TagFile)
    (o : BitmapOptions) :
    (resolve_options fl f o).mipmap_fade.isSome = true ∧
    (resolve_options fl f o).usage.isSome = true := by
  obtain ⟨o', ho'⟩ := resolve_options_default fl f o
  rw [ho', (default_values_fields o').1, (default_values_fields o').2.2.2.2.2.1]
  exact ⟨rfl, rfl⟩

/-- C17: the bitmap processor is called with the resolved detail fade factor
when the resolved usage is detail_map and with no fade factor for every other
usage, so that it gets a fade factor if and only if the usage is detail_map;
the header's detail_fade_factor is the resolved fade factor in both cases. -/
theorem detail_fade_only_for_detail_maps (w : World) (o : BitmapOptions) :
    (∀ a ∈ (perform_the_ritual w o).process_calls,
      (a.mipmap_fade.isSome = true ↔
        (resolve_options w.flag w.tag_file o).usage = some .BITMAP_USAGE_DETAIL_MAP) ∧
      ((resolve_options w.flag w.tag_file o).usage = some .BITMAP_USAGE_DETAIL_MAP →
        a.mipmap_fade = (resolve_options w.flag w.tag_file o).mipmap_fade) ∧
      ((resolve_options w.flag w.tag_file o).usage ≠ some .BITMAP_USAGE_DETAIL_MAP →
        a.mipmap_fade = none)) ∧
    (∀ t, (perform_the_ritual w o).written = some t →
      some t.detail_fade_factor = (resolve_options w.flag w.tag_file o).mipmap_fade) := by
  obtain ⟨hfade, -⟩ := resolve_options_has_usage_and_fade w.flag w.tag_file o
  constructor
  · intro a ha
    rw [process_calls_arguments ha]
    by_cases hu : (resolve_options w.flag w.tag_file o).usage = some .BITMAP_USAGE_DETAIL_MAP
    · simp [process_arguments, hu, hfade]
    · simp [process_arguments, hu]
  · intro t ht
    obtain ⟨scanned, -, -, h3⟩ := written_sequences ht
    rw [h3]
    cases hm : (resolve_options w.flag w.tag_file o).mipmap_fade with
    | none => rw [hm] at hfade; cases hfade
    | some v => rfl

/-- With the default usage the fade given by the caller does not reach the
processor but is written to the header. -/
theorem detail_fade_only_for_detail_maps_witness :
    (perform_the_ritual demo_world options_fade_only).process_calls.map (·.mipmap_fade)
      = [none] ∧
    (perform_the_ritual demo_world options_detail_map).process_calls.map (·.mipmap_fade)
      = [some (F32.fin (1 / 2))] ∧
    (perform_the_ritual demo_world options_fade_only).written.map (·.detail_fade_factor)
      = some (F32.fin 1) ∧
    (process_arguments (resolve_options demo_world.flag demo_world.tag_file
      options_fade_only)).mipmap_fade = none :=
  ⟨by decide, rfl, by decide,
   ((detail_fade_only_for_detail_maps demo_world options_fade_only).1
      (process_arguments (resolve_options demo_world.flag demo_world.tag_file
        options_fade_only))
      (by
        rw [show (perform_the_ritual demo_world options_fade_only).process_calls
          = [process_arguments (resolve_options demo_world.flag demo_world.tag_file
              options_fade_only)] from rfl]
        exact List.mem_singleton_self _)).2.2 (by decide)⟩

/-! ## C18: the type names of invader-info -/

/-- No argument of `--type` selects DISPLAY_EXTERNAL_SOUNDS. -/
theorem Info.type_option_never_external_sounds (argument : String)
    (o o' : Info.MapInfoOptions) (h : Info.type_option argument o = some o') :
    o'.type ≠ .DISPLAY_EXTERNAL_SOUNDS := by
  unfold Info.type_option at h
  by_cases h0 : argument = "overview"
  · rw [if_pos h0] at h; rw [← Option.some.inj h]; intro hc; cases hc
  rw [if_neg h0] at h
  by_cases h1 : argument = "crc32"
  · rw [if_pos h1] at h; rw [← Option.some.inj h]; intro hc; cases hc
  rw [if_neg h1] at h
  by_cases h2 : argument = "crc32-mismatched"
  · rw [if_pos h2] at h; rw [← Option.some.inj h]; intro hc; cases hc
  rw [if_neg h2] at h
  by_cases h3 : argument = "dirty"
  · rw [if_pos h3] at h; rw [← Option.some.inj h]; intro hc; cases hc
  rw [if_neg h3] at h
  by_cases h4 : argument = "scenario"
  · rw [if_pos h4] at h; rw [← Option.some.inj h]; intro hc; cases hc
  rw [if_neg h4] at h
  by_cases h5 : argument = "scenario-path"
  · rw [if_pos h5] at h; rw [← Option.some.inj h]; intro hc; cases hc
  rw [if_neg h5] at h
  by_cases h6 : argument = "tag-count"
  · rw [if_pos h6] at h; rw [← Option.some.inj h]; intro hc; cases hc
  rw [if_neg h6] at h
  by_cases h7 : argument = "compressed"
  · rw [if_pos h7] at h; rw [← Option.some.inj h]; intro hc; cases hc
  rw [if_neg h7] at h
  by_cases h8 : argument = "engine"
  · rw [if_pos h8] at h; rw [← Option.some.inj h]; intro hc; cases hc
  rw [if_neg h8] at h
  by_cases h9 : argument = "map-type"
  · rw [if_pos h9] at h; rw [← Option.some.inj h]; intro hc; cases hc
  rw [if_neg h9] at h
  by_cases h10 : argument = "protected"
  · rw [if_pos h10] at h; rw [← Option.some.inj h]; intro hc; cases hc
  rw [if_neg h10] at h
  by_cases h11 : argument = "tags"
  · rw [if_pos h11] at h; rw [← Option.some.inj h]; intro hc; cases hc
  rw [if_neg h11] at h
  by_cases h12 : argument = "compression-ratio"
  · rw [if_pos h12] at h; rw [← Option.some.inj h]; intro hc; cases hc
  rw [if_neg h12] at h
  by_cases h13 : argument = "build"
  · rw [if_pos h13] at h; rw [← Option.some.inj h]; intro hc; cases hc
  rw [if_neg h13] at h
  by_cases h14 : argument = "stub-count"
  · rw [if_pos h14] at h; rw [← Option.some.inj h]; intro hc; cases hc
  rw [if_neg h14] at h
  by_cases h15 : argument = "external-data"
  · rw [if_pos h15] at h; rw [← Option.some.inj h]; intro hc; cases hc
  rw [if_neg h15] at h
  by_cases h16 : argument = "external-bitmaps"
  · rw [if_pos h16] at h; rw [← Option.some.inj h]; intro hc; cases hc
  rw [if_neg h16] at h
  by_cases h17 : argument = "external-loc"
  · rw [if_pos h17] at h; rw [← Option.some.inj h]; intro hc; cases hc
  rw [if_neg h17] at h
  rw [if_neg h16] at h
  cases h

/-- Every name of the help text but "external-sounds" selects its display type. -/
theorem Info.type_option_listed (d : Info.DisplayType) (hd : d ≠ .DISPLAY_EXTERNAL_SOUNDS)
    (o : Info.MapInfoOptions) : Info.type_option d.type_name o = some ⟨d⟩ := by
  cases d
  case DISPLAY_EXTERNAL_SOUNDS => exact absurd rfl hd
  all_goals simp [Info.type_option, Info.DisplayType.type_name]

/-- A name that the help text does not list is rejected. -/
theorem Info.type_option_unlisted (argument : String) (o : Info.MapInfoOptions)
    (hn : argument ∉ Info.help_type_names) : Info.type_option argument o = none := by
  simp only [Info.help_type_names, List.mem_cons, List.mem_singleton, List.not_mem_nil,
    not_or, or_false] at hn
  unfold Info.type_option
  obtain ⟨h1, h2, h3, h4, h5, h6, h7, h8, h9, h10, h11, h12, h13, h14, h15, h16, h17, h18,
    h19⟩ := hn
  rw [if_neg h1, if_neg h5, if_neg h6, if_neg h7, if_neg h15, if_neg h16, if_neg h18,
    if_neg h3, if_neg h8, if_neg h14, if_neg h13, if_neg h19, if_neg h4, if_neg h2,
    if_neg h17, if_neg h10, if_neg h9, if_neg h11, if_neg h9]

/-- C18 fails on the code: "external-sounds", which the help text lists, is
rejected as an unknown type (line 110 tests "external-bitmaps" a second time),
and no argument selects DISPLAY_EXTERNAL_SOUNDS; the other eighteen names
select the display type of their name and every other argument is rejected. -/
theorem Info.external_sounds_is_rejected :
    "external-sounds" ∈ Info.help_type_names ∧
    Info.type_option "external-sounds" Info.MapInfoOptions.initial = none ∧
    (∀ argument o o', Info.type_option argument o = some o' →
      o'.type ≠ .DISPLAY_EXTERNAL_SOUNDS) ∧
    (∀ d : Info.DisplayType, d ≠ .DISPLAY_EXTERNAL_SOUNDS →
      ∀ o, Info.type_option d.type_name o = some ⟨d⟩) ∧
    (∀ argument o, argument ∉ Info.help_type_names → Info.type_option argument o = none) :=
  ⟨by simp [Info.help_type_names], by simp [Info.type_option],
    Info.type_option_never_external_sounds, Info.type_option_listed,
    Info.type_option_unlisted⟩

/-! ## C19: `--ignore-resources` of invader-extract -/

/-- The resource maps are skipped when `ignore_resource_maps` is set. -/
theorem Extract.ignored_resource_maps (files : Extract.Files) (o : Extract.ExtractOptions)
    (h : o.ignore_resource_maps = true) :
    Extract.load_resource_maps files o = .failure ∨
    Extract.load_resource_maps files o = .resource_maps [] := by
  unfold Extract.load_resource_maps
  dsimp only
  split_ifs with h1 h2 h3 h4 h5 h6 h7 h8 h9
  all_goals first
    | exact Or.inl rfl
    | exact Or.inr rfl
    | (exfalso
       simp_all)

/-- C19 fails on the code: the table gives `--ignore-resources` the letter `G`,
the handler sets `ignore_resource_maps` for the letter `I` only, so the option
leaves the flag unset and the resource maps of a retail map are still opened.
(With the flag set no resource map is opened.) -/
theorem Extract.ignore_resources_is_not_handled :
    Extract.option_letter "ignore-resources" = some 'G' ∧
    (∀ path_to_halo args o,
      Extract.handle_option path_to_halo 'G' args o = .returns o) ∧
    Extract.handle_option id 'G' [] Extract.ExtractOptions.initial
      = .returns Extract.ExtractOptions.initial ∧
    Extract.ExtractOptions.initial.ignore_resource_maps = false ∧
    Extract.load_resource_maps Extract.retail_files Extract.ExtractOptions.initial
      = .resource_maps ["bitmaps.map", "sounds.map"] ∧
    (∀ entry ∈ Extract.options, entry.char_name ≠ 'I') ∧
    (∀ files o, o.ignore_resource_maps = true →
      Extract.load_resource_maps files o = .failure ∨
      Extract.load_resource_maps files o = .resource_maps []) := by
  refine ⟨by simp [Extract.option_letter, Extract.options], ?_, ?_, rfl, ?_, ?_,
    Extract.ignored_resource_maps⟩
  · intro path_to_halo args o
    simp [Extract.handle_option]
  · simp [Extract.handle_option]
  · simp [Extract.load_resource_maps, Extract.retail_files, Extract.ExtractOptions.initial,
      Extract.maps_for_header]
  · simp [Extract.options]

/-! ## C20: the mode flags of invader-refactor -/

namespace Refactor

/-- One option that does not end the program by itself: the handler fails with
"can only be set once" when it is a second mode flag and records it otherwise. -/
theorem handle_option_goes_on (split : String → Option TagFilePath) (g : GivenOption)
    (o : RefactorOptions) (hg : goes_on split g) :
    (is_mode_flag g = true ∧ o.set_move_or_no_move = true ∧
      handle_option split g o = .failure .can_only_be_set_once) ∨
    (¬ (is_mode_flag g = true ∧ o.set_move_or_no_move = true) ∧
      ∃ o1, handle_option split g o = .returns o1 ∧
        o1.set_move_or_no_move = (o.set_move_or_no_move || is_mode_flag g) ∧
        o1.no_move = (o.no_move || decide (g.opt = 'N')) ∧
        o1.recursive.isSome = (o.recursive.isSome || decide (g.opt = 'r')) ∧
        o1.replacements.isEmpty = (o.replacements.isEmpty && !decide (g.opt = 'T'))) := by
  obtain ⟨opt, arguments⟩ := g
  obtain ⟨hmem, hT⟩ := hg
  simp only [List.mem_cons, List.mem_singleton, List.not_mem_nil, or_false] at hmem
  rcases hmem with h | h | h | h | h | h | h <;> subst h
  · right
    simp [handle_option, is_mode_flag]
  · cases hs : o.set_move_or_no_move
    · right
      simp [handle_option, is_mode_flag, hs]
    · left
      simp [handle_option, is_mode_flag, hs]
  · cases hs : o.set_move_or_no_move
    · right
      simp [handle_option, is_mode_flag, hs]
    · left
      simp [handle_option, is_mode_flag, hs]
  · right
    simp [handle_option, is_mode_flag]
  · right
    obtain ⟨h0, h1⟩ := hT rfl
    obtain ⟨a, ha⟩ := Option.isSome_iff_exists.1 h0
    obtain ⟨b, hb⟩ := Option.isSome_iff_exists.1 h1
    simp only [List.getD_eq_getElem?_getD] at ha hb
    simp [handle_option, is_mode_flag, ha, hb]
  · cases hs : o.set_move_or_no_move
    · right
      simp [handle_option, is_mode_flag, hs]
    · left
      simp [handle_option, is_mode_flag, hs]
  · right
    simp [handle_option, is_mode_flag]

theorem mode_flags_cons (g : GivenOption) (rest : List GivenOption) :
    mode_flags (g :: rest) = mode_flags rest + if is_mode_flag g = true then 1 else 0 := by
  unfold mode_flags
  rw [List.countP_cons]

theorem has_option_cons (c : Char) (g : GivenOption) (rest : List GivenOption) :
    has_option c (g :: rest) = (decide (g.opt = c) || has_option c rest) := by
  unfold has_option
  rw [List.any_cons]

/-- The handler over a whole command line of options that do not end the
program by themselves, started in any state: it fails with "can only be set
once" when a mode flag meets the set flag, and otherwise returns options that
record what was given. -/
theorem handle_options_goes_on (split : String → Option TagFilePath) :
    ∀ (given : List GivenOption) (o : RefactorOptions), (∀ g ∈ given, goes_on split g) →
    ((if o.set_move_or_no_move = true then 1 else 0) + mode_flags given ≥ 2 ∧
      handle_options split given o = .failure .can_only_be_set_once) ∨
    ((if o.set_move_or_no_move = true then 1 else 0) + mode_flags given ≤ 1 ∧
      ∃ o', handle_options split given o = .returns o' ∧
        o'.set_move_or_no_move = (o.set_move_or_no_move || decide (0 < mode_flags given)) ∧
        o'.no_move = (o.no_move || has_option 'N' given) ∧
        o'.recursive.isSome = (o.recursive.isSome || has_option 'r' given) ∧
        o'.replacements.isEmpty = (o.replacements.isEmpty && !has_option 'T' given))
  | [], o, _ => by
    right
    refine ⟨?_, o, rfl, ?_, ?_, ?_, ?_⟩
    · simp only [mode_flags, List.countP_nil]
      split_ifs <;> omega
    · simp [mode_flags]
    · simp [has_option]
    · simp [has_option]
    · simp [has_option]
  | g :: rest, o, hall => by
    have hg : goes_on split g := hall g (List.mem_cons_self _ _)
    have hrest : ∀ g' ∈ rest, goes_on split g' := fun g' h' => hall g' (List.mem_cons_of_mem _ h')
    rcases handle_option_goes_on split g o hg with ⟨hm, hs, hfail⟩ | ⟨hnot, o1, hret, e1, e2, e3, e4⟩
    · left
      constructor
      · rw [mode_flags_cons, if_pos hs, if_pos hm]
        omega
      · unfold handle_options
        rw [hfail]
    · have hstep : handle_options split (g :: rest) o = handle_options split rest o1 := by
        conv_lhs => unfold handle_options
        rw [hret]
      have hk : (if o1.set_move_or_no_move = true then 1 else 0) + mode_flags rest
          = (if o.set_move_or_no_move = true then 1 else 0) + mode_flags (g :: rest) := by
        rw [mode_flags_cons, e1]
        cases hs : o.set_move_or_no_move <;> cases hm : is_mode_flag g <;> simp_all
        · omega
      rcases handle_options_goes_on split rest o1 hrest with ⟨hge, hfail⟩ | ⟨hle, o', hret', f1, f2, f3, f4⟩
      · left
        rw [hk] at hge
        exact ⟨hge, by rw [hstep, hfail]⟩
      · right
        rw [hk] at hle
        refine ⟨hle, o', by rw [hstep, hret'], ?_, ?_, ?_, ?_⟩
        · rw [f1, e1, mode_flags_cons]
          cases o.set_move_or_no_move <;> cases hm : is_mode_flag g <;>
            cases hd : decide (0 < mode_flags rest) <;> simp_all
        · rw [f2, e2, has_option_cons, Bool.or_assoc]
        · rw [f3, e3, has_option_cons, Bool.or_assoc]
        · rw [f4, e4, has_option_cons, Bool.not_or, Bool.and_assoc]

/-- C20 as stated fails: `-N -r a b` has exactly one mode flag and is stopped
by the check of line 142, `-M -i` has exactly one mode flag and ends at
`--info`, and `-T a b -r c d` has no mode flag and is stopped by the check of
line 137 before any mode check. -/
theorem one_mode_flag_does_not_suffice :
    mode_flags [⟨'N', []⟩, ⟨'r', ["a", "b"]⟩] = 1 ∧
    argument_handling split_any [⟨'N', []⟩, ⟨'r', ["a", "b"]⟩]
      = .failure .no_move_and_recursive ∧
    mode_flags [⟨'M', []⟩, ⟨'i', []⟩] = 1 ∧
    argument_handling split_any [⟨'M', []⟩, ⟨'i', []⟩] = .exit_success ∧
    mode_flags [⟨'T', ["a", "b"]⟩, ⟨'r', ["c", "d"]⟩] = 0 ∧
    argument_handling split_any [⟨'T', ["a", "b"]⟩, ⟨'r', ["c", "d"]⟩]
      = .failure .recursive_and_tag := by
  refine ⟨?_, ?_, ?_, ?_, ?_, ?_⟩
  · simp [mode_flags, is_mode_flag]
  · simp [argument_handling, handle_options, handle_option, RefactorOptions.initial]
  · simp [mode_flags, is_mode_flag]
  · simp [argument_handling, handle_options, handle_option, RefactorOptions.initial]
  · simp [mode_flags, is_mode_flag]
  · simp [argument_handling, handle_options, handle_option, RefactorOptions.initial, split_any]

/-- C20, amended: for every sequence of options of the table without `--info`
and with valid `--tag` pairs, argument handling fails with "-D, -M, or -N can
only be set once" exactly when two or more of `-D`, `-M`, `-N` are given, it
fails when none is given (with the error of line 148 unless `--tag` comes with
`--recursive`), and it gets past the checks of lines 137-150 exactly when one
is given and neither `--tag` nor `--no-move` comes with `--recursive`. -/
theorem mode_flags_set_once (split : String → Option TagFilePath) (given : List GivenOption)
    (h : ∀ g ∈ given, goes_on split g) :
    (argument_handling split given = .failure .can_only_be_set_once ↔ 2 ≤ mode_flags given) ∧
    (mode_flags given = 0 → ∃ m, argument_handling split given = .failure m) ∧
    (argument_handling split given = .failure .mode_not_set ↔
      (mode_flags given = 0 ∧
        ¬ (has_option 'T' given = true ∧ has_option 'r' given = true) ∧
        ¬ (has_option 'N' given = true ∧ has_option 'r' given = true))) ∧
    ((∃ o, argument_handling split given = .returns o) ↔
      (mode_flags given = 1 ∧
        ¬ (has_option 'T' given = true ∧ has_option 'r' given = true) ∧
        ¬ (has_option 'N' given = true ∧ has_option 'r' given = true))) := by
  rcases handle_options_goes_on split given RefactorOptions.initial h with
    ⟨hge, hfail⟩ | ⟨hle, o', hret, f1, f2, f3, f4⟩
  · have hge' : 2 ≤ mode_flags given := by
      simpa [RefactorOptions.initial] using hge
    have hrun : argument_handling split given = .failure .can_only_be_set_once := by
      unfold argument_handling
      rw [hfail]
    rw [hrun]
    refine ⟨⟨fun _ => hge', fun _ => rfl⟩, ?_, ?_, ?_⟩
    · intro h0
      omega
    · constructor
      · intro ho
        cases ho
      · rintro ⟨h0, -⟩
        omega
    · constructor
      · rintro ⟨o, ho⟩
        cases ho
      · rintro ⟨h1, -⟩
        omega
  · have hle' : mode_flags given ≤ 1 := by
      simpa [RefactorOptions.initial] using hle
    have hrun : argument_handling split given =
        if (!o'.replacements.isEmpty && o'.recursive.isSome) = true then
          .failure .recursive_and_tag
        else if (o'.no_move && o'.recursive.isSome) = true then .failure .no_move_and_recursive
        else if (!o'.set_move_or_no_move) = true then .failure .mode_not_set
        else .returns o' := by
      unfold argument_handling
      rw [hret]
    rw [hrun, f1, f2, f3, f4]
    simp only [RefactorOptions.initial, List.isEmpty_nil, Bool.true_and, Bool.false_or,
      Option.isSome_none, Bool.not_not]
    cases hT : has_option 'T' given <;> cases hr : has_option 'r' given <;>
      cases hN : has_option 'N' given <;>
      rcases Nat.le_one_iff_eq_zero_or_eq_one.1 hle' with hm | hm <;>
      simp [hm]

/-- The command line `-t tags -M -T a b` has one mode flag and goes on. -/
theorem mode_flags_set_once_witness :
    (∃ o, argument_handling split_any
      [⟨'t', ["tags"]⟩, ⟨'M', []⟩, ⟨'T', ["a", "b"]⟩] = .returns o) ∧
    mode_flags [⟨'t', ["tags"]⟩, ⟨'M', []⟩, ⟨'T', ["a", "b"]⟩] = 1 :=
  ⟨(mode_flags_set_once split_any [⟨'t', ["tags"]⟩, ⟨'M', []⟩, ⟨'T', ["a", "b"]⟩]
      (by simp [goes_on, split_any])).2.2.2.2
      ⟨by simp [mode_flags, is_mode_flag], by simp [has_option], by simp [has_option]⟩,
   by simp [mode_flags, is_mode_flag]⟩

end Refactor

/-! ## C25: the header fields survive a re-author from the existing tag -/

theorem set_mipmap_count_decoded (f : Nat) (hf : f ≤ 32767) :
    set_mipmap_count (if f = 0 then 32767 else f - 1) = f := by
  unfold set_mipmap_count INT16_MAX
  split_ifs <;> omega

theorem set_sprite_budget_size_decoded (e : BitmapSpriteBudgetSize) :
    set_sprite_budget_size (32 * 2 ^ e.value) = e := by
  cases e <;> rfl

/-- C25: with no mipmap count and no sprite budget given by the caller, (1) a
stored mipmap_count field f ≤ 32767 is decoded to the cap 32767 when f = 0 and
f − 1 otherwise, and writing that cap gives f back; (2) a stored
sprite_budget_size enumerator e is decoded to the budget 32 · 2^e, and writing
that budget gives e back; (3) every cap ≤ 32767 is decoded unchanged from the
field written for it; (4) every budget among 32, 64, 128, 256, 512, 1024 is
decoded unchanged from the enumerator written for it; (5) a run on a
destination that holds the tag, without ignore-tag, saves a tag with the same
mipmap_count (when it is ≤ 32767) and the same sprite_budget_size. -/
theorem header_fields_survive (fl : BitmapFlagsFlag) (tag : Bitmap) (o : BitmapOptions)
    (hm : o.max_mipmap_count = none) (hb : o.sprite_budget = none) :
    (tag.mipmap_count ≤ 32767 →
      (defaults_from_tag fl tag o).max_mipmap_count
        = some (if tag.mipmap_count = 0 then 32767 else tag.mipmap_count - 1) ∧
      set_mipmap_count (value (defaults_from_tag fl tag o).max_mipmap_count)
        = tag.mipmap_count) ∧
    ((defaults_from_tag fl tag o).sprite_budget = some (32 * 2 ^ tag.sprite_budget_size.value) ∧
      set_sprite_budget_size (value (defaults_from_tag fl tag o).sprite_budget)
        = tag.sprite_budget_size) ∧
    (∀ cap, cap ≤ 32767 →
      (defaults_from_tag fl { tag with mipmap_count := set_mipmap_count cap } o).max_mipmap_count
        = some cap) ∧
    (∀ budget, budget ∈ [32, 64, 128, 256, 512, 1024] →
      (defaults_from_tag fl
          { tag with sprite_budget_size := set_sprite_budget_size budget } o).sprite_budget
        = some budget) ∧
    (∀ (w : World) (t : Bitmap), w.flag = fl → w.tag_file = .present tag →
      o.ignore_tag_data = false → tag.mipmap_count ≤ 32767 →
      (perform_the_ritual w o).written = some t →
      t.mipmap_count = tag.mipmap_count ∧ t.sprite_budget_size = tag.sprite_budget_size) := by
  have key : ∀ tag' : Bitmap, tag'.mipmap_count ≤ 32767 →
      (defaults_from_tag fl tag' o).max_mipmap_count
        = some (if tag'.mipmap_count = 0 then 32767 else tag'.mipmap_count - 1) := by
    intro tag' h
    have t3 := (defaults_from_tag_fields fl tag' o).2.2.1
    rw [decode_mipmap_count _ (by omega), hm] at t3
    exact t3
  have keyb : ∀ tag' : Bitmap,
      (defaults_from_tag fl tag' o).sprite_budget
        = some (32 * 2 ^ tag'.sprite_budget_size.value) := by
    intro tag'
    have t5 := (defaults_from_tag_fields fl tag' o).2.2.2.2.1
    rw [decode_sprite_budget, hb] at t5
    exact t5
  refine ⟨?_, ?_, ?_, ?_, ?_⟩
  · intro h
    refine ⟨key tag h, ?_⟩
    rw [key tag h]
    exact set_mipmap_count_decoded _ h
  · refine ⟨keyb tag, ?_⟩
    rw [keyb tag]
    exact set_sprite_budget_size_decoded _
  · intro cap hcap
    have hle : set_mipmap_count cap ≤ 32767 := by
      unfold set_mipmap_count INT16_MAX
      split_ifs <;> omega
    rw [key _ hle]
    congr 1
    show (if set_mipmap_count cap = 0 then 32767 else set_mipmap_count cap - 1) = cap
    unfold set_mipmap_count INT16_MAX
    split_ifs <;> omega
  · intro budget hbudget
    rw [keyb]
    simp only [List.mem_cons, List.mem_singleton, List.not_mem_nil, or_false] at hbudget
    rcases hbudget with rfl | rfl | rfl | rfl | rfl | rfl <;> rfl
  · intro w t hfl hf hi hle h
    subst hfl
    obtain ⟨h1, h2, -⟩ := written_header h
    rw [hf, resolve_options_present hi] at h1 h2
    rw [default_values_max_mipmap_count, key tag hle] at h1
    rw [default_values_sprite_budget, keyb tag] at h2
    refine ⟨?_, ?_⟩
    · rw [h1]
      exact set_mipmap_count_decoded _ hle
    · rw [h2]
      exact set_sprite_budget_size_decoded _

/-- The stored tag (mipmap_count 5, budget enumerator 1) and no options. -/
theorem header_fields_survive_witness :
    BitmapOptions.initial.max_mipmap_count = none ∧ BitmapOptions.initial.sprite_budget = none ∧
    stored_tag.mipmap_count = 5 ∧
    set_mipmap_count (value (defaults_from_tag demo_world.flag stored_tag
      BitmapOptions.initial).max_mipmap_count) = stored_tag.mipmap_count ∧
    set_sprite_budget_size (value (defaults_from_tag demo_world.flag stored_tag
      BitmapOptions.initial).sprite_budget) = stored_tag.sprite_budget_size ∧
    (perform_the_ritual demo_world_with_tag BitmapOptions.initial).written.isSome = true ∧
    ((perform_the_ritual demo_world_with_tag BitmapOptions.initial).written.get
      (by decide)).mipmap_count = stored_tag.mipmap_count :=
  ⟨rfl, rfl, rfl,
    ((header_fields_survive demo_world.flag stored_tag BitmapOptions.initial rfl rfl).1
      (by decide)).2,
    (header_fields_survive demo_world.flag stored_tag BitmapOptions.initial rfl rfl).2.1.2,
    by decide,
    ((header_fields_survive demo_world.flag stored_tag BitmapOptions.initial rfl rfl).2.2.2.2
      demo_world_with_tag _ rfl rfl (by decide) (by decide) (by simp)).1⟩

/-! ## C26: the length of a preserved color plate is read back unchanged -/

theorem pixels_from_bytes_length (count : Nat) (bytes : List Nat) :
    (pixels_from_bytes count bytes).length = count := by
  simp [pixels_from_bytes]

/-- C26: a plate of width and height at most 32767 whose byte length is
4·width·height has a length below 2^32; the tag data the preserving branch
produces starts with four bytes from which the regeneration path reads that
length back; and when width and height are at least 1, the regeneration path
on that tag data reaches inflate and yields a plate with the same width,
height and byte length and exactly width·height pixels. -/
theorem preserved_plate_length_read_back (w : World) (o : BitmapOptions) (plate : ColorPlate)
    (tag : Bitmap) (hr : o.regenerate = false)
    (hw : plate.image_width ≤ 32767) (hh : plate.image_height ≤ 32767)
    (hs : plate.image_size = 4 * plate.image_width * plate.image_height) :
    plate.image_size < 4294967296 ∧
    plate.image_size % 4294967296 = plate.image_size ∧
    read_big_endian_u32 (compress_color_plate w o plate tag).2.compressed_color_plate_data
      = plate.image_size ∧
    (1 ≤ plate.image_width → 1 ≤ plate.image_height →
      ∀ (w' : World) (o' : BitmapOptions), o'.regenerate = true →
      ∃ log regenerated,
        get_color_plate w' o' (compress_color_plate w o plate tag).2 = .inr (log, regenerated) ∧
        regenerated.image_size = plate.image_size ∧
        regenerated.image_width = plate.image_width ∧
        regenerated.image_height = plate.image_height ∧
        regenerated.image_pixels.length = plate.image_width * plate.image_height) := by
  have hlt : plate.image_size < 4294967296 := by
    rw [hs, Nat.mul_assoc]
    have : plate.image_width * plate.image_height ≤ 32767 * 32767 := Nat.mul_le_mul hw hh
    omega
  have hdata : (compress_color_plate w o plate tag).2.compressed_color_plate_data
      = write_big_endian_u32 plate.image_size
        ++ w.deflate plate.image_pixels (plate.image_size % 4294967296)
            (plate.image_size * 4 % 4294967296) := by
    unfold compress_color_plate INT16_MAX
    simp [hr, hw, hh, Nat.not_lt.mpr hw, Nat.not_lt.mpr hh]
  have hwidth : (compress_color_plate w o plate tag).2.color_plate_width = plate.image_width := by
    unfold compress_color_plate INT16_MAX
    simp [hr, Nat.not_lt.mpr hw, Nat.not_lt.mpr hh]
    omega
  have hheight : (compress_color_plate w o plate tag).2.color_plate_height
      = plate.image_height := by
    unfold compress_color_plate INT16_MAX
    simp [hr, Nat.not_lt.mpr hw, Nat.not_lt.mpr hh]
    omega
  have hread : read_big_endian_u32
      (compress_color_plate w o plate tag).2.compressed_color_plate_data = plate.image_size := by
    rw [hdata, read_write_big_endian_u32, Nat.mod_eq_of_lt hlt]
  refine ⟨hlt, Nat.mod_eq_of_lt hlt, hread, ?_⟩
  intro h1 h2 w' o' hr'
  have hlen : 4 ≤ (compress_color_plate w o plate tag).2.compressed_color_plate_data.length := by
    rw [hdata]
    simp [write_big_endian_u32]
  have hmod : plate.image_size % 4 = 0 := by
    rw [hs, Nat.mul_assoc]
    exact Nat.mul_mod_right 4 _
  unfold get_color_plate
  simp only [hr', if_true, hwidth, hheight, hread]
  rw [if_neg, if_neg]
  · refine ⟨_, _, rfl, rfl, rfl, rfl, ?_⟩
    rw [pixels_from_bytes_length, hs, Nat.mul_assoc]
    exact Nat.mul_div_cancel_left _ (by decide)
  · simp [hmod]
  · simp
    omega

/-- A 2×3 plate of 24 bytes, preserved in the demo world and regenerated. -/
theorem preserved_plate_length_read_back_witness :
    read_big_endian_u32 (compress_color_plate demo_world BitmapOptions.initial
      ⟨[], 2, 3, 24⟩ Bitmap.empty).2.compressed_color_plate_data = 24 ∧
    ∃ log regenerated,
      get_color_plate demo_world options_regenerate
        (compress_color_plate demo_world BitmapOptions.initial ⟨[], 2, 3, 24⟩ Bitmap.empty).2
        = .inr (log, regenerated) ∧
      regenerated.image_size = 24 ∧ regenerated.image_width = 2 ∧
      regenerated.image_height = 3 ∧ regenerated.image_pixels.length = 2 * 3 :=
  ⟨(preserved_plate_length_read_back demo_world BitmapOptions.initial ⟨[], 2, 3, 24⟩
      Bitmap.empty rfl (by decide) (by decide) (by decide)).2.2.1,
    (preserved_plate_length_read_back demo_world BitmapOptions.initial ⟨[], 2, 3, 24⟩
      Bitmap.empty rfl (by decide) (by decide) (by decide)).2.2.2 (by decide) (by decide)
      demo_world options_regenerate rfl⟩

/-! ## C23: `ObjectChangeColors::pre_compile` on weights that total zero -/

theorem Parser.write_progress_length (total : ℚ) :
    ∀ (ps : List Parser.ObjectChangeColorsPermutation) (progress : ℚ),
      (Parser.write_progress total progress ps).length = ps.length := by
  intro ps
  induction ps with
  | nil => intro progress; rfl
  | cons p rest ih =>
    intro progress
    simp [Parser.write_progress, ih]

theorem Parser.write_progress_even (total c : ℚ) :
    ∀ (ps : List Parser.ObjectChangeColorsPermutation) (progress : ℚ) (i : Nat),
      i < ps.length →
      ((Parser.write_progress total progress
          (ps.map fun p => { p with weight := c })).map (·.weight))[i]?
        = some (progress + ((i : ℚ) + 1) * (c / total)) := by
  intro ps
  induction ps with
  | nil => intro progress i hi; simp at hi
  | cons p rest ih =>
    intro progress i hi
    cases i with
    | zero =>
      simp [Parser.write_progress]
      ring
    | succ j =>
      have hj : j < rest.length := by simpa using hi
      simp only [List.map_cons, Parser.write_progress, List.getElem?_cons_succ]
      rw [ih _ j hj]
      congr 1
      push_cast
      ring

/-- The weights `pre_compile` stores when the weights total zero: the last
one is 1, and the i-th one before it is (i+1)/n². -/
theorem Parser.pre_compile_zero_total (this : Parser.ObjectChangeColors)
    (h0 : this.permutations.foldl (fun total p => total + p.weight) 0 = 0) (i : Nat)
    (hi : i < this.permutations.length) :
    (this.pre_compile.permutations.map (·.weight))[i]?
      = some (if i = this.permutations.length - 1 then 1
          else ((i : ℚ) + 1) / (this.permutations.length : ℚ) ^ 2) := by
  have hn : this.permutations.length ≠ 0 := by omega
  have hnq : (this.permutations.length : ℚ) ≠ 0 := by exact_mod_cast hn
  unfold Parser.ObjectChangeColors.pre_compile
  simp only [hn, if_false, h0, if_true]
  rw [List.getElem?_map, List.getElem?_modify]
  have hw := Parser.write_progress_even (this.permutations.length : ℚ)
    (1 / (this.permutations.length : ℚ)) this.permutations 0 i hi
  rw [List.getElem?_map] at hw
  cases hget : (Parser.write_progress (this.permutations.length : ℚ) 0
      (this.permutations.map fun p => { p with weight := 1 / (this.permutations.length : ℚ) }))[i]?
    with
  | none => rw [hget] at hw; simp at hw
  | some p =>
    rw [hget] at hw
    simp only [Option.map_some', Option.some.injEq] at hw
    by_cases hlast : i = this.permutations.length - 1
    · simp [hlast]
    · have hne : ¬ this.permutations.length - 1 = i := fun h => hlast h.symm
      simp only [Option.map_eq_map, Option.map_some', hne, hlast, if_false, Option.some.injEq]
      rw [hw, zero_add, div_div, ← pow_two, mul_one_div]

/-- C23 fails on the code: when n ≥ 2 permutation weights total zero,
pre_compile stores the cumulative weight (i+1)/n² in the i-th permutation
before the last, which is not (i+1)/n, and 1 in the last: each weight is set
to 1/n and then divided by the total n a second time. -/
theorem Parser.zero_total_is_divided_twice (this : Parser.ObjectChangeColors)
    (hn : 2 ≤ this.permutations.length)
    (h0 : this.permutations.foldl (fun total p => total + p.weight) 0 = 0) :
    (∀ i, i + 1 < this.permutations.length →
      (this.pre_compile.permutations.map (·.weight))[i]?
        = some (((i : ℚ) + 1) / (this.permutations.length : ℚ) ^ 2) ∧
      ((i : ℚ) + 1) / (this.permutations.length : ℚ) ^ 2
        ≠ ((i : ℚ) + 1) / (this.permutations.length : ℚ)) ∧
    (this.pre_compile.permutations.map (·.weight))[this.permutations.length - 1]? = some 1 := by
  have hnq : (2 : ℚ) ≤ (this.permutations.length : ℚ) := by exact_mod_cast hn
  refine ⟨?_, ?_⟩
  · intro i hi
    refine ⟨?_, ?_⟩
    · rw [Parser.pre_compile_zero_total this h0 i (by omega), if_neg (by omega)]
    · intro h
      have hi0 : (0 : ℚ) < (i : ℚ) + 1 := by positivity
      have hpos : (0 : ℚ) < (this.permutations.length : ℚ) := by linarith
      rw [div_eq_div_iff (by positivity) (by positivity)] at h
      have h2 : (this.permutations.length : ℚ) = (this.permutations.length : ℚ) ^ 2 :=
        mul_left_cancel₀ (ne_of_gt hi0) h
      nlinarith
  · rw [Parser.pre_compile_zero_total this h0 _ (by omega), if_pos rfl]

/-- Two permutations of weight 0: the stored weights are 1/4 and 1. -/
theorem Parser.zero_total_is_divided_twice_witness :
    ((Parser.ObjectChangeColors.pre_compile
        ⟨.FUNCTION_SCALE_BY_NONE, [⟨0⟩, ⟨0⟩]⟩).permutations.map (·.weight))[0]?
      = some ((((0 : Nat) : ℚ) + 1) / ((2 : Nat) : ℚ) ^ 2) ∧
    ((Parser.ObjectChangeColors.pre_compile
        ⟨.FUNCTION_SCALE_BY_NONE, [⟨0⟩, ⟨0⟩]⟩).permutations.map (·.weight))[1]? = some 1 :=
  ⟨((Parser.zero_total_is_divided_twice ⟨.FUNCTION_SCALE_BY_NONE, [⟨0⟩, ⟨0⟩]⟩ (by decide)
      (by simp)).1 0 (by decide)).1,
    (Parser.zero_total_is_divided_twice ⟨.FUNCTION_SCALE_BY_NONE, [⟨0⟩, ⟨0⟩]⟩ (by decide)
      (by simp)).2⟩

/-! ## C24: `compile_object` -/

theorem F32.lt_irrefl (a : F32) : F32.lt a a = false := by
  cases a <;> simp [F32.lt, F32.gt]

theorem F32.lt_asymm {a b : F32} (h : F32.lt a b = true) : F32.lt b a = false := by
  cases a <;> cases b <;> simp_all [F32.lt, F32.gt]
  exact le_of_lt h

theorem F32.lt_fin (p q : ℚ) : F32.lt (.fin p) (.fin q) = decide (p < q) := rfl

theorem Parser.string_length_eq_zero (s : String) : s.length = 0 ↔ s = "" := by
  cases s with
  | mk data =>
    simp only [String.length, List.length_eq_zero]
    constructor
    · rintro rfl
      rfl
    · intro h
      exact congrArg String.data h

theorem Parser.scan_change_colors_eq (cs : List Parser.ObjectChangeColors) :
    Parser.scan_change_colors cs 0
      = if ∃ c ∈ cs, c.scale_by ≠ .FUNCTION_SCALE_BY_NONE then 1 else 0 := by
  induction cs with
  | nil => simp [Parser.scan_change_colors]
  | cons c rest ih =>
    unfold Parser.scan_change_colors
    by_cases hc : c.scale_by = .FUNCTION_SCALE_BY_NONE
    · simp [hc, ih]
    · simp [hc]

/-- C24: compile_object throws InvalidTagDataException if and only if the
model path is empty and the animation graph path is not; when it throws it has
reported exactly the fatal error "Object tag has an animation graph but no
model tag" for the tag, and when it does not it has reported nothing.  The tag
it leaves has scales_change_colors 1 when some change-color entry has a
scale_by other than none and 0 otherwise, and its render_bounding_radius is
the larger of the previous value and bounding_radius: it is one of the two,
neither of the two is greater than it, and for finite values it is their
maximum. -/
theorem Parser.compile_object_raises_iff (tag : Parser.Object) (tag_index : Nat) :
    ((Parser.compile_object tag tag_index).thrown = true
      ↔ tag.model_path = "" ∧ tag.animation_graph_path ≠ "") ∧
    ((Parser.compile_object tag tag_index).reported
      = if (Parser.compile_object tag tag_index).thrown then
          [⟨"Object tag has an animation graph but no model tag", tag_index⟩]
        else []) ∧
    (Parser.compile_object tag tag_index).tag.scales_change_colors
      = (if ∃ c ∈ tag.change_colors, c.scale_by ≠ .FUNCTION_SCALE_BY_NONE then 1 else 0) ∧
    ((Parser.compile_object tag tag_index).tag.render_bounding_radius = tag.render_bounding_radius
      ∨ (Parser.compile_object tag tag_index).tag.render_bounding_radius = tag.bounding_radius) ∧
    F32.lt (Parser.compile_object tag tag_index).tag.render_bounding_radius
      tag.render_bounding_radius = false ∧
    F32.lt (Parser.compile_object tag tag_index).tag.render_bounding_radius
      tag.bounding_radius = false ∧
    (∀ p q : ℚ, tag.render_bounding_radius = .fin p → tag.bounding_radius = .fin q →
      (Parser.compile_object tag tag_index).tag.render_bounding_radius = .fin (max p q)) := by
  have hthrown : (Parser.compile_object tag tag_index).thrown
      = decide (tag.model_path.length = 0 ∧ tag.animation_graph_path.length ≠ 0) := by
    unfold Parser.compile_object Parser.fix_render_bounding_radius
    dsimp only
    split_ifs with h <;> simp [h]
  have hreported : (Parser.compile_object tag tag_index).reported
      = if (Parser.compile_object tag tag_index).thrown then
          [⟨"Object tag has an animation graph but no model tag", tag_index⟩]
        else [] := by
    unfold Parser.compile_object Parser.fix_render_bounding_radius
    dsimp only
    split_ifs <;> simp_all
  have hscales : (Parser.compile_object tag tag_index).tag.scales_change_colors
      = Parser.scan_change_colors tag.change_colors 0 := by
    unfold Parser.compile_object Parser.fix_render_bounding_radius
    dsimp only
    split_ifs <;> rfl
  have hradius : (Parser.compile_object tag tag_index).tag.render_bounding_radius
      = if F32.lt tag.render_bounding_radius tag.bounding_radius then tag.bounding_radius
        else tag.render_bounding_radius := by
    unfold Parser.compile_object Parser.fix_render_bounding_radius
    dsimp only
    split_ifs <;> rfl
  refine ⟨?_, hreported, ?_, ?_, ?_, ?_, ?_⟩
  · rw [hthrown, decide_eq_true_iff, Parser.string_length_eq_zero, Ne,
      Parser.string_length_eq_zero]
  · rw [hscales, Parser.scan_change_colors_eq]
  · rw [hradius]
    split_ifs
    · exact Or.inr rfl
    · exact Or.inl rfl
  · rw [hradius]
    split_ifs with h
    · exact F32.lt_asymm h
    · exact F32.lt_irrefl _
  · rw [hradius]
    split_ifs with h
    · exact F32.lt_irrefl _
    · simpa using h
  · intro p q hp hq
    rw [hradius, hp, hq, F32.lt_fin]
    by_cases hpq : p < q
    · simp [hpq, max_eq_right (le_of_lt hpq)]
    · simp [hpq, max_eq_left (not_lt.mp hpq)]

/-- An object with an animation graph and no model: compile_object throws,
and the render bounding radius 1 has become the bounding radius 2. -/
theorem Parser.compile_object_raises_iff_witness :
    (Parser.compile_object animated_without_model 7).thrown = true ∧
    (Parser.compile_object animated_without_model 7).tag.scales_change_colors
      = (if ∃ c ∈ animated_without_model.change_colors, c.scale_by ≠ .FUNCTION_SCALE_BY_NONE
          then 1 else 0) ∧
    (Parser.compile_object animated_without_model 7).tag.render_bounding_radius
      = .fin (max 1 2) :=
  ⟨(Parser.compile_object_raises_iff animated_without_model 7).1.mpr ⟨rfl, by decide⟩,
    (Parser.compile_object_raises_iff animated_without_model 7).2.2.1,
    (Parser.compile_object_raises_iff animated_without_model 7).2.2.2.2.2.2 1 2 rfl rfl⟩

/-! ## The mipmap loop of `draw_bitmap_to_widget` -/

theorem EditQt.mipmap_loop_zero (d : EditQt.BitmapData) (bpp : Nat) :
    EditQt.mipmap_loop d bpp 0 = EditQt.first_level d bpp := rfl

theorem EditQt.mipmap_loop_succ (d : EditQt.BitmapData) (bpp m : Nat) :
    EditQt.mipmap_loop d bpp (m + 1)
      = EditQt.next_level (EditQt.compressed d.format) bpp (EditQt.stride d)
          (EditQt.mipmap_loop d bpp m) := by
  unfold EditQt.mipmap_loop
  rw [Function.iterate_succ_apply']

theorem EditQt.mipmap_loop_real (d : EditQt.BitmapData) (bpp m : Nat) :
    (EditQt.mipmap_loop d bpp m).real_width = d.width / 2 ^ m ∧
    (EditQt.mipmap_loop d bpp m).real_height = d.height / 2 ^ m := by
  induction m with
  | zero => simp [EditQt.mipmap_loop_zero, EditQt.first_level]
  | succ m ih =>
    rw [EditQt.mipmap_loop_succ]
    simp only [EditQt.next_level, ih.1, ih.2, Nat.div_div_eq_div_mul, pow_succ, and_self]

theorem EditQt.pad_to_block_eq (x : Nat) : EditQt.pad_to_block x = 4 * ((x + 3) / 4) := by
  unfold EditQt.pad_to_block
  split_ifs <;> omega

/-- After at least one turn of the loop, `width` and `height` are the
dimensions of the level as the mipmap-chain formula states them. -/
theorem EditQt.mipmap_loop_succ_dimensions (d : EditQt.BitmapData) (bpp m : Nat) :
    (EditQt.mipmap_loop d bpp (m + 1)).width
      = EditQt.level_dimension (EditQt.compressed d.format) d.width (m + 1) ∧
    (EditQt.mipmap_loop d bpp (m + 1)).height
      = EditQt.level_dimension (EditQt.compressed d.format) d.height (m + 1) := by
  obtain ⟨hw, hh⟩ := EditQt.mipmap_loop_real d bpp m
  rw [EditQt.mipmap_loop_succ]
  simp only [EditQt.next_level, EditQt.level_dimension, hw, hh, EditQt.pad_to_block_eq,
    Nat.div_div_eq_div_mul, ← pow_succ]
  have e1 : ∀ x : Nat, (if x < 1 then 1 else x) = max 1 x := by
    intro x
    split_ifs <;> omega
  simp only [e1, and_self]

/-- Before the loop, `width` and `height` are the base dimensions. -/
theorem EditQt.mipmap_loop_zero_dimensions (d : EditQt.BitmapData) (bpp : Nat) :
    (EditQt.mipmap_loop d bpp 0).width = d.width ∧
    (EditQt.mipmap_loop d bpp 0).height = d.height :=
  ⟨rfl, rfl⟩

theorem EditQt.mipmap_loop_pixels_required (d : EditQt.BitmapData) (bpp m : Nat) :
    (EditQt.mipmap_loop d bpp m).pixels_required
      = EditQt.size_t (EditQt.size_t ((EditQt.mipmap_loop d bpp m).width
          * (EditQt.mipmap_loop d bpp m).height) * bpp) / 8 := by
  cases m with
  | zero => rfl
  | succ m =>
    rw [EditQt.mipmap_loop_succ]
    rfl

theorem EditQt.size_t_add (a b : Nat) :
    EditQt.size_t (EditQt.size_t a + EditQt.size_t b) = EditQt.size_t (a + b) := by
  unfold EditQt.size_t
  omega

theorem EditQt.size_t_add_right (a b : Nat) :
    EditQt.size_t (a + EditQt.size_t b) = EditQt.size_t (a + b) := by
  unfold EditQt.size_t
  omega

theorem EditQt.size_t_of_lt {a : Nat} (h : a < 18446744073709551616) : EditQt.size_t a = a :=
  Nat.mod_eq_of_lt h

/-- The offset after `m` turns of the loop, as a std::size_t: the pixel data
offset plus `stride` times the byte counts of the levels passed. -/
theorem EditQt.mipmap_loop_offset (d : EditQt.BitmapData) (bpp m : Nat) :
    EditQt.size_t (EditQt.mipmap_loop d bpp m).offset
      = EditQt.size_t (d.pixel_data_offset + EditQt.stride d
          * ((List.range m).map fun k => (EditQt.mipmap_loop d bpp k).pixels_required).sum) := by
  induction m with
  | zero => simp [EditQt.mipmap_loop_zero, EditQt.first_level]
  | succ m ih =>
    have hstep : (EditQt.mipmap_loop d bpp (m + 1)).offset
        = EditQt.size_t ((EditQt.mipmap_loop d bpp m).offset
            + EditQt.size_t ((EditQt.mipmap_loop d bpp m).pixels_required * EditQt.stride d)) := by
      rw [EditQt.mipmap_loop_succ]
      rfl
    rw [hstep, List.range_succ, List.map_append, List.sum_append, List.map_singleton,
      List.sum_singleton, EditQt.size_t_add_right]
    have h2 : EditQt.size_t (EditQt.size_t ((EditQt.mipmap_loop d bpp m).offset
          + (EditQt.mipmap_loop d bpp m).pixels_required * EditQt.stride d))
        = EditQt.size_t ((EditQt.mipmap_loop d bpp m).offset
          + (EditQt.mipmap_loop d bpp m).pixels_required * EditQt.stride d) := by
      unfold EditQt.size_t
      omega
    rw [h2]
    have h3 : ∀ a b c : Nat, EditQt.size_t a = EditQt.size_t b →
        EditQt.size_t (a + c) = EditQt.size_t (b + c) := by
      intro a b c h
      unfold EditQt.size_t at h ⊢
      omega
    rw [h3 _ _ _ ih]
    congr 1
    ring

/-- The offset `draw_bitmap_to_widget` reads at, as a std::size_t: the pixel
data offset, plus `stride` times the byte counts of the levels before the
mipmap, plus `index` times the byte count of the mipmap. -/
theorem EditQt.find_the_offset_offset (d : EditQt.BitmapData) (bpp m i : Nat) :
    (EditQt.find_the_offset d bpp m i).offset
      = EditQt.size_t (d.pixel_data_offset + EditQt.stride d
          * ((List.range m).map fun k => (EditQt.mipmap_loop d bpp k).pixels_required).sum
          + i * (EditQt.mipmap_loop d bpp m).pixels_required) := by
  have h := EditQt.mipmap_loop_offset d bpp m
  have h3 : ∀ a b c : Nat, EditQt.size_t a = EditQt.size_t b →
      EditQt.size_t (a + EditQt.size_t c) = EditQt.size_t (b + c) := by
    intro a b c h
    unfold EditQt.size_t at h ⊢
    omega
  exact h3 _ _ _ h

/-- The level `draw_bitmap_to_widget` decodes is the one `find_the_offset` gives
for the bits per pixel of the format. -/
theorem EditQt.draw_bitmap_to_widget_decoded {fuel : Nat} {d : EditQt.BitmapData}
    {m i data_remaining : Nat} {l : EditQt.Level} {accesses : List EditQt.Access}
    (h : EditQt.draw_bitmap_to_widget fuel d m i data_remaining = some (.decoded l accesses)) :
    ∃ bpp, EditQt.bits_per_pixel d.format = some bpp ∧ l = EditQt.find_the_offset d bpp m i ∧
      EditQt.decode fuel d.format l = some accesses ∧
      l.offset < data_remaining ∧ l.pixels_required ≤ data_remaining - l.offset := by
  unfold EditQt.draw_bitmap_to_widget at h
  cases hb : EditQt.bits_per_pixel d.format with
  | none => simp [hb] at h
  | some bpp =>
    simp only [hb] at h
    split_ifs at h with hc
    · simp at h
    · cases hdec : EditQt.decode fuel d.format (EditQt.find_the_offset d bpp m i) with
      | none => simp [hdec] at h
      | some acc =>
        simp only [hdec, Option.map_some', Option.some.injEq, EditQt.Drawn.decoded.injEq] at h
        obtain ⟨rfl, rfl⟩ := h
        refine ⟨bpp, rfl, rfl, hdec, ?_, ?_⟩ <;> omega

/-! ## C21: the dimensions of a mipmap -/

/-- C21: for every base width w, base height h and mipmap index m, the
real_width and real_height of draw_bitmap_to_widget (m halvings, then the
clamp of lines 262-267) are max(1, ⌊w / 2^m⌋) and max(1, ⌊h / 2^m⌋); they
are the dimensions of the level whenever the function decodes one. -/
theorem EditQt.mipmap_dimensions (d : EditQt.BitmapData) (m i : Nat) :
    (∀ bpp, (EditQt.find_the_offset d bpp m i).real_width = max 1 (d.width / 2 ^ m) ∧
      (EditQt.find_the_offset d bpp m i).real_height = max 1 (d.height / 2 ^ m)) ∧
    (∀ fuel data_remaining l accesses,
      EditQt.draw_bitmap_to_widget fuel d m i data_remaining = some (.decoded l accesses) →
      l.real_width = max 1 (d.width / 2 ^ m) ∧ l.real_height = max 1 (d.height / 2 ^ m)) := by
  have key : ∀ bpp, (EditQt.find_the_offset d bpp m i).real_width = max 1 (d.width / 2 ^ m) ∧
      (EditQt.find_the_offset d bpp m i).real_height = max 1 (d.height / 2 ^ m) := by
    intro bpp
    obtain ⟨hw, hh⟩ := EditQt.mipmap_loop_real d bpp m
    unfold EditQt.find_the_offset
    simp only [hw, hh]
    constructor <;> split_ifs <;> omega
  refine ⟨key, ?_⟩
  intro fuel data_remaining l accesses h
  obtain ⟨bpp, -, rfl, -⟩ := EditQt.draw_bitmap_to_widget_decoded h
  exact key bpp

/-- Mipmap 3 of the 8×4 A8Y8 texture is 1×1 (8 / 8 = 1 and 4 / 8 = 0, clamped). -/
theorem EditQt.mipmap_dimensions_witness :
    EditQt.draw_bitmap_to_widget 8 a8y8_8x4 3 0 128
      = some (.decoded ⟨1, 1, 1, 1, 100, 2⟩ [.read 100 2, .write 0]) ∧
    (1 : Nat) = max 1 (a8y8_8x4.width / 2 ^ 3) ∧ (1 : Nat) = max 1 (a8y8_8x4.height / 2 ^ 3) :=
  ⟨by decide,
    (EditQt.mipmap_dimensions a8y8_8x4 3 0).2 8 128 ⟨1, 1, 1, 1, 100, 2⟩
      [.read 100 2, .write 0] (by decide)⟩

/-! ## C22: the offset of a mipmap in the pixel data -/

theorem EditQt.bits_per_pixel_le {format : EditQt.BitmapDataFormat} {bpp : Nat}
    (h : EditQt.bits_per_pixel format = some bpp) : bpp ≤ 32 := by
  cases format <;> simp [EditQt.bits_per_pixel] at h <;> omega

theorem EditQt.level_dimension_le (dxt : Bool) (base k : Nat) (hb : base < 65536) :
    EditQt.level_dimension dxt base k ≤ 65536 := by
  have h1 : base / 2 ^ k ≤ base := Nat.div_le_self _ _
  unfold EditQt.level_dimension
  split_ifs <;> omega

/-- For a bitmap whose base dimensions are at least 1 and, for a DXT format,
multiples of 4, `width` and `height` are at every level the dimensions of the
mipmap-chain formula. -/
theorem EditQt.mipmap_loop_dimensions (d : EditQt.BitmapData) (bpp m : Nat)
    (hw : 1 ≤ d.width) (hh : 1 ≤ d.height)
    (hc : EditQt.compressed d.format = true → 4 ∣ d.width ∧ 4 ∣ d.height) :
    (EditQt.mipmap_loop d bpp m).width
      = EditQt.level_dimension (EditQt.compressed d.format) d.width m ∧
    (EditQt.mipmap_loop d bpp m).height
      = EditQt.level_dimension (EditQt.compressed d.format) d.height m := by
  cases m with
  | succ m => exact EditQt.mipmap_loop_succ_dimensions d bpp m
  | zero =>
    rw [(EditQt.mipmap_loop_zero_dimensions d bpp).1, (EditQt.mipmap_loop_zero_dimensions d bpp).2]
    unfold EditQt.level_dimension
    simp only [pow_zero, Nat.div_one]
    cases hcomp : EditQt.compressed d.format with
    | false => simp; omega
    | true =>
      obtain ⟨⟨a, ha⟩, ⟨b, hb⟩⟩ := hc hcomp
      simp only [if_true]
      omega

/-- For such a bitmap with 16-bit dimensions, the byte count of every level
is the one of the mipmap-chain formula. -/
theorem EditQt.mipmap_loop_level_size (d : EditQt.BitmapData) (bpp m : Nat)
    (hb : EditQt.bits_per_pixel d.format = some bpp)
    (hw : 1 ≤ d.width) (hh : 1 ≤ d.height) (hw16 : d.width < 65536) (hh16 : d.height < 65536)
    (hc : EditQt.compressed d.format = true → 4 ∣ d.width ∧ 4 ∣ d.height) :
    (EditQt.mipmap_loop d bpp m).pixels_required = EditQt.level_size d bpp m := by
  obtain ⟨h1, h2⟩ := EditQt.mipmap_loop_dimensions d bpp m hw hh hc
  have hbpp := EditQt.bits_per_pixel_le hb
  have hW := EditQt.level_dimension_le (EditQt.compressed d.format) d.width m hw16
  have hH := EditQt.level_dimension_le (EditQt.compressed d.format) d.height m hh16
  have hprod : EditQt.level_dimension (EditQt.compressed d.format) d.width m
      * EditQt.level_dimension (EditQt.compressed d.format) d.height m ≤ 65536 * 65536 :=
    Nat.mul_le_mul hW hH
  have hprod2 : EditQt.level_dimension (EditQt.compressed d.format) d.width m
      * EditQt.level_dimension (EditQt.compressed d.format) d.height m * bpp
      ≤ 65536 * 65536 * 32 := Nat.mul_le_mul hprod hbpp
  have e1 : EditQt.size_t (EditQt.level_dimension (EditQt.compressed d.format) d.width m
      * EditQt.level_dimension (EditQt.compressed d.format) d.height m)
      = EditQt.level_dimension (EditQt.compressed d.format) d.width m
        * EditQt.level_dimension (EditQt.compressed d.format) d.height m :=
    EditQt.size_t_of_lt (by omega)
  rw [EditQt.mipmap_loop_pixels_required, h1, h2, EditQt.level_size, e1,
    EditQt.size_t_of_lt (by omega)]

/-- For a bitmap whose base dimensions are at least 1, 16-bit and, for a DXT
format, multiples of 4, the offset `draw_bitmap_to_widget` reads at is, as a
std::size_t, the offset of the mipmap-chain formula. -/
theorem EditQt.find_the_offset_stated (d : EditQt.BitmapData) (bpp m i : Nat)
    (hb : EditQt.bits_per_pixel d.format = some bpp)
    (hw : 1 ≤ d.width) (hh : 1 ≤ d.height) (hw16 : d.width < 65536) (hh16 : d.height < 65536)
    (hd16 : d.depth < 65536)
    (hc : EditQt.compressed d.format = true → 4 ∣ d.width ∧ 4 ∣ d.height) :
    (EditQt.find_the_offset d bpp m i).offset
      = EditQt.size_t (EditQt.stated_offset d bpp m i) := by
  have hs : EditQt.stride d = EditQt.stored_per_level d := by
    unfold EditQt.stride EditQt.stored_per_level
    split_ifs
    · exact EditQt.size_t_of_lt (by omega)
    · rfl
  have hsum : ((List.range m).map fun k => (EditQt.mipmap_loop d bpp k).pixels_required)
      = (List.range m).map (EditQt.level_size d bpp) :=
    List.map_congr_left fun k _ => EditQt.mipmap_loop_level_size d bpp k hb hw hh hw16 hh16 hc
  rw [EditQt.find_the_offset_offset, hsum, hs,
    EditQt.mipmap_loop_level_size d bpp m hb hw hh hw16 hh16 hc]
  rfl

/-- C22 fails on the code for a DXT bitmap whose base dimensions are not
multiples of 4: line 236 computes the byte count of level 0 from the raw
width and height, without the padding the loop applies to every later level.
For the 2×2 DXT1 texture the byte count of level 0 is 2·2·4/8 = 2 instead of
the 8 bytes of one block, so mipmap 1 is read at offset 2 where the formula
gives 8, and face 1 of mipmap 0 of the 2×2 DXT1 cube map is read at offset 2
where the formula gives 8. -/
theorem EditQt.level_zero_is_not_padded :
    EditQt.bits_per_pixel dxt1_2x2.format = some 4 ∧
    (EditQt.find_the_offset dxt1_2x2 4 1 0).offset = 2 ∧
    EditQt.stated_offset dxt1_2x2 4 1 0 = 8 ∧
    (EditQt.find_the_offset dxt1_2x2 4 0 0).pixels_required = 2 ∧
    EditQt.level_size dxt1_2x2 4 0 = 8 ∧
    (EditQt.find_the_offset dxt1_2x2_cube 4 0 1).offset = 2 ∧
    EditQt.stated_offset dxt1_2x2_cube 4 0 1 = 8 ∧
    EditQt.draw_bitmap_to_widget 0 dxt1_2x2 1 0 16
      = some (.decoded ⟨4, 4, 1, 1, 2, 8⟩ [.read 2 8, .write 0]) := by
  decide

/-! ## The decode step of `draw_bitmap_to_widget` -/

theorem EditQt.bytes_read_nil : EditQt.bytes_read [] = [] := rfl

theorem EditQt.bytes_read_append (a b : List EditQt.Access) :
    EditQt.bytes_read (a ++ b) = EditQt.bytes_read a ++ EditQt.bytes_read b := by
  simp [EditQt.bytes_read]

theorem EditQt.bytes_read_read (first count : Nat) (rest : List EditQt.Access) :
    EditQt.bytes_read (.read first count :: rest)
      = List.range' first count ++ EditQt.bytes_read rest := by
  simp [EditQt.bytes_read, EditQt.Access.bytes]

theorem EditQt.bytes_read_write (index : Nat) (rest : List EditQt.Access) :
    EditQt.bytes_read (.write index :: rest) = EditQt.bytes_read rest := by
  simp [EditQt.bytes_read, EditQt.Access.bytes]

theorem EditQt.indices_written_append (a b : List EditQt.Access) :
    EditQt.indices_written (a ++ b) = EditQt.indices_written a ++ EditQt.indices_written b := by
  simp [EditQt.indices_written]

theorem EditQt.indices_written_read (first count : Nat) (rest : List EditQt.Access) :
    EditQt.indices_written (.read first count :: rest) = EditQt.indices_written rest := by
  simp [EditQt.indices_written, EditQt.Access.indices]

theorem EditQt.indices_written_write (index : Nat) (rest : List EditQt.Access) :
    EditQt.indices_written (.write index :: rest) = index :: EditQt.indices_written rest := by
  simp [EditQt.indices_written, EditQt.Access.indices]

theorem EditQt.bytes_read_flatMap {α : Type} (l : List α) (f : α → List EditQt.Access) :
    EditQt.bytes_read (l.flatMap f) = l.flatMap fun a => EditQt.bytes_read (f a) := by
  simp [EditQt.bytes_read, List.flatMap_assoc]

theorem EditQt.indices_written_flatMap {α : Type} (l : List α)
    (f : α → List EditQt.Access) :
    EditQt.indices_written (l.flatMap f) = l.flatMap fun a => EditQt.indices_written (f a) := by
  simp [EditQt.indices_written, List.flatMap_assoc]

theorem EditQt.bytes_read_map_write {α : Type} (f : α → Nat) (l : List α) :
    EditQt.bytes_read (l.map fun x => .write (f x)) = [] := by
  induction l with
  | nil => rfl
  | cons a rest ih => rw [List.map_cons, EditQt.bytes_read_write, ih]

theorem EditQt.indices_written_map_write {α : Type} (f : α → Nat) (l : List α) :
    EditQt.indices_written (l.map fun x => .write (f x)) = l.map f := by
  induction l with
  | nil => rfl
  | cons a rest ih => rw [List.map_cons, EditQt.indices_written_write, ih, List.map_cons]

/-- The loop of lines 279-307 on a byte count that is `n` source pixels of
`s` bytes: it ends within `n` turns with `pixels_left` zero, has read the
`s * n` bytes from `a` on, each once and in order, and has written the `n`
entries from `b` on. -/
theorem EditQt.decode_loop_ends (s : Nat) (hs : 0 < s) :
    ∀ (n fuel a b : Nat), s * n < 18446744073709551616 → n ≤ fuel →
      ∃ accesses, EditQt.decode_loop s fuel (s * n) a b = some (accesses, 0) ∧
        EditQt.bytes_read accesses = List.range' a (s * n) ∧
        EditQt.indices_written accesses = List.range' b n := by
  intro n
  induction n with
  | zero =>
    intro fuel a b _ _
    refine ⟨[], ?_, rfl, rfl⟩
    cases fuel <;> simp [EditQt.decode_loop]
  | succ n ih =>
    intro fuel a b hlt hfuel
    obtain ⟨fuel, rfl⟩ : ∃ f, fuel = f + 1 := ⟨fuel - 1, by omega⟩
    have hmul : s * (n + 1) = s * n + s := Nat.mul_succ s n
    have hne : s * (n + 1) ≠ 0 := by
      rw [hmul]
      omega
    have hdec : EditQt.size_t (s * (n + 1) + 18446744073709551616 - s) = s * n := by
      unfold EditQt.size_t
      rw [hmul] at hlt ⊢
      omega
    obtain ⟨rest, hrest, hbytes, hidx⟩ := ih fuel (a + s) (b + 1) (by rw [hmul] at hlt; omega)
      (by omega)
    refine ⟨.read a s :: .write b :: rest, ?_, ?_, ?_⟩
    · rw [EditQt.decode_loop, if_neg hne, hdec, hrest]
      rfl
    · rw [EditQt.bytes_read_read, EditQt.bytes_read_write, hbytes, List.range'_append_1, hmul]
    · rw [EditQt.indices_written_read, EditQt.indices_written_write, hidx]
      rfl

/-- The entries copy_block writes lie below real_width · real_height, and it
reads nothing from the pixel data. -/
theorem EditQt.copy_block_accesses (real_width real_height to_x to_y width height : Nat) :
    EditQt.bytes_read (EditQt.copy_block real_width real_height to_x to_y width height) = [] ∧
    ∀ j ∈ EditQt.indices_written
        (EditQt.copy_block real_width real_height to_x to_y width height),
      j < real_width * real_height := by
  unfold EditQt.copy_block
  refine ⟨?_, ?_⟩
  · rw [EditQt.bytes_read_flatMap, List.flatMap_eq_nil_iff]
    intro y _
    exact EditQt.bytes_read_map_write _ _
  · intro j hj
    rw [EditQt.indices_written_flatMap, List.mem_flatMap] at hj
    obtain ⟨y, hy, hj⟩ := hj
    rw [EditQt.indices_written_map_write, List.mem_map] at hj
    obtain ⟨x, hx, rfl⟩ := hj
    have hy2 := List.mem_takeWhile_imp hy
    have hx2 := List.mem_takeWhile_imp hx
    simp only [Bool.and_eq_true, decide_eq_true_eq] at hy2 hx2
    have h1 : real_width * (to_y + y) + real_width ≤ real_width * real_height := by
      rw [← Nat.mul_succ]
      exact Nat.mul_le_mul_left _ (by omega)
    omega

theorem EditQt.flatMap_range' (k : Nat) :
    ∀ (n a : Nat), (List.range n).flatMap (fun i => List.range' (a + i * k) k)
      = List.range' a (n * k) := by
  intro n
  induction n with
  | zero => intro a; simp
  | succ n ih =>
    intro a
    rw [List.range_succ, List.flatMap_append, ih, List.flatMap_singleton,
      List.range'_append_1, Nat.succ_mul, Nat.add_comm k]

/-- The two loops over the blocks read, block by block, every byte of the
`block_h · block_w · block_stride` bytes from `offset` on once, and write only
entries below real_width · real_height. -/
theorem EditQt.decode_blocks_accesses (block_stride : Nat)
    (block_reads : Nat → List EditQt.Access) (l : EditQt.Level)
    (hreads : ∀ p, (EditQt.bytes_read (block_reads p)).Perm (List.range' p block_stride))
    (hwrites : ∀ p, EditQt.indices_written (block_reads p) = []) :
    (EditQt.bytes_read (EditQt.decode_blocks block_stride block_reads l)).Perm
      (List.range' l.offset
        ((l.real_height + 3) / 4 * ((l.real_width + 3) / 4 * block_stride))) ∧
    ∀ j ∈ EditQt.indices_written (EditQt.decode_blocks block_stride block_reads l),
      j < l.real_width * l.real_height := by
  unfold EditQt.decode_blocks
  dsimp only
  refine ⟨?_, ?_⟩
  · rw [EditQt.bytes_read_flatMap, ← EditQt.flatMap_range']
    refine List.Perm.flatMap_left _ fun y _ => ?_
    rw [EditQt.bytes_read_flatMap, ← EditQt.flatMap_range']
    refine List.Perm.flatMap_left _ fun x _ => ?_
    rw [EditQt.bytes_read_append, (EditQt.copy_block_accesses _ _ _ _ _ _).1, List.append_nil]
    have hp : l.offset + x * block_stride + y * block_stride * ((l.real_width + 3) / 4)
        = l.offset + y * ((l.real_width + 3) / 4 * block_stride) + x * block_stride := by
      ring
    rw [hp]
    exact hreads _
  · intro j hj
    rw [EditQt.indices_written_flatMap, List.mem_flatMap] at hj
    obtain ⟨y, -, hj⟩ := hj
    rw [EditQt.indices_written_flatMap, List.mem_flatMap] at hj
    obtain ⟨x, -, hj⟩ := hj
    rw [EditQt.indices_written_append, hwrites, List.nil_append] at hj
    exact (EditQt.copy_block_accesses _ _ _ _ _ _).2 j hj

theorem EditQt.decode_8_bit_accesses (fuel : Nat) (l : EditQt.Level)
    (hpr : l.pixels_required = l.real_width * l.real_height)
    (hlt : l.pixels_required < 18446744073709551616) (hfuel : l.pixels_required ≤ fuel) :
    ∃ accesses, EditQt.decode_8_bit fuel l.pixels_required l.offset = some (accesses, 0) ∧
      (EditQt.bytes_read accesses).Perm (List.range' l.offset l.pixels_required) ∧
      ∀ j ∈ EditQt.indices_written accesses, j < l.real_width * l.real_height := by
  obtain ⟨acc, h1, h2, h3⟩ := EditQt.decode_loop_ends 1 (by decide)
    (l.real_width * l.real_height) fuel l.offset 0 (by omega) (by omega)
  rw [Nat.one_mul] at h1 h2
  refine ⟨acc, ?_, ?_, ?_⟩
  · rw [EditQt.decode_8_bit, hpr, h1]
  · rw [h2, hpr]
  · intro j hj
    rw [h3, List.mem_range'_1] at hj
    omega

theorem EditQt.decode_16_bit_accesses (fuel : Nat) (l : EditQt.Level)
    (hpr : l.pixels_required = 2 * (l.real_width * l.real_height))
    (hlt : l.pixels_required < 18446744073709551616) (hfuel : l.pixels_required ≤ fuel) :
    ∃ accesses, EditQt.decode_16_bit fuel l.pixels_required l.offset = some (accesses, 0) ∧
      (EditQt.bytes_read accesses).Perm (List.range' l.offset l.pixels_required) ∧
      ∀ j ∈ EditQt.indices_written accesses, j < l.real_width * l.real_height := by
  obtain ⟨acc, h1, h2, h3⟩ := EditQt.decode_loop_ends 2 (by decide)
    (l.real_width * l.real_height) fuel l.offset 0 (by omega) (by omega)
  refine ⟨acc, ?_, ?_, ?_⟩
  · rw [EditQt.decode_16_bit, hpr, h1]
  · rw [h2, hpr]
  · intro j hj
    rw [h3, List.mem_range'_1] at hj
    omega

theorem EditQt.memcpy_accesses (l : EditQt.Level)
    (hpr : l.pixels_required = l.real_width * l.real_height * 4) :
    (EditQt.bytes_read (.read l.offset (l.real_width * l.real_height * 4)
        :: (List.range (l.real_width * l.real_height)).map .write)).Perm
      (List.range' l.offset l.pixels_required) ∧
    ∀ j ∈ EditQt.indices_written (.read l.offset (l.real_width * l.real_height * 4)
        :: (List.range (l.real_width * l.real_height)).map .write),
      j < l.real_width * l.real_height := by
  refine ⟨?_, ?_⟩
  · rw [EditQt.bytes_read_read, EditQt.bytes_read_map_write (fun x => x), List.append_nil, hpr]
  · intro j hj
    rw [EditQt.indices_written_read, EditQt.indices_written_map_write (fun x => x),
      List.map_id', List.mem_range] at hj
    exact hj

theorem EditQt.dxt_accesses (block_stride : Nat) (block_reads : Nat → List EditQt.Access)
    (l : EditQt.Level)
    (hreads : ∀ p, (EditQt.bytes_read (block_reads p)).Perm (List.range' p block_stride))
    (hwrites : ∀ p, EditQt.indices_written (block_reads p) = [])
    (hpr : l.pixels_required
      = (l.real_height + 3) / 4 * ((l.real_width + 3) / 4 * block_stride)) :
    (EditQt.bytes_read (EditQt.decode_blocks block_stride block_reads l)).Perm
      (List.range' l.offset l.pixels_required) ∧
    ∀ j ∈ EditQt.indices_written (EditQt.decode_blocks block_stride block_reads l),
      j < l.real_width * l.real_height := by
  rw [hpr]
  exact EditQt.decode_blocks_accesses block_stride block_reads l hreads hwrites

theorem EditQt.dxt_pixels_required (bw bh c : Nat) :
    4 * bw * (4 * bh) * (4 * c) / 8 = bh * (bw * (8 * c)) := by
  have h : 4 * bw * (4 * bh) * (4 * c) = 8 * (bh * (bw * (8 * c))) := by ring
  rw [h]
  exact Nat.mul_div_cancel_left _ (by decide)

/-- The decode step on a level whose `width` and `height` are the real
dimensions (padded to blocks for a DXT format) and whose byte count is
width · height · bpp / 8: it ends, reads every byte of the `pixels_required`
bytes from `offset` on once, and writes only entries below
real_width · real_height. -/
theorem EditQt.decode_accesses (fuel : Nat) (format : EditQt.BitmapDataFormat)
    (l : EditQt.Level) (bpp : Nat) (hb : EditQt.bits_per_pixel format = some bpp)
    (hwd : l.width
      = if EditQt.compressed format then 4 * ((l.real_width + 3) / 4) else l.real_width)
    (hht : l.height
      = if EditQt.compressed format then 4 * ((l.real_height + 3) / 4) else l.real_height)
    (hpr : l.pixels_required = l.width * l.height * bpp / 8)
    (hlt : l.pixels_required < 18446744073709551616) (hfuel : l.pixels_required ≤ fuel) :
    ∃ accesses, EditQt.decode fuel format l = some accesses ∧
      (EditQt.bytes_read accesses).Perm (List.range' l.offset l.pixels_required) ∧
      (∀ j ∈ EditQt.indices_written accesses, j < l.real_width * l.real_height) ∧
      (format ∈ [.BITMAP_DATA_FORMAT_A8, .BITMAP_DATA_FORMAT_Y8, .BITMAP_DATA_FORMAT_AY8,
          .BITMAP_DATA_FORMAT_P8_BUMP] →
        EditQt.decode_8_bit fuel l.pixels_required l.offset = some (accesses, 0)) ∧
      (format ∈ [.BITMAP_DATA_FORMAT_A1R5G5B5, .BITMAP_DATA_FORMAT_R5G6B5,
          .BITMAP_DATA_FORMAT_A4R4G4B4, .BITMAP_DATA_FORMAT_A8Y8] →
        EditQt.decode_16_bit fuel l.pixels_required l.offset = some (accesses, 0)) := by
  have h8 : EditQt.compressed format = false → bpp = 8 →
      ∃ accesses, EditQt.decode_8_bit fuel l.pixels_required l.offset = some (accesses, 0) ∧
        (EditQt.bytes_read accesses).Perm (List.range' l.offset l.pixels_required) ∧
        ∀ j ∈ EditQt.indices_written accesses, j < l.real_width * l.real_height := by
    intro hc hbpp
    rw [hc] at hwd hht
    simp only [Bool.false_eq_true, if_false] at hwd hht
    rw [hwd, hht, hbpp, Nat.mul_div_cancel _ (by decide : 0 < 8)] at hpr
    exact EditQt.decode_8_bit_accesses fuel l hpr hlt hfuel
  have h16 : EditQt.compressed format = false → bpp = 16 →
      ∃ accesses, EditQt.decode_16_bit fuel l.pixels_required l.offset = some (accesses, 0) ∧
        (EditQt.bytes_read accesses).Perm (List.range' l.offset l.pixels_required) ∧
        ∀ j ∈ EditQt.indices_written accesses, j < l.real_width * l.real_height := by
    intro hc hbpp
    rw [hc] at hwd hht
    simp only [Bool.false_eq_true, if_false] at hwd hht
    rw [hwd, hht, hbpp] at hpr
    exact EditQt.decode_16_bit_accesses fuel l (by omega) hlt hfuel
  have h32 : EditQt.compressed format = false → bpp = 32 →
      l.pixels_required = l.real_width * l.real_height * 4 := by
    intro hc hbpp
    rw [hc] at hwd hht
    simp only [Bool.false_eq_true, if_false] at hwd hht
    rw [hwd, hht, hbpp] at hpr
    omega
  have hdxt : ∀ c, EditQt.compressed format = true → bpp = 4 * c →
      l.pixels_required = (l.real_height + 3) / 4 * ((l.real_width + 3) / 4 * (8 * c)) := by
    intro c hc hbpp
    rw [hc] at hwd hht
    simp only [if_true] at hwd hht
    rw [hwd, hht, hbpp, EditQt.dxt_pixels_required] at hpr
    exact hpr
  cases format
  case BITMAP_DATA_FORMAT_A1R5G5B5 =>
    obtain ⟨acc, h1, h2, h3⟩ := h16 rfl (by simpa [EditQt.bits_per_pixel] using hb.symm)
    exact ⟨acc, by simp [EditQt.decode, h1], h2, h3, by simp, fun _ => h1⟩
  case BITMAP_DATA_FORMAT_R5G6B5 =>
    obtain ⟨acc, h1, h2, h3⟩ := h16 rfl (by simpa [EditQt.bits_per_pixel] using hb.symm)
    exact ⟨acc, by simp [EditQt.decode, h1], h2, h3, by simp, fun _ => h1⟩
  case BITMAP_DATA_FORMAT_A4R4G4B4 =>
    obtain ⟨acc, h1, h2, h3⟩ := h16 rfl (by simpa [EditQt.bits_per_pixel] using hb.symm)
    exact ⟨acc, by simp [EditQt.decode, h1], h2, h3, by simp, fun _ => h1⟩
  case BITMAP_DATA_FORMAT_A8Y8 =>
    obtain ⟨acc, h1, h2, h3⟩ := h16 rfl (by simpa [EditQt.bits_per_pixel] using hb.symm)
    exact ⟨acc, by simp [EditQt.decode, h1], h2, h3, by simp, fun _ => h1⟩
  case BITMAP_DATA_FORMAT_A8R8G8B8 =>
    have hp := h32 rfl (by simpa [EditQt.bits_per_pixel] using hb.symm)
    exact ⟨_, rfl, (EditQt.memcpy_accesses l hp).1, (EditQt.memcpy_accesses l hp).2,
      by simp, by simp⟩
  case BITMAP_DATA_FORMAT_X8R8G8B8 =>
    have hp := h32 rfl (by simpa [EditQt.bits_per_pixel] using hb.symm)
    exact ⟨_, rfl, (EditQt.memcpy_accesses l hp).1, (EditQt.memcpy_accesses l hp).2,
      by simp, by simp⟩
  case BITMAP_DATA_FORMAT_DXT5 =>
    have hp := hdxt 2 rfl (by simpa [EditQt.bits_per_pixel] using hb.symm)
    have ha := EditQt.dxt_accesses 16 (fun input => [.read input EditQt.DXT5_block_size]) l
      (fun p => by simp [EditQt.bytes_read, EditQt.Access.bytes, EditQt.DXT5_block_size])
      (fun p => rfl) hp
    exact ⟨_, rfl, ha.1, ha.2, by simp, by simp⟩
  case BITMAP_DATA_FORMAT_DXT3 =>
    have hp := hdxt 2 rfl (by simpa [EditQt.bits_per_pixel] using hb.symm)
    have ha := EditQt.dxt_accesses 16
      (fun input => [.read (input + 8) EditQt.DXT1_block_size, .read input 8]) l
      (fun p => by
        rw [EditQt.bytes_read_read, EditQt.bytes_read_read, EditQt.bytes_read_nil,
          List.append_nil, EditQt.DXT1_block_size]
        have h : List.range' p 16 = List.range' p 8 ++ List.range' (p + 8) 8 :=
          (List.range'_append_1 p 8 8).symm
        rw [h]
        exact List.perm_append_comm)
      (fun p => rfl) hp
    exact ⟨_, rfl, ha.1, ha.2, by simp, by simp⟩
  case BITMAP_DATA_FORMAT_A8 =>
    obtain ⟨acc, h1, h2, h3⟩ := h8 rfl (by simpa [EditQt.bits_per_pixel] using hb.symm)
    exact ⟨acc, by simp [EditQt.decode, h1], h2, h3, fun _ => h1, by simp⟩
  case BITMAP_DATA_FORMAT_Y8 =>
    obtain ⟨acc, h1, h2, h3⟩ := h8 rfl (by simpa [EditQt.bits_per_pixel] using hb.symm)
    exact ⟨acc, by simp [EditQt.decode, h1], h2, h3, fun _ => h1, by simp⟩
  case BITMAP_DATA_FORMAT_P8_BUMP =>
    obtain ⟨acc, h1, h2, h3⟩ := h8 rfl (by simpa [EditQt.bits_per_pixel] using hb.symm)
    exact ⟨acc, by simp [EditQt.decode, h1], h2, h3, fun _ => h1, by simp⟩
  case BITMAP_DATA_FORMAT_AY8 =>
    obtain ⟨acc, h1, h2, h3⟩ := h8 rfl (by simpa [EditQt.bits_per_pixel] using hb.symm)
    exact ⟨acc, by simp [EditQt.decode, h1], h2, h3, fun _ => h1, by simp⟩
  case BITMAP_DATA_FORMAT_DXT1 =>
    have hp := hdxt 1 rfl (by simpa [EditQt.bits_per_pixel] using hb.symm)
    have ha := EditQt.dxt_accesses 8 (fun input => [.read input EditQt.DXT1_block_size]) l
      (fun p => by simp [EditQt.bytes_read, EditQt.Access.bytes, EditQt.DXT1_block_size])
      (fun p => rfl) hp
    exact ⟨_, rfl, ha.1, ha.2, by simp, by simp⟩
  case other => simp [EditQt.bits_per_pixel] at hb

theorem EditQt.find_the_offset_real (d : EditQt.BitmapData) (bpp m i : Nat) :
    (EditQt.find_the_offset d bpp m i).real_width = max 1 (d.width / 2 ^ m) ∧
    (EditQt.find_the_offset d bpp m i).real_height = max 1 (d.height / 2 ^ m) := by
  obtain ⟨hw, hh⟩ := EditQt.mipmap_loop_real d bpp m
  unfold EditQt.find_the_offset
  simp only [hw, hh]
  constructor <;> split_ifs <;> omega

/-! ## C27: the decode step stays inside the pixel data and the output buffer -/

/-- C27: for a format the preview supports, base width and height at least 1
(16-bit, as the tag stores them) and, for a DXT format, multiples of 4, and
for every mipmap and index: when lines 271-274 find enough data
(offset < data size and data size − offset ≥ pixels_required), the function
reaches the decode step and the decode step ends; it reads every byte of the
pixels_required bytes from offset on exactly once, all of them inside the pixel
data, and it writes only entries below real_width · real_height of `data`.
For the 8-bit formats the loop of decode_8_bit, and for the 16-bit formats
the loop of decode_16_bit, ends with pixels_left equal to zero. -/
theorem EditQt.decode_stays_in_bounds (fuel : Nat) (d : EditQt.BitmapData)
    (bpp m i data_remaining : Nat) (hb : EditQt.bits_per_pixel d.format = some bpp)
    (hw : 1 ≤ d.width) (hh : 1 ≤ d.height) (hw16 : d.width < 65536) (hh16 : d.height < 65536)
    (hc : EditQt.compressed d.format = true → 4 ∣ d.width ∧ 4 ∣ d.height)
    (hoff : (EditQt.find_the_offset d bpp m i).offset < data_remaining)
    (hleft : data_remaining - (EditQt.find_the_offset d bpp m i).offset
      ≥ (EditQt.find_the_offset d bpp m i).pixels_required)
    (hfuel : (EditQt.find_the_offset d bpp m i).pixels_required ≤ fuel) :
    ∃ accesses,
      EditQt.draw_bitmap_to_widget fuel d m i data_remaining
        = some (.decoded (EditQt.find_the_offset d bpp m i) accesses) ∧
      (EditQt.bytes_read accesses).Perm
        (List.range' (EditQt.find_the_offset d bpp m i).offset
          (EditQt.find_the_offset d bpp m i).pixels_required) ∧
      (∀ b ∈ EditQt.bytes_read accesses, b < data_remaining) ∧
      (∀ j ∈ EditQt.indices_written accesses,
        j < (EditQt.find_the_offset d bpp m i).real_width
          * (EditQt.find_the_offset d bpp m i).real_height) ∧
      (d.format ∈ [.BITMAP_DATA_FORMAT_A8, .BITMAP_DATA_FORMAT_Y8, .BITMAP_DATA_FORMAT_AY8,
          .BITMAP_DATA_FORMAT_P8_BUMP] →
        EditQt.decode_8_bit fuel (EditQt.find_the_offset d bpp m i).pixels_required
          (EditQt.find_the_offset d bpp m i).offset = some (accesses, 0)) ∧
      (d.format ∈ [.BITMAP_DATA_FORMAT_A1R5G5B5, .BITMAP_DATA_FORMAT_R5G6B5,
          .BITMAP_DATA_FORMAT_A4R4G4B4, .BITMAP_DATA_FORMAT_A8Y8] →
        EditQt.decode_16_bit fuel (EditQt.find_the_offset d bpp m i).pixels_required
          (EditQt.find_the_offset d bpp m i).offset = some (accesses, 0)) := by
  obtain ⟨hrw, hrh⟩ := EditQt.find_the_offset_real d bpp m i
  obtain ⟨hdw, hdh⟩ := EditQt.mipmap_loop_dimensions d bpp m hw hh hc
  have hsize := EditQt.mipmap_loop_level_size d bpp m hb hw hh hw16 hh16 hc
  have hwidth : (EditQt.find_the_offset d bpp m i).width
      = EditQt.level_dimension (EditQt.compressed d.format) d.width m := hdw
  have hheight : (EditQt.find_the_offset d bpp m i).height
      = EditQt.level_dimension (EditQt.compressed d.format) d.height m := hdh
  have hpr : (EditQt.find_the_offset d bpp m i).pixels_required = EditQt.level_size d bpp m :=
    hsize
  have hbpp := EditQt.bits_per_pixel_le hb
  have hW := EditQt.level_dimension_le (EditQt.compressed d.format) d.width m hw16
  have hH := EditQt.level_dimension_le (EditQt.compressed d.format) d.height m hh16
  have hlt : (EditQt.find_the_offset d bpp m i).pixels_required < 18446744073709551616 := by
    rw [hpr, EditQt.level_size]
    have hprod : EditQt.level_dimension (EditQt.compressed d.format) d.width m
        * EditQt.level_dimension (EditQt.compressed d.format) d.height m * bpp
        ≤ 65536 * 65536 * 32 := Nat.mul_le_mul (Nat.mul_le_mul hW hH) hbpp
    omega
  obtain ⟨accesses, hdec, hperm, hwrites, h8, h16⟩ :=
    EditQt.decode_accesses fuel d.format (EditQt.find_the_offset d bpp m i) bpp hb
      (by rw [hwidth, hrw]; rfl) (by rw [hheight, hrh]; rfl)
      (by rw [hpr, hwidth, hheight]; rfl) hlt hfuel
  refine ⟨accesses, ?_, hperm, ?_, hwrites, h8, h16⟩
  · unfold EditQt.draw_bitmap_to_widget
    simp only [hb]
    rw [if_neg (by omega), hdec]
    rfl
  · intro b hb'
    have := (hperm.mem_iff).mp hb'
    rw [List.mem_range'_1] at this
    omega

/-- Mipmap 1 of the 8×4 A8Y8 texture, stored at bytes 80..95 of 128, and
mipmap 1 of the 8×8 DXT3 texture, stored at bytes 64..79 of 96. -/
theorem EditQt.decode_stays_in_bounds_witness :
    (∃ accesses,
      EditQt.draw_bitmap_to_widget 16 a8y8_8x4 1 0 128
        = some (.decoded (EditQt.find_the_offset a8y8_8x4 16 1 0) accesses) ∧
      (EditQt.bytes_read accesses).Perm (List.range' 80 16) ∧
      EditQt.decode_16_bit 16 16 80 = some (accesses, 0)) ∧
    (∃ accesses,
      EditQt.draw_bitmap_to_widget 16 dxt3_8x8 1 0 96
        = some (.decoded (EditQt.find_the_offset dxt3_8x8 8 1 0) accesses) ∧
      (EditQt.bytes_read accesses).Perm (List.range' 64 16) ∧
      ∀ j ∈ EditQt.indices_written accesses, j < 4 * 4) :=
  ⟨(EditQt.decode_stays_in_bounds 16 a8y8_8x4 16 1 0 128 rfl (by decide) (by decide)
      (by decide) (by decide) (by decide) (by decide) (by decide) (by decide)).imp
      fun _ h => ⟨h.1, h.2.1, h.2.2.2.2.2 (by decide)⟩,
    (EditQt.decode_stays_in_bounds 16 dxt3_8x8 8 1 0 96 rfl (by decide) (by decide)
      (by decide) (by decide) (by decide) (by decide) (by decide) (by decide)).imp
      fun _ h => ⟨h.1, h.2.1, h.2.2.2.1⟩⟩

end Invader
